import Mathlib

/-!
# SerialPortGateway: a shallow embedding and its verified properties

The development embeds the device-lifecycle core of `SerialPortGateway.cpp`
(message parsing, the admission pipeline `addSerialDevice`, the registry and the
reader-state map) as executable Lean definitions and proves properties of them.

Modelling conventions

* `std::string` is a list of characters (`Str`).
* A position returned by `find` / `find_first_of` is an `Option Nat`; `none` stands
  for `std::string::npos`. Where the source does arithmetic on such a position
  before testing it (hardware-ID extraction) the position is converted to a
  64-bit `size_t` by `sizeT` and the arithmetic is taken modulo `2 ^ 64`.
* `std::map` is an association list kept in ascending key order.
* The serial library, the file system and the logger are external. Their
  observable use is recorded as a chronological list of `Event`s, and the answers
  of the outside world are supplied by a `Transport` oracle that may depend on
  the events recorded so far. A method of the gateway that is called by another
  method records its own events from the start; the caller appends them to its own.
* A call ends with `return` or with something in `Thrown`: an exception, or
  undefined behaviour (a null dereference, the read of an uninitialised variable,
  the increment of an invalidated iterator) at the place where the source meets it.
* Threads are not run in parallel: starting one is an event, and the body of a
  thread is a function of its own. The read loop takes fuel for its passes.
-/

namespace SerialPortGateway

/-! ## Strings -/

/-- The type `std::string`, as a list of characters. -/
abbrev Str := List Char

/-- The type `StringPair` of the source: `std::pair<std::string, std::string>`. -/
abbrev StringPair := Str × Str

/-- The constant `CHAR_SPACE`. -/
def CHAR_SPACE : Str := [' ']

/-- The constant `CHAR_NEWLINE`. -/
def CHAR_NEWLINE : Str := ['\n']

/-- The constant `CHAR_CARRIAGE_RETURN`. -/
def CHAR_CARRIAGE_RETURN : Str := ['\r']

/-- Scan `s` for the first character that occurs in `chars`; `i` is the index of the
head of `s` in the string being searched. -/
def findFirstOfFrom (chars : Str) : Str → Nat → Option Nat
  | [], _ => none
  | c :: cs, i => if c ∈ chars then some i else findFirstOfFrom chars cs (i + 1)

/-- The call `s.find_first_of(chars, pos)`: the index of the first character at or after
`pos` that is one of the characters of `chars`; `none` is `npos`. -/
def find_first_of (s chars : Str) (pos : Nat) : Option Nat :=
  findFirstOfFrom chars (s.drop pos) pos

/-- Scan `s` for the first position at which `key` starts; `i` is the index of the head
of `s` in the string being searched. -/
def findFrom (key : Str) : Str → Nat → Option Nat
  | [], i => if key = [] then some i else none
  | c :: cs, i => if key.isPrefixOf (c :: cs) then some i else findFrom key cs (i + 1)

/-- The call `s.find(key)`: the index at which the first occurrence of the whole string
`key` starts; `none` is `npos`. -/
def find (s key : Str) : Option Nat :=
  findFrom key s 0

/-- The call `s.substr(pos, len)` for `pos ≤ s.size()`: at most `len` characters from
index `pos` on. Every call site of the embedding stays within `pos ≤ s.size()`, where
the C++ function does not throw. -/
def substr (s : Str) (pos len : Nat) : Str :=
  (s.drop pos).take len

/-! ## Message parser -/

/-- The function `SerialPortGateway::parseMessage`. -/
def parseMessage (message delimiter : Str) : StringPair :=
  match find_first_of message delimiter 0,
        find_first_of message (CHAR_NEWLINE ++ CHAR_CARRIAGE_RETURN) 0 with
  | some delimiterPos, some messageEnd =>
      let type := substr message 0 delimiterPos
      if delimiterPos < messageEnd then
        (type, substr message (delimiterPos + 1) ((messageEnd - 1) - delimiterPos))
      else
        (type, [])
  | _, _ => ([], [])

/-! ## Exceptions, events and the outside world -/

/-- The three exception classes of the serial library; each carries its `what()` text.
In the library none of them derives from another. -/
inductive SerialError where
  | IOException (what : Str)
  | SerialException (what : Str)
  | PortNotOpenedException (what : Str)
  deriving DecidableEq, Repr

/-- Everything that can leave a function of the embedding other than by `return`:
an exception of the serial library, the `std::invalid_argument` of
`SerialDevice::setPort`, the `Exception` of the repository, or undefined behaviour: the dereference of a null pointer, the
read of an uninitialised variable, the increment of an iterator whose element has been
erased. -/
inductive Thrown where
  | serial (e : SerialError)
  | invalid_argument
  | nullDereference
  | uninitializedRead
  | invalidIterator
  /-- The class `Exception` of the repository, with its text. -/
  | exception (what : Str)
  deriving DecidableEq, Repr

/-- The observable actions of the gateway, in the order in which they happen. -/
inductive Event where
  /-- The probe `std::ifstream( path )`. -/
  | ifstream (path : Str)
  /-- A call of `serial::list_ports()`. -/
  | list_ports
  /-- Construction of a `serial::Serial`, which opens the port. -/
  | open (port : Str) (baudRate timeout : Nat)
  /-- A call of `Serial::flush` on the session of `port`. -/
  | flush (port : Str)
  /-- A call of `Serial::write` on the session of `port`. -/
  | write (port : Str) (data : Str)
  /-- A call of `Serial::readline` on the session of `port`. -/
  | readline (port : Str)
  /-- A call of `Serial::close` on the session of `port`. -/
  | close (port : Str)
  /-- A call of `std::this_thread::sleep_for`. -/
  | sleep (milliseconds : Nat)
  /-- A call of `Logger::writeInfo`. -/
  | writeInfo (text : Str)
  /-- A call of `Logger::writeWarn`. -/
  | writeWarn (text : Str)
  /-- A call of `Logger::writeError`. -/
  | writeError (text : Str)
  /-- A detached thread running `serialDeviceAddedCallback`. -/
  | serialDeviceAddedCallback (deviceId serialPort : Str)
  /-- A detached thread running `serialDeviceDeletedCallback`. -/
  | serialDeviceDeletedCallback (deviceId serialPort : Str)
  /-- A detached thread running `readLoop`. -/
  | readLoop (deviceId : Str)
  /-- A detached thread running `processMessage`. -/
  | processMessage (deviceId message : Str)
  /-- A detached thread running `sendMessageToSerialDeviceAsync`. -/
  | sendMessageToSerialDeviceAsync (deviceId message : Str)
  /-- A detached thread running `addNewSerialPortsLoop`. -/
  | addNewSerialPortsLoop
  deriving DecidableEq, Repr

/-- Whether an event is an operation of the serial transport (open, flush, write,
read, close) on the given port. -/
def Event.isTransportOn (serialPort : Str) : Event → Bool
  | .open port _ _ => port = serialPort
  | .flush port => port = serialPort
  | .write port _ => port = serialPort
  | .readline port => port = serialPort
  | .close port => port = serialPort
  | _ => false

/-- Whether an event is a call of `Serial::write`. -/
def Event.isWrite : Event → Bool
  | .write _ _ => true
  | _ => false

/-- Whether an event opens a transport session on the given port. -/
def Event.isOpenOn (serialPort : Str) : Event → Bool
  | .open port _ _ => port = serialPort
  | _ => false

/-- The structure `serial::PortInfo`, as far as the gateway reads it. -/
structure PortInfo where
  port : Str
  hardware_id : Str
  deriving DecidableEq, Repr

/-- The answers of the outside world. An answer of the transport may depend on the
port and on the events recorded so far in the running call. -/
structure Transport where
  /-- Whether `std::ifstream( path )` opens for a non-empty path. -/
  ifstream : Str → Bool
  /-- The result of `serial::list_ports()`. -/
  list_ports : List PortInfo
  /-- The result of constructing a `serial::Serial` on a port. -/
  «open» : Str → List Event → Except SerialError Unit
  /-- The result of `Serial::flush`. -/
  flush : Str → List Event → Except SerialError Unit
  /-- The result of `Serial::write`: the number of bytes written. -/
  write : Str → Str → List Event → Except SerialError Nat
  /-- The result of `Serial::readline`. -/
  readline : Str → List Event → Except SerialError Str
  /-- The result of `Serial::close`. -/
  close : Str → List Event → Except SerialError Unit

/-- The test `std::ifstream( path )` of the source: a stream on the empty path never
opens, any other path is answered by the outside world. -/
def fileOpens (env : Transport) (path : Str) : Bool :=
  !path.isEmpty && env.ifstream path

/-- Turn an answer of the transport into a result of the embedding. -/
def liftSerial {α : Type} : Except SerialError α → Except Thrown α
  | .ok a => .ok a
  | .error e => .error (.serial e)

/-! ## Device records -/

/-- An open session `serial::Serial`, identified by what it was opened with. -/
structure Serial where
  port : Str
  baudrate : Nat
  timeout : Nat
  deriving DecidableEq, Repr

/-- The class `SerialDevice`. The byte size, parity, stop bits and flow control are
the constructor defaults in every record the gateway builds and are left out. -/
structure SerialDevice where
  port : Str
  baudRate : Nat
  timeout : Nat
  id : Str
  serialInstance : Option Serial
  deriving DecidableEq, Repr

/-- The constructor of `SerialDevice`: `setPort` throws on an empty port. -/
def SerialDevice.new (port : Str) (baudRate timeout : Nat) : Except Thrown SerialDevice :=
  if port = [] then .error .invalid_argument
  else .ok { port := port, baudRate := baudRate, timeout := timeout, id := [], serialInstance := none }

/-- The method `SerialDevice::setId`. -/
def SerialDevice.setId (dev : SerialDevice) (id : Str) : SerialDevice :=
  { dev with id := id }

/-- The method `SerialDevice::init`: open a session unless there is one already. -/
def SerialDevice.init (env : Transport) (dev : SerialDevice) (tr : List Event) :
    Except Thrown SerialDevice × List Event :=
  match dev.serialInstance with
  | some _ => (.ok dev, tr)
  | none =>
      match env.open dev.port tr with
      | .ok _ =>
          (.ok { dev with serialInstance := some ⟨dev.port, dev.baudRate, dev.timeout⟩ },
            tr ++ [Event.open dev.port dev.baudRate dev.timeout])
      | .error e => (.error (.serial e), tr ++ [Event.open dev.port dev.baudRate dev.timeout])

/-- The call `serialInstance->flush()`. -/
def Serial.flush (env : Transport) (serialInstance : Option Serial) (tr : List Event) :
    Except Thrown Unit × List Event :=
  match serialInstance with
  | none => (.error .nullDereference, tr)
  | some s => (liftSerial (env.flush s.port tr), tr ++ [Event.flush s.port])

/-- The call `serialInstance->write( data )`. -/
def Serial.write (env : Transport) (serialInstance : Option Serial) (data : Str)
    (tr : List Event) : Except Thrown Nat × List Event :=
  match serialInstance with
  | none => (.error .nullDereference, tr)
  | some s => (liftSerial (env.write s.port data tr), tr ++ [Event.write s.port data])

/-- The call `serialInstance->readline()`. -/
def Serial.readline (env : Transport) (serialInstance : Option Serial) (tr : List Event) :
    Except Thrown Str × List Event :=
  match serialInstance with
  | none => (.error .nullDereference, tr)
  | some s => (liftSerial (env.readline s.port tr), tr ++ [Event.readline s.port])

/-- The call `serialInstance->close()`. -/
def Serial.close (env : Transport) (serialInstance : Option Serial) (tr : List Event) :
    Except Thrown Unit × List Event :=
  match serialInstance with
  | none => (.error .nullDereference, tr)
  | some s => (liftSerial (env.close s.port tr), tr ++ [Event.close s.port])

/-! ## Ordered maps -/

/-- The call `m.find( k )` of a `std::map` with string keys: the value stored under `k`. -/
def mapFind {β : Type} : List (Str × β) → Str → Option β
  | [], _ => none
  | (k', v) :: rest, k => if k' = k then some v else mapFind rest k

/-- The assignment `m[k] = v` of a `std::map` with string keys: the entry is put at its
place in ascending key order, replacing an entry with the same key. -/
def mapInsert {β : Type} (k : Str) (v : β) : List (Str × β) → List (Str × β)
  | [] => [(k, v)]
  | (k', v') :: rest =>
      if k < k' then (k, v) :: (k', v') :: rest
      else if k = k' then (k, v) :: rest
      else (k', v') :: mapInsert k v rest

/-- The call `m.erase( k )` of a `std::map` with string keys. -/
def mapErase {β : Type} (k : Str) (m : List (Str × β)) : List (Str × β) :=
  m.filter (fun entry => entry.1 ≠ k)

/-! ## Gateway state -/

/-- The type `StringSet` of the source (`std::set<std::string>`), read only through
membership tests. -/
abbrev StringSet := List Str

/-- The type `SerialDeviceMap`: device ID to device record. -/
abbrev SerialDeviceMap := List (Str × SerialDevice)

/-- The type `AtomicBoolPairMap`: device ID to the pair (started, quitted) of its
read loop. -/
abbrev AtomicBoolPairMap := List (Str × (Bool × Bool))

/-- The member variables of `SerialPortGateway` that the core reads or writes. -/
structure Gateway where
  scanInterval : Nat
  waitBeforeCommunication : Nat
  baudRate : Nat
  messageDelimiter : Str
  commandToGetDeviceId : Str
  messageTypeForIds : Str
  started : Bool
  hardwareWhitelist : StringSet
  serialPortBlacklist : StringSet
  serialDevices : SerialDeviceMap
  readLoopStates : AtomicBoolPairMap
  deriving DecidableEq, Repr

/-- What a call leaves behind: how it ended (`.ok v` for `return v`, `.error e` for an
exception that left the function), the gateway afterwards, and the events of the call. -/
structure Result (α : Type) where
  outcome : Except Thrown α
  state : Gateway
  trace : List Event

/-- The method `isHardwareWhitelistEmpty`. -/
def isHardwareWhitelistEmpty (g : Gateway) : Bool :=
  g.hardwareWhitelist.isEmpty

/-- The method `hasHardwareWhitelistEntry`. -/
def hasHardwareWhitelistEntry (g : Gateway) (hardwareId : Str) : Bool :=
  if hardwareId ∈ g.hardwareWhitelist then true else false

/-- The method `hasSerialPortBlacklistEntry`. -/
def hasSerialPortBlacklistEntry (g : Gateway) (serialPort : Str) : Bool :=
  if serialPort ∈ g.serialPortBlacklist then true else false

/-- The method `getSerialDeviceById`. -/
def getSerialDeviceById (g : Gateway) (deviceId : Str) : Option SerialDevice :=
  mapFind g.serialDevices deviceId

/-- The method `getSerialDeviceByPort`: the loop runs over all entries, so the last
record on the port is the one returned. -/
def getSerialDeviceByPort (g : Gateway) (serialPort : Str) : Option SerialDevice :=
  g.serialDevices.foldl
    (fun serialDevice entry => if entry.2.port = serialPort then some entry.2 else serialDevice)
    none

/-- The method `setReadLoopStarted`: `operator[]` creates the pair (false, false) for
an absent device ID. -/
def setReadLoopStarted (g : Gateway) (deviceId : Str) (started : Bool) : Gateway :=
  let quitted := ((mapFind g.readLoopStates deviceId).getD (false, false)).snd
  { g with readLoopStates := mapInsert deviceId (started, quitted) g.readLoopStates }

/-- The method `isReadLoopStarted`. -/
def isReadLoopStarted (g : Gateway) (deviceId : Str) : Bool :=
  match mapFind g.readLoopStates deviceId with
  | some state => state.1
  | none => false

/-- The method `startReadLoop`: set the started flag and detach the reader thread. -/
def startReadLoop (g : Gateway) (deviceId : Str) (tr : List Event) : Gateway × List Event :=
  (setReadLoopStarted g deviceId true, tr ++ [Event.readLoop deviceId])

/-! ## Hardware-ID extraction -/

/-- The value `std::string::npos` of a 64-bit `size_t`. -/
def npos : Nat := 2 ^ 64 - 1

/-- A position as the `size_t` the library returns. -/
def sizeT : Option Nat → Nat
  | some i => i % 2 ^ 64
  | none => npos

/-- The loop of `addSerialDevice` over `serial::list_ports()`: the descriptor of the
first enumerated entry on the port, the empty string if there is none. -/
def lookupHardwareId (ports : List PortInfo) (serialPort : Str) : Str :=
  match ports.find? (fun serialPortInfo => serialPortInfo.port = serialPort) with
  | some serialPortInfo => serialPortInfo.hardware_id
  | none => []

/-- The extraction of the value behind the key `VID:PID=` in `addSerialDevice`
(lines 427-441); `none` is the branch "the Hardware ID could not be retrieved". -/
def extractHardwareId (hardwareId : Str) : Option Str :=
  let key := "VID:PID=".toList
  let keyPosition := sizeT (find hardwareId key)
  let valuePosition := (keyPosition + key.length) % 2 ^ 64
  let hardwareIdLength :=
    (sizeT (find_first_of hardwareId [' '] valuePosition) + 2 ^ 64 - valuePosition) % 2 ^ 64
  if keyPosition ≠ npos ∧ hardwareIdLength ≠ npos then
    some (substr hardwareId valuePosition hardwareIdLength)
  else
    none

/-- The hardware ID that admission extracts for a port: the descriptor of the port
among the enumerated ports, passed through `extractHardwareId`. -/
def extractedHardwareId (env : Transport) (serialPort : Str) : Option Str :=
  extractHardwareId (lookupHardwareId env.list_ports serialPort)

/-- The whitelist block of `addSerialDevice` (lines 406-449): whether admission goes on,
and the events so far. -/
def whitelistCheck (env : Transport) (g : Gateway) (serialPort : Str) (tr : List Event) :
    Bool × List Event :=
  if !isHardwareWhitelistEmpty g then
    match extractedHardwareId env serialPort with
    | some hardwareId =>
        if !hasHardwareWhitelistEntry g hardwareId then
          (false, tr ++ [Event.list_ports, Event.writeWarn
            ("Didn't add device on port \"".toList ++ serialPort ++
              "\", because Hardware ID \"".toList ++ hardwareId ++
              "\" is not whitelisted.".toList)])
        else
          (true, tr ++ [Event.list_ports])
    | none =>
        (false, tr ++ [Event.list_ports, Event.writeWarn
          ("Couldn't add device on port \"".toList ++ serialPort ++
            "\", because the Hardware ID could not be retrieved.".toList)])
  else
    (true, tr)

/-! ## Admission -/

/-- The method `retrieveDeviceId`: whether the ID was retrieved, and the device record
afterwards. -/
def retrieveDeviceId (env : Transport) (g : Gateway) (serialDevice : SerialDevice)
    (tr : List Event) : Except Thrown (Bool × SerialDevice) × List Event :=
  let commandToGetDeviceId := g.commandToGetDeviceId ++ CHAR_NEWLINE
  let serialInstance := serialDevice.serialInstance
  match Serial.flush env serialInstance tr with
  | (.error e, tr1) => (.error e, tr1)
  | (.ok _, tr1) =>
    match Serial.write env serialInstance commandToGetDeviceId tr1 with
    | (.error e, tr2) => (.error e, tr2)
    | (.ok _, tr2) =>
      match Serial.readline env serialInstance tr2 with
      | (.error e, tr3) => (.error e, tr3)
      | (.ok message, tr3) =>
        let parsedMessage := parseMessage message g.messageDelimiter
        let type := parsedMessage.1
        let deviceId := parsedMessage.2
        if type = g.messageTypeForIds ∧ deviceId ≠ [] then
          (.ok (true, serialDevice.setId deviceId), tr3)
        else
          (.ok (false, serialDevice), tr3)

/-- The `try` block of `addSerialDevice` (lines 456-459): open, settle, handshake,
flush. -/
def admissionTry (env : Transport) (g : Gateway) (serialDevice : SerialDevice)
    (tr : List Event) : Except Thrown (Bool × SerialDevice) × List Event :=
  match SerialDevice.init env serialDevice tr with
  | (.error e, tr1) => (.error e, tr1)
  | (.ok serialDevice1, tr1) =>
    match retrieveDeviceId env g serialDevice1 (tr1 ++ [Event.sleep g.waitBeforeCommunication]) with
    | (.error e, tr2) => (.error e, tr2)
    | (.ok (idRetrieved, serialDevice2), tr2) =>
      match Serial.flush env serialDevice2.serialInstance tr2 with
      | (.error e, tr3) => (.error e, tr3)
      | (.ok _, tr3) => (.ok (idRetrieved, serialDevice2), tr3)

/-- The text logged by the `catch` clauses of `addSerialDevice`. -/
def admissionErrorText (serialPort : Str) : SerialError → Str
  | .IOException what =>
      "Couldn't add serial device on port \"".toList ++ serialPort ++
        "\" due to an IOException: ".toList ++ what
  | .SerialException what =>
      "Couldn't add serial device on port \"".toList ++ serialPort ++
        "\" due to an SerialException: ".toList ++ what
  | .PortNotOpenedException what =>
      "Couldn't add serial device on port \"".toList ++ serialPort ++
        "\" due to an PortNotOpenedException: ".toList ++ what

/-- The method `SerialPortGateway::addSerialDevice`. -/
def addSerialDevice (env : Transport) (g : Gateway) (serialPort : Str) (suppressLogs : Bool) :
    Result Bool :=
  let tr0 := [Event.ifstream serialPort]
  if !fileOpens env serialPort then
    ⟨.ok false, g, tr0 ++ [Event.writeWarn
      ("Couldn't add serial device on port \"".toList ++ serialPort ++
        "\", because it doesn't exist or can not be accessed.".toList)]⟩
  else if hasSerialPortBlacklistEntry g serialPort then
    ⟨.ok false, g, tr0 ++ (if !suppressLogs then [Event.writeWarn
      ("Didn't add serial device on port \"".toList ++ serialPort ++
        "\", because the port is blacklisted.".toList)] else [])⟩
  else
    match getSerialDeviceByPort g serialPort with
    | some tempSerialDevice =>
      ⟨.ok false, g, tr0 ++ (if !suppressLogs then [Event.writeWarn
        ("Couldn't add serial device on port \"".toList ++ serialPort ++
          "\", because it has already been registered with ID \"".toList ++
          tempSerialDevice.id ++ "\".".toList)] else [])⟩
    | none =>
      match whitelistCheck env g serialPort tr0 with
      | (false, tr1) => ⟨.ok false, g, tr1⟩
      | (true, tr1) =>
        match SerialDevice.new serialPort g.baudRate 250 with
        | .error e => ⟨.error e, g, tr1⟩
        | .ok serialDevice0 =>
          match admissionTry env g serialDevice0 tr1 with
          | (.error (.serial e), tr2) =>
            ⟨.ok false, g, tr2 ++ [Event.writeError (admissionErrorText serialPort e)]⟩
          | (.error e, tr2) => ⟨.error e, g, tr2⟩
          | (.ok (idRetrieved, serialDevice), tr2) =>
            if !idRetrieved then
              ⟨.ok false, g, tr2 ++ [Event.writeError
                ("Couldn't add serial device on port \"".toList ++ serialPort ++
                  "\", because the device didn't respond with a valid message containing the ID, or the ID was empty.".toList)]⟩
            else
              let deviceId := serialDevice.id
              match mapFind g.serialDevices deviceId with
              | none =>
                let g1 := { g with serialDevices := mapInsert deviceId serialDevice g.serialDevices }
                let tr3 := tr2 ++ [Event.writeInfo
                    ("Added Serial Device with ID \"".toList ++ deviceId ++
                      "\" on port \"".toList ++ serialPort ++ "\".".toList),
                  Event.serialDeviceAddedCallback deviceId serialPort]
                let started := startReadLoop g1 deviceId tr3
                ⟨.ok true, started.1, started.2⟩
              | some existing =>
                ⟨.ok false, g, tr2 ++ [Event.writeError
                  ("Serial Device with ID \"".toList ++ deviceId ++
                    "\" already exists on port \"".toList ++ existing.port ++
                    "\". Can't add device with the same ID on port \"".toList ++
                    serialPort ++ "\".".toList)]⟩

/-! ## Deletion -/

/-- The method `stopReadLoop`. -/
def stopReadLoop (g : Gateway) (deviceId : Str) : Gateway :=
  setReadLoopStarted g deviceId false

/-- The method `setReadLoopQuitted`: `operator[]` creates the pair (false, false) for
an absent device ID. -/
def setReadLoopQuitted (g : Gateway) (deviceId : Str) (quitted : Bool) : Gateway :=
  let started := ((mapFind g.readLoopStates deviceId).getD (false, false)).fst
  { g with readLoopStates := mapInsert deviceId (started, quitted) g.readLoopStates }

/-- The method `isReadLoopQuitted`. -/
def isReadLoopQuitted (g : Gateway) (deviceId : Str) : Bool :=
  match mapFind g.readLoopStates deviceId with
  | some state => state.2
  | none => true

/-- The body of the `try` block of `deleteSerialDevice` (lines 604-605): flush, then
close. -/
def deleteTry (env : Transport) (s : Serial) : Except Thrown Unit × List Event :=
  match Serial.flush env (some s) [] with
  | (.error e, tr1) => (.error e, tr1)
  | (.ok _, tr1) => Serial.close env (some s) tr1

/-- The `try` statement of `deleteSerialDevice` with its two `catch` clauses: the value
of `properlyClosed`, or the exception that is not caught. -/
def deleteCatch (deviceId serialPort : Str) :
    Except Thrown Unit × List Event → Except Thrown Bool × List Event
  | (.ok _, tr) => (.ok true, tr)
  | (.error (.serial (.IOException what)), tr) =>
      (.ok false, tr ++ [Event.writeError
        ("Could not properly delete Serial Device with ID \"".toList ++ deviceId ++
          "\" on port \"".toList ++ serialPort ++ "\" due to an IOException: ".toList ++ what)])
  | (.error (.serial (.PortNotOpenedException what)), tr) =>
      (.ok false, tr ++ [Event.writeError
        ("Could not properly delete Serial Device with ID \"".toList ++ deviceId ++
          "\" on port \"".toList ++ serialPort ++
          "\" due to an PortNotOpenedException: ".toList ++ what)])
  | (.error e, tr) => (.error e, tr)

/-- The method `SerialPortGateway::deleteSerialDevice`. The variable `properlyClosed`
is not initialised; it is assigned only when the record has a session. -/
def deleteSerialDevice (env : Transport) (g : Gateway) (deviceId : Str) : Result Bool :=
  match mapFind g.serialDevices deviceId with
  | none =>
      ⟨.ok false, g, [Event.writeWarn
        ("Serial Device with ID \"".toList ++ deviceId ++
          "\" was not found and could therefore not be deleted.".toList)]⟩
  | some device =>
      let g1 := stopReadLoop g deviceId
      let serialPort := device.port
      let numDeleted := (g1.serialDevices.filter (fun entry => entry.1 = deviceId)).length
      let g2 := { g1 with serialDevices := mapErase deviceId g1.serialDevices }
      match device.serialInstance with
      | none => ⟨.error .uninitializedRead, g2, []⟩
      | some s =>
          match deleteCatch deviceId serialPort (deleteTry env s) with
          | (.error e, tr) => ⟨.error e, g1, tr⟩
          | (.ok properlyClosed, tr) =>
              if properlyClosed ∧ numDeleted > 0 then
                ⟨.ok true, g2, tr ++ [Event.writeInfo
                    ("Deleted Serial Device with ID \"".toList ++ deviceId ++
                      "\" on port \"".toList ++ serialPort ++ "\".".toList),
                  Event.serialDeviceDeletedCallback deviceId serialPort]⟩
              else
                ⟨.ok false, g2, tr ++ [Event.writeError
                  ("Could not properly delete Serial Device with ID \"".toList ++ deviceId ++
                    "\" on port \"".toList ++ serialPort ++ "\".".toList)]⟩

/-- The number format of `std::to_string` for an unsigned value. -/
def to_string (n : Nat) : Str :=
  (Nat.repr n).toList

/-- The loop of `deleteAllSerialDevices` over the live map. `entries` are the elements
from the iterator on; the iterator can be incremented only while the element it points
to is still in the map. The counter is an `unsigned int`. -/
def deleteAllLoop (env : Transport) :
    List (Str × SerialDevice) → Gateway → Nat → List Event → Result Nat
  | [], g, numDevicesDeleted, tr => ⟨.ok numDevicesDeleted, g, tr⟩
  | entry :: rest, g, numDevicesDeleted, tr =>
      let r := deleteSerialDevice env g entry.1
      match r.outcome with
      | .error e => ⟨.error e, r.state, tr ++ r.trace⟩
      | .ok deleted =>
          let n := if deleted then (numDevicesDeleted + 1) % 2 ^ 32 else numDevicesDeleted
          match mapFind r.state.serialDevices entry.1 with
          | none => ⟨.error .invalidIterator, r.state, tr ++ r.trace⟩
          | some _ => deleteAllLoop env rest r.state n (tr ++ r.trace)

/-- The method `SerialPortGateway::deleteAllSerialDevices`. -/
def deleteAllSerialDevices (env : Transport) (g : Gateway) (suppressLogs : Bool) : Result Nat :=
  let tr0 := if !suppressLogs then
    [Event.writeInfo "Trying to delete all Serial Devices.".toList] else []
  let r := deleteAllLoop env g.serialDevices g 0 tr0
  match r.outcome with
  | .error e => ⟨.error e, r.state, r.trace⟩
  | .ok numDevicesDeleted =>
      ⟨.ok numDevicesDeleted, r.state, r.trace ++ (if !suppressLogs then
        [Event.writeInfo ("Finished deleting serial devices. Deleted ".toList ++
          to_string numDevicesDeleted ++ " devices.".toList)] else [])⟩

/-! ## Reader and send path -/

/-- One pass through the body of the `while` loop of `readLoop` (lines 681-696). -/
def readLoopIteration (env : Transport) (g : Gateway) (deviceId : Str) (tr : List Event) :
    Result Unit :=
  match getSerialDeviceById g deviceId with
  | none => ⟨.error .nullDereference, g, tr⟩
  | some device =>
      match Serial.readline env device.serialInstance tr with
      | (.ok line, tr1) =>
          if line ≠ [] then ⟨.ok (), g, tr1 ++ [Event.processMessage deviceId line]⟩
          else ⟨.ok (), g, tr1⟩
      | (.error (.serial (.SerialException what)), tr1) =>
          let r := deleteSerialDevice env g deviceId
          ⟨r.outcome.map (fun _ => ()), r.state,
            tr1 ++ [Event.writeError ("Serial Port Error: ".toList ++ what),
              Event.writeInfo ("Deleting Serial Device with ID \"".toList ++ deviceId ++
                "\" due to an read error.".toList)] ++ r.trace⟩
      | (.error e, tr1) => ⟨.error e, g, tr1⟩

/-- The `while` loop of `readLoop`, run for at most `fuel` passes; `none` when the
passes are used up before the loop ends. -/
def readLoopWhile (env : Transport) (deviceId : Str) :
    Nat → Gateway → List Event → Option (Result Unit)
  | 0, _, _ => none
  | fuel + 1, g, tr =>
      if isReadLoopStarted g deviceId then
        let r := readLoopIteration env g deviceId tr
        match r.outcome with
        | .ok _ => readLoopWhile env deviceId fuel r.state r.trace
        | .error _ => some r
      else some ⟨.ok (), g, tr⟩

/-- The method `SerialPortGateway::readLoop`, run for at most `fuel` passes. -/
def readLoop (env : Transport) (fuel : Nat) (g : Gateway) (deviceId : Str) :
    Option (Result Unit) :=
  let tr0 := [Event.writeInfo ("Read loop started for Serial Device with ID \"".toList ++
    deviceId ++ "\".".toList)]
  match readLoopWhile env deviceId fuel (setReadLoopQuitted g deviceId false) tr0 with
  | none => none
  | some r =>
      match r.outcome with
      | .error _ => some r
      | .ok _ =>
          some ⟨.ok (), setReadLoopQuitted r.state deviceId true,
            r.trace ++ [Event.writeInfo ("Read loop stopped for Serial Device with ID \"".toList ++
              deviceId ++ "\".".toList)]⟩

/-- The text of the success log of the send path. -/
def deliveredText (deviceId message : Str) (bytesWritten : Nat) : Str :=
  "Delivered message \"".toList ++ message ++ "\" to device with ID \"".toList ++ deviceId ++
    "\" (Bytes written: ".toList ++ to_string bytesWritten ++ "/".toList ++
    to_string (message.length + 1) ++ ").".toList

/-- The text of the mismatch log of the send path. -/
def notDeliveredText (deviceId message : Str) (bytesWritten : Nat) : Str :=
  "Could not deliver message \"".toList ++ message ++
    "\" properly to device with ID \"".toList ++ deviceId ++
    "\" (Bytes written: ".toList ++ to_string bytesWritten ++ "/".toList ++
    to_string (message.length + 1) ++ ").".toList

/-- The method `SerialPortGateway::sendMessageToSerialDeviceAsync`. -/
def sendMessageToSerialDeviceAsync (env : Transport) (g : Gateway) (deviceId message : Str) :
    Result Unit :=
  match getSerialDeviceById g deviceId with
  | some device =>
      match Serial.write env device.serialInstance (message ++ CHAR_NEWLINE) [] with
      | (.ok bytesWritten, tr) =>
          if bytesWritten = message.length + 1 then
            ⟨.ok (), g, tr ++ [Event.writeInfo (deliveredText deviceId message bytesWritten)]⟩
          else
            ⟨.ok (), g, tr ++ [Event.writeError (notDeliveredText deviceId message bytesWritten)]⟩
      | (.error (.serial (.SerialException what)), tr) =>
          let r := deleteSerialDevice env g deviceId
          ⟨r.outcome.map (fun _ => ()), r.state,
            tr ++ [Event.writeError ("Serial Port Error: ".toList ++ what),
              Event.writeInfo ("Deleting Serial Device with ID \"".toList ++ deviceId ++
                "\" due to an write error.".toList)] ++ r.trace⟩
      | (.error e, tr) => ⟨.error e, g, tr⟩
  | none =>
      ⟨.ok (), g, [Event.writeInfo ("Device with ID \"".toList ++ deviceId ++
        "\" not found. Message \"".toList ++ message ++ "\" can not be delivered.".toList)]⟩

/-- The method `getDeviceIds`: every key is put in front of the vector. -/
def getDeviceIds (g : Gateway) : List Str :=
  g.serialDevices.foldl (fun deviceIds entry => entry.1 :: deviceIds) []

/-- The method `sendMessageToSerialDevice`: detach the sending thread. -/
def sendMessageToSerialDevice (g : Gateway) (deviceId message : Str) : Result Unit :=
  ⟨.ok (), g, [Event.sendMessageToSerialDeviceAsync deviceId message]⟩

/-- The method `broadcastMessageToSerialDevices`: one sending thread per device ID. -/
def broadcastMessageToSerialDevices (g : Gateway) (message : Str) : Result Unit :=
  ⟨.ok (), g, (getDeviceIds g).map (fun deviceId =>
    Event.sendMessageToSerialDeviceAsync deviceId message)⟩

/-! ## Scan and lifecycle -/

/-- The loop of `addNewSerialPorts` over the enumerated ports. The counter is an
`unsigned int`. -/
def addNewSerialPortsFrom (env : Transport) :
    List PortInfo → Gateway → Nat → List Event → Result Nat
  | [], g, numDevicesAdded, tr => ⟨.ok numDevicesAdded, g, tr⟩
  | serialPortInfo :: rest, g, numDevicesAdded, tr =>
      let r := addSerialDevice env g serialPortInfo.port true
      match r.outcome with
      | .error e => ⟨.error e, r.state, tr ++ r.trace⟩
      | .ok added =>
          addNewSerialPortsFrom env rest r.state
            (if added then (numDevicesAdded + 1) % 2 ^ 32 else numDevicesAdded) (tr ++ r.trace)

/-- The method `SerialPortGateway::addNewSerialPorts`. -/
def addNewSerialPorts (env : Transport) (g : Gateway) (suppressLogs : Bool) : Result Nat :=
  let tr0 := (if !suppressLogs then
    [Event.writeInfo "Searching for new serial ports...".toList] else []) ++ [Event.list_ports]
  let r := addNewSerialPortsFrom env env.list_ports g 0 tr0
  match r.outcome with
  | .error e => ⟨.error e, r.state, r.trace⟩
  | .ok numDevicesAdded =>
      ⟨.ok numDevicesAdded, r.state, r.trace ++ (if !suppressLogs then
        [Event.writeInfo ("Finished searching for new serial ports. Added ".toList ++
          to_string numDevicesAdded ++ " devices.".toList)] else [])⟩

/-- The method `SerialPortGateway::start`. -/
def start (g : Gateway) : Result Unit :=
  if g.started then
    ⟨.ok (), g, [Event.writeWarn
      "SerialPortGateway already started, not starting again.".toList]⟩
  else
    ⟨.ok (), { g with started := true },
      [Event.writeInfo "Starting SerialPortGateway.".toList, Event.addNewSerialPortsLoop]⟩

/-- The method `SerialPortGateway::stop`. -/
def stop (env : Transport) (g : Gateway) : Result Unit :=
  if !g.started then
    ⟨.ok (), g, [Event.writeInfo "SerialPortGateway not started. Nothing to be stopped.".toList]⟩
  else
    let r := deleteAllSerialDevices env { g with started := false } false
    ⟨r.outcome.map (fun _ => ()), r.state,
      [Event.writeInfo "Stopping SerialPortGateway.".toList] ++ r.trace⟩

/-- The loop of `addNewSerialPortsLoop`, run for at most `fuel` passes; `none` when the
passes are used up before the loop ends. `scanInterval` is read once, before the loop. -/
def addNewSerialPortsLoopWhile (env : Transport) (scanInterval : Nat) :
    Nat → Gateway → List Event → Option (Result Unit)
  | 0, _, _ => none
  | fuel + 1, g, tr =>
      if g.started then
        let r := addNewSerialPorts env g true
        match r.outcome with
        | .error e => some ⟨.error e, r.state, tr ++ r.trace⟩
        | .ok _ =>
            if scanInterval > 0 then
              addNewSerialPortsLoopWhile env scanInterval fuel r.state
                (tr ++ r.trace ++ [Event.sleep scanInterval])
            else
              some ⟨.ok (), r.state, tr ++ r.trace⟩
      else some ⟨.ok (), g, tr⟩

/-- The method `SerialPortGateway::addNewSerialPortsLoop`, run for at most `fuel`
passes. -/
def addNewSerialPortsLoop (env : Transport) (fuel : Nat) (g : Gateway) : Option (Result Unit) :=
  addNewSerialPortsLoopWhile env g.scanInterval fuel g []

/-- What `addSerialDevice` returns for each enumerated port in turn, every call starting
from the gateway the call before it left: true where the port was added. -/
def admissionResults (env : Transport) : List PortInfo → Gateway → List Bool
  | [], _ => []
  | serialPortInfo :: rest, g =>
      let r := addSerialDevice env g serialPortInfo.port true
      (match r.outcome with
        | .ok true => true
        | _ => false) :: admissionResults env rest r.state

/-! ## Reader-state queries -/

/-- The loop of `isEveryReadLoopQuitted` over the entries of the reader-state map. -/
def isEveryReadLoopQuittedFrom (g : Gateway) : List (Str × (Bool × Bool)) → Bool
  | [] => true
  | entry :: rest =>
      if isReadLoopQuitted g entry.1 then isEveryReadLoopQuittedFrom g rest else false

/-- The method `SerialPortGateway::isEveryReadLoopQuitted`. -/
def isEveryReadLoopQuitted (g : Gateway) : Bool :=
  isEveryReadLoopQuittedFrom g g.readLoopStates

/-- The method `isReadLoopStarted` as a call on the gateway: the value returned and the
gateway afterwards. The entry is looked up with `find`, which leaves the map as it is
(unlike `operator[]` in the setters). -/
def isReadLoopStartedCall (g : Gateway) (deviceId : Str) : Bool × Gateway :=
  match mapFind g.readLoopStates deviceId with
  | some state => (state.1, g)
  | none => (false, g)

/-- The method `isReadLoopQuitted` as a call on the gateway: the value returned and the
gateway afterwards. The entry is looked up with `find`, which leaves the map as it is. -/
def isReadLoopQuittedCall (g : Gateway) (deviceId : Str) : Bool × Gateway :=
  match mapFind g.readLoopStates deviceId with
  | some state => (state.2, g)
  | none => (true, g)

/-! ## Filter lists -/

/-- The lines that repeated calls of `std::getline( fileStream, line )` yield for a file
content; `line` holds the characters read since the last newline. At the end of the file a
line counts only if a character was read for it. -/
def getlinesFrom : Str → Str → List Str
  | [], line => if line = [] then [] else [line]
  | c :: cs, line => if c = '\n' then line :: getlinesFrom cs [] else getlinesFrom cs (line ++ [c])

/-- The lines of a file as the loops of the filter loaders read them. -/
def getlines (content : Str) : List Str :=
  getlinesFrom content []

/-- The call `set.insert( x )` of a `std::set` of strings: ascending order, no
duplicates. -/
def setInsert (x : Str) : StringSet → StringSet
  | [] => [x]
  | y :: rest =>
      if x < y then x :: y :: rest
      else if x = y then y :: rest
      else y :: setInsert x rest

/-- The loop of `loadHardwareWhitelist`: every line is inserted and logged. -/
def loadWhitelistLines : List Str → Gateway → List Event → Gateway × List Event
  | [], g, tr => (g, tr)
  | line :: rest, g, tr =>
      loadWhitelistLines rest { g with hardwareWhitelist := setInsert line g.hardwareWhitelist }
        (tr ++ [Event.writeInfo ("Whitelisted Hardware-ID: \"".toList ++ line ++ "\".".toList)])

/-- The method `SerialPortGateway::loadHardwareWhitelist` on the file name `fileName`;
`file` is the content of the file, `none` when the stream does not open. -/
def loadHardwareWhitelist (g : Gateway) (fileName : Str) (file : Option Str) : Result Unit :=
  if fileName = [] then
    ⟨.error (.exception "Path to Hardware-ID Whitelist must not be empty.".toList), g, []⟩
  else
    match file with
    | none =>
        ⟨.error (.exception ("Couldn't open Hardware-ID Whitelist. (Path: \"".toList ++
          fileName ++ "\")".toList)), g, []⟩
    | some content =>
        let loaded := loadWhitelistLines (getlines content) g []
        if isHardwareWhitelistEmpty loaded.1 then
          ⟨.ok (), loaded.1, loaded.2 ++ [Event.writeInfo
            "Hardware Whitelist is empty, which means that not whitelist-checks will be performed.".toList]⟩
        else
          ⟨.ok (), loaded.1, loaded.2⟩

/-- The loop of `loadSerialPortBlacklist`: every line is inserted and logged. -/
def loadBlacklistLines : List Str → Gateway → List Event → Gateway × List Event
  | [], g, tr => (g, tr)
  | line :: rest, g, tr =>
      loadBlacklistLines rest
        { g with serialPortBlacklist := setInsert line g.serialPortBlacklist }
        (tr ++ [Event.writeInfo ("Blacklisted Serial Port: \"".toList ++ line ++ "\"".toList)])

/-- The method `SerialPortGateway::loadSerialPortBlacklist` on the file name `fileName`;
`file` is the content of the file, `none` when the stream does not open. -/
def loadSerialPortBlacklist (g : Gateway) (fileName : Str) (file : Option Str) : Result Unit :=
  if fileName = [] then
    ⟨.ok (), g, [Event.writeInfo
      "No Serial Port Blacklist given. (No ports will be ignored while scanning.)".toList]⟩
  else
    match file with
    | none =>
        ⟨.error (.exception ("Couldn't open Serial Port Blacklist. (Path: \"".toList ++
          fileName ++ "\")".toList)), g, []⟩
    | some content =>
        let loaded := loadBlacklistLines (getlines content) g []
        ⟨.ok (), loaded.1, loaded.2⟩

/-! ## Reachable states -/

/-- The gateway states that arise from a freshly constructed gateway (both maps empty)
by running the operations of the gateway one at a time, each against an arbitrary
outside world: the public methods, and the bodies of the detached threads they start
(the send path; the entry, the passes and the exit of a read loop). -/
inductive Reachable : Gateway → Prop where
  | initial (g : Gateway) (hdevices : g.serialDevices = []) (hstates : g.readLoopStates = []) :
      Reachable g
  | addSerialDevice (env : Transport) (g : Gateway) (serialPort : Str) (suppressLogs : Bool)
      (h : Reachable g) : Reachable (addSerialDevice env g serialPort suppressLogs).state
  | addNewSerialPorts (env : Transport) (g : Gateway) (suppressLogs : Bool)
      (h : Reachable g) : Reachable (addNewSerialPorts env g suppressLogs).state
  | deleteSerialDevice (env : Transport) (g : Gateway) (deviceId : Str)
      (h : Reachable g) : Reachable (deleteSerialDevice env g deviceId).state
  | deleteAllSerialDevices (env : Transport) (g : Gateway) (suppressLogs : Bool)
      (h : Reachable g) : Reachable (deleteAllSerialDevices env g suppressLogs).state
  | sendMessageToSerialDeviceAsync (env : Transport) (g : Gateway) (deviceId message : Str)
      (h : Reachable g) : Reachable (sendMessageToSerialDeviceAsync env g deviceId message).state
  | readLoopIteration (env : Transport) (g : Gateway) (deviceId : Str) (tr : List Event)
      (h : Reachable g) : Reachable (readLoopIteration env g deviceId tr).state
  | readLoopEnter (g : Gateway) (deviceId : Str) (h : Reachable g)
      (hspawned : mapFind g.readLoopStates deviceId ≠ none) :
      Reachable (setReadLoopQuitted g deviceId false)
  | readLoopExit (g : Gateway) (deviceId : Str) (h : Reachable g)
      (hstopped : isReadLoopStarted g deviceId = false) :
      Reachable (setReadLoopQuitted g deviceId true)
  | start (g : Gateway) (h : Reachable g) : Reachable (start g).state
  | stop (env : Transport) (g : Gateway) (h : Reachable g) : Reachable (stop env g).state

/-- The invariant of the registry: the keys are distinct, no two records are on one
port, and every record is stored under its own ID, with non-empty ID, non-empty port
and a session. -/
def RegistryInv (m : SerialDeviceMap) : Prop :=
  (m.map (fun entry => entry.1)).Nodup ∧
    (m.map (fun entry => entry.2.port)).Nodup ∧
    ∀ entry ∈ m, entry.2.id = entry.1 ∧ entry.1 ≠ [] ∧ entry.2.port ≠ [] ∧
      entry.2.serialInstance ≠ none

/-- The elementary changes of the two maps and of the started flag out of which the
operations of the gateway are composed: the insertion of a new record together with
`startReadLoop`, `stopReadLoop`, the erasure of a record whose read loop is marked as
not started, `setReadLoopQuitted`, and `setStarted`. -/
inductive AtomicStep : Gateway → Gateway → Prop where
  | register (g : Gateway) (dev : SerialDevice) (hfind : mapFind g.serialDevices dev.id = none) :
      AtomicStep g (setReadLoopStarted
        { g with serialDevices := (mapInsert dev.id dev g.serialDevices) } dev.id true)
  | stopReadLoop (g : Gateway) (deviceId : Str) : AtomicStep g (stopReadLoop g deviceId)
  | erase (g : Gateway) (deviceId : Str) (hstopped : isReadLoopStarted g deviceId = false) :
      AtomicStep g { g with serialDevices := (mapErase deviceId g.serialDevices) }
  | setReadLoopQuitted (g : Gateway) (deviceId : Str) (quitted : Bool) :
      AtomicStep g (setReadLoopQuitted g deviceId quitted)
  | setStarted (g : Gateway) (started : Bool) : AtomicStep g { g with started := started }

/-! ## Scenario data -/

/-- The configuration of the scenarios: delimiter `,`, command `?id`, message type `ID`,
empty filter lists and an empty registry. -/
def scenarioGateway : Gateway :=
  { scanInterval := 0
    waitBeforeCommunication := 0
    baudRate := 9600
    messageDelimiter := ",".toList
    commandToGetDeviceId := "?id".toList
    messageTypeForIds := "ID".toList
    started := false
    hardwareWhitelist := []
    serialPortBlacklist := []
    serialDevices := []
    readLoopStates := [] }

/-- An outside world in which every port exists, the given ports are enumerated, every
transport operation succeeds and every device answers with the same line. -/
def replyingTransport (ports : List PortInfo) (reply : Str) : Transport :=
  { ifstream := fun _ => true
    list_ports := ports
    «open» := fun _ _ => .ok ()
    flush := fun _ _ => .ok ()
    write := fun _ data _ => .ok data.length
    readline := fun _ _ => .ok reply
    close := fun _ _ => .ok () }

/-- The scenario gateway after the device on `/dev/ttyS0` has been admitted with the
reply `ID,same\n`. -/
def scenarioCollisionGateway : Gateway :=
  (addSerialDevice (replyingTransport [] "ID,same\n".toList) scenarioGateway
    "/dev/ttyS0".toList false).state

/-- An outside world like `replyingTransport`, except that closing a session fails with
an `IOException`. -/
def closeFailingTransport : Transport :=
  { replyingTransport [] [] with close := fun _ _ => .error (.IOException "EIO".toList) }

/-- An outside world like `replyingTransport`, except that reading a line and writing
fail with an `IOException`. -/
def ioFailingTransport : Transport :=
  { ifstream := fun _ => true
    list_ports := []
    «open» := fun _ _ => .ok ()
    flush := fun _ _ => .ok ()
    write := fun _ _ _ => .error (.IOException "EIO".toList)
    readline := fun _ _ => .error (.IOException "EIO".toList)
    close := fun _ _ => .ok () }

/-- The scenario gateway after `same` has been admitted on `/dev/ttyS0`, its read loop
has been entered, the device has been deleted, the read loop has left, and the device
has been admitted again; the read loop of the second admission has not been entered
yet. -/
def scenarioReadmittedGateway : Gateway :=
  (addSerialDevice (replyingTransport [] "ID,same\n".toList)
    (setReadLoopQuitted
      (deleteSerialDevice (replyingTransport [] "ID,same\n".toList)
        (setReadLoopQuitted scenarioCollisionGateway "same".toList false) "same".toList).state
      "same".toList true)
    "/dev/ttyS0".toList false).state

/-! ## Properties of the string functions -/

theorem findFirstOfFrom_eq_none_iff (chars s : Str) (i : Nat) :
    findFirstOfFrom chars s i = none ↔ ∀ c ∈ s, c ∉ chars := by
  induction s generalizing i with
  | nil => simp [findFirstOfFrom]
  | cons c cs ih =>
    by_cases hc : c ∈ chars
    · simp [findFirstOfFrom, hc]
    · simp [findFirstOfFrom, hc, ih]

theorem findFirstOfFrom_append (chars pre s : Str) (i : Nat) (hpre : ∀ c ∈ pre, c ∉ chars) :
    findFirstOfFrom chars (pre ++ s) i = findFirstOfFrom chars s (i + pre.length) := by
  induction pre generalizing i with
  | nil => simp
  | cons c cs ih =>
    have hc : c ∉ chars := hpre c (by simp)
    have hcs : ∀ x ∈ cs, x ∉ chars := fun x hx => hpre x (by simp [hx])
    rw [List.cons_append, findFirstOfFrom, if_neg hc, ih (i + 1) hcs, List.length_cons,
      show i + 1 + cs.length = i + (cs.length + 1) by omega]

theorem findFirstOfFrom_le (chars s : Str) (i j : Nat) (h : findFirstOfFrom chars s i = some j) :
    i ≤ j := by
  induction s generalizing i with
  | nil => simp [findFirstOfFrom] at h
  | cons c cs ih =>
    by_cases hc : c ∈ chars
    · simp [findFirstOfFrom, hc] at h; omega
    · simp only [findFirstOfFrom, hc, if_false] at h
      have := ih (i + 1) h
      omega

theorem find_first_of_zero (s chars : Str) :
    find_first_of s chars 0 = findFirstOfFrom chars s 0 := by
  simp [find_first_of]

theorem find_first_of_hit (chars pre rest : Str) (c : Char) (hpre : ∀ x ∈ pre, x ∉ chars)
    (hc : c ∈ chars) : find_first_of (pre ++ c :: rest) chars 0 = some pre.length := by
  rw [find_first_of_zero, findFirstOfFrom_append chars pre (c :: rest) 0 hpre]
  simp [findFirstOfFrom, hc]

theorem substr_prefix (a b : Str) : substr (a ++ b) 0 a.length = a := by
  simp [substr]

theorem substr_middle (a b c : Str) (x : Char) :
    substr (a ++ x :: (b ++ c)) (a.length + 1) b.length = b := by
  have h : a ++ x :: (b ++ c) = (a ++ [x]) ++ (b ++ c) := by simp
  have hl : a.length + 1 = (a ++ [x]).length := by simp
  rw [substr, h, hl, List.drop_left]
  simp

theorem find_first_of_mem (chars s : Str) (i j : Nat) (h : findFirstOfFrom chars s i = some j) :
    ∃ c ∈ s, c ∈ chars := by
  by_contra hne
  push_neg at hne
  rw [(findFirstOfFrom_eq_none_iff chars s i).2 hne] at h
  exact Option.noConfusion h

theorem terminator_iff (line : Str) :
    findFirstOfFrom (CHAR_NEWLINE ++ CHAR_CARRIAGE_RETURN) line 0 = none ↔
      ¬ ('\n' ∈ line ∨ '\r' ∈ line) := by
  rw [findFirstOfFrom_eq_none_iff]
  simp only [CHAR_NEWLINE, CHAR_CARRIAGE_RETURN, List.singleton_append, List.mem_cons,
    List.mem_singleton, List.not_mem_nil, or_false]
  constructor
  · rintro h (h1 | h1)
    · exact h _ h1 (Or.inl rfl)
    · exact h _ h1 (Or.inr rfl)
  · rintro h c hc (rfl | rfl)
    · exact h (Or.inl hc)
    · exact h (Or.inr hc)

theorem isTerminator_iff (c : Char) :
    c ∈ CHAR_NEWLINE ++ CHAR_CARRIAGE_RETURN ↔ (c = '\n' ∨ c = '\r') := by
  simp [CHAR_NEWLINE, CHAR_CARRIAGE_RETURN]

/-! ## Properties of the maps and of admission -/

theorem mapFind_mapInsert {β : Type} (m : List (Str × β)) (k k' : Str) (v : β) :
    mapFind (mapInsert k v m) k' = if k' = k then some v else mapFind m k' := by
  induction m with
  | nil =>
    by_cases h : k = k'
    · subst h; simp [mapInsert, mapFind]
    · have h' : ¬ k' = k := fun e => h e.symm
      simp [mapInsert, mapFind, h, h']
  | cons e rest ih =>
    obtain ⟨k1, v1⟩ := e
    by_cases hlt : k < k1
    · by_cases h : k = k'
      · subst h; simp [mapInsert, mapFind, hlt]
      · have h' : ¬ k' = k := fun e => h e.symm
        simp [mapInsert, mapFind, hlt, h, h']
    · by_cases heq : k = k1
      · subst heq
        by_cases h : k = k'
        · subst h; simp [mapInsert, mapFind, hlt]
        · have h' : ¬ k' = k := fun e => h e.symm
          simp [mapInsert, mapFind, hlt, h, h']
      · by_cases h : k = k'
        · subst h
          have h1 : ¬ k1 = k := fun e => heq e.symm
          simp [mapInsert, mapFind, hlt, heq, h1, ih]
        · have h' : ¬ k' = k := fun e => h e.symm
          simp [mapInsert, mapFind, hlt, heq, ih, h']

theorem length_mapInsert {β : Type} (m : List (Str × β)) (k : Str) (v : β)
    (h : mapFind m k = none) : (mapInsert k v m).length = m.length + 1 := by
  induction m with
  | nil => simp [mapInsert]
  | cons e rest ih =>
    obtain ⟨k1, v1⟩ := e
    by_cases h1 : k1 = k
    · simp [mapFind, h1] at h
    · have h1' : ¬ k = k1 := fun e => h1 e.symm
      simp only [mapFind, h1, if_false] at h
      by_cases hlt : k < k1
      · simp [mapInsert, hlt]
      · simp [mapInsert, hlt, h1', ih h]

theorem getSerialDeviceByPort_foldl (l : SerialDeviceMap) (serialPort : Str)
    (acc : Option SerialDevice) :
    l.foldl (fun serialDevice entry =>
        if entry.2.port = serialPort then some entry.2 else serialDevice) acc = none ↔
      acc = none ∧ ∀ entry ∈ l, entry.2.port ≠ serialPort := by
  induction l generalizing acc with
  | nil => simp
  | cons e rest ih =>
    rw [List.foldl_cons, ih]
    by_cases h : e.2.port = serialPort
    · rw [if_pos h]
      constructor
      · rintro ⟨h1, -⟩
        exact Option.noConfusion h1
      · rintro ⟨-, h2⟩
        exact absurd h (h2 e (List.mem_cons_self _ _))
    · rw [if_neg h]
      constructor
      · rintro ⟨h1, h2⟩
        refine ⟨h1, fun x hx => ?_⟩
        rcases List.mem_cons.1 hx with rfl | hx
        · exact h
        · exact h2 x hx
      · rintro ⟨h1, h2⟩
        exact ⟨h1, fun x hx => h2 x (List.mem_cons_of_mem _ hx)⟩

theorem getSerialDeviceByPort_eq_none_iff (g : Gateway) (serialPort : Str) :
    getSerialDeviceByPort g serialPort = none ↔
      ∀ entry ∈ g.serialDevices, entry.2.port ≠ serialPort := by
  unfold getSerialDeviceByPort
  rw [getSerialDeviceByPort_foldl]
  exact ⟨fun h => h.2, fun h => ⟨rfl, h⟩⟩

theorem addSerialDevice_state_of_not_added (env : Transport) (g : Gateway) (serialPort : Str)
    (suppressLogs : Bool)
    (h : (addSerialDevice env g serialPort suppressLogs).outcome ≠ .ok true) :
    (addSerialDevice env g serialPort suppressLogs).state = g := by
  unfold addSerialDevice at h ⊢
  simp only at h ⊢
  split
  · rfl
  · split
    · rfl
    · split
      · rfl
      · split
        · rfl
        · split
          · rfl
          · split
            · rfl
            · rfl
            · split
              · rfl
              · split
                · rename_i h1 h2 h3 h4 h5 h6 h7 h8 h9
                  simp [*] at h
                · rfl

theorem whitelistCheck_pass (env : Transport) (g : Gateway) (serialPort : Str) (tr : List Event)
    (hallow : g.hardwareWhitelist = [] ∨
      ∃ h, extractedHardwareId env serialPort = some h ∧ h ∈ g.hardwareWhitelist) :
    ∃ tr1, whitelistCheck env g serialPort tr = (true, tr1) := by
  unfold whitelistCheck
  rcases hallow with h | ⟨h, hex, hmem⟩
  · exact ⟨tr, by simp [isHardwareWhitelistEmpty, h]⟩
  · by_cases hempty : isHardwareWhitelistEmpty g = true
    · exact ⟨tr, by simp [hempty]⟩
    · exact ⟨tr ++ [Event.list_ports], by simp [hempty, hex, hasHardwareWhitelistEntry, hmem]⟩

theorem whitelistCheck_fail (env : Transport) (g : Gateway) (serialPort : Str) (tr : List Event)
    (hne : g.hardwareWhitelist ≠ [])
    (hmiss : ¬ ∃ h, extractedHardwareId env serialPort = some h ∧ h ∈ g.hardwareWhitelist) :
    ∃ text, whitelistCheck env g serialPort tr =
      (false, tr ++ [Event.list_ports, Event.writeWarn text]) := by
  unfold whitelistCheck
  have hempty : isHardwareWhitelistEmpty g = false := by
    cases hw : g.hardwareWhitelist with
    | nil => exact absurd hw hne
    | cons a l => simp [isHardwareWhitelistEmpty, hw]
  cases hex : extractedHardwareId env serialPort with
  | none =>
    simp only [hempty, Bool.not_false, if_true]
    exact ⟨_, rfl⟩
  | some h =>
    have hmem : h ∉ g.hardwareWhitelist := fun hm => hmiss ⟨h, hex, hm⟩
    simp only [hempty, hasHardwareWhitelistEntry, hmem, Bool.not_false, if_true, if_false]
    exact ⟨_, rfl⟩

theorem retrieveDeviceId_ok (env : Transport) (g : Gateway) (serialDevice : SerialDevice)
    (s : Serial) (tr : List Event) (reply : Str)
    (hinst : serialDevice.serialInstance = some s)
    (hF : ∀ h, env.flush s.port h = .ok ())
    (hW : ∀ data h, ∃ n, env.write s.port data h = .ok n)
    (hR : ∀ h, env.readline s.port h = .ok reply) :
    ∃ tr1, retrieveDeviceId env g serialDevice tr =
      (if (parseMessage reply g.messageDelimiter).1 = g.messageTypeForIds ∧
            (parseMessage reply g.messageDelimiter).2 ≠ [] then
          .ok (true, serialDevice.setId (parseMessage reply g.messageDelimiter).2)
        else .ok (false, serialDevice), tr1) := by
  unfold retrieveDeviceId
  obtain ⟨n, hn⟩ := hW (g.commandToGetDeviceId ++ CHAR_NEWLINE) (tr ++ [Event.flush s.port])
  refine ⟨tr ++ [Event.flush s.port] ++
    [Event.write s.port (g.commandToGetDeviceId ++ CHAR_NEWLINE)] ++ [Event.readline s.port], ?_⟩
  simp only [hinst, Serial.flush, Serial.write, Serial.readline, hF, hn, hR, liftSerial]
  split <;> rfl

theorem admissionTry_ok (env : Transport) (g : Gateway) (serialDevice : SerialDevice)
    (tr : List Event) (reply : Str)
    (hnone : serialDevice.serialInstance = none)
    (hO : ∀ h, env.open serialDevice.port h = .ok ())
    (hF : ∀ h, env.flush serialDevice.port h = .ok ())
    (hW : ∀ data h, ∃ n, env.write serialDevice.port data h = .ok n)
    (hR : ∀ h, env.readline serialDevice.port h = .ok reply) :
    ∃ tr3, admissionTry env g serialDevice tr =
      (.ok (if (parseMessage reply g.messageDelimiter).1 = g.messageTypeForIds ∧
                (parseMessage reply g.messageDelimiter).2 ≠ [] then
              (true, { serialDevice with
                id := (parseMessage reply g.messageDelimiter).2
                serialInstance :=
                  some ⟨serialDevice.port, serialDevice.baudRate, serialDevice.timeout⟩ })
            else
              (false, { serialDevice with
                serialInstance :=
                  some ⟨serialDevice.port, serialDevice.baudRate, serialDevice.timeout⟩ })),
        tr3) := by
  unfold admissionTry
  simp only [SerialDevice.init, hnone, hO]
  obtain ⟨tr2, h2⟩ := retrieveDeviceId_ok env g
    { serialDevice with
      serialInstance := some ⟨serialDevice.port, serialDevice.baudRate, serialDevice.timeout⟩ }
    ⟨serialDevice.port, serialDevice.baudRate, serialDevice.timeout⟩
    (tr ++ [Event.open serialDevice.port serialDevice.baudRate serialDevice.timeout] ++
      [Event.sleep g.waitBeforeCommunication]) reply rfl hF hW hR
  rw [h2]
  by_cases hc : (parseMessage reply g.messageDelimiter).1 = g.messageTypeForIds ∧
      (parseMessage reply g.messageDelimiter).2 ≠ []
  · rw [if_pos hc, if_pos hc]
    simp only [SerialDevice.setId, Serial.flush, hF, liftSerial]
    exact ⟨_, rfl⟩
  · rw [if_neg hc, if_neg hc]
    simp only [Serial.flush, hF, liftSerial]
    exact ⟨_, rfl⟩

theorem liftSerial_error {α : Type} (x : Except SerialError α) (e : Thrown)
    (h : liftSerial x = .error e) : ∃ se, e = .serial se := by
  cases x with
  | ok a => simp [liftSerial] at h
  | error se => exact ⟨se, by simpa [liftSerial] using h.symm⟩

theorem retrieveDeviceId_error_serial (env : Transport) (g : Gateway) (serialDevice : SerialDevice)
    (s : Serial) (tr tr2 : List Event) (e : Thrown)
    (hinst : serialDevice.serialInstance = some s)
    (h : retrieveDeviceId env g serialDevice tr = (.error e, tr2)) : ∃ se, e = .serial se := by
  unfold retrieveDeviceId at h
  simp only [hinst, Serial.flush, Serial.write, Serial.readline] at h
  cases h1 : liftSerial (env.flush s.port tr) with
  | error e1 =>
    rw [h1] at h
    simp only [Prod.mk.injEq, Except.error.injEq] at h
    exact h.1 ▸ liftSerial_error _ _ h1
  | ok u1 =>
    rw [h1] at h
    simp only at h
    cases h2 : liftSerial (env.write s.port (g.commandToGetDeviceId ++ CHAR_NEWLINE)
        (tr ++ [Event.flush s.port])) with
    | error e2 =>
      rw [h2] at h
      simp only [Prod.mk.injEq, Except.error.injEq] at h
      exact h.1 ▸ liftSerial_error _ _ h2
    | ok u2 =>
      rw [h2] at h
      simp only at h
      cases h3 : liftSerial (env.readline s.port (tr ++ [Event.flush s.port] ++
          [Event.write s.port (g.commandToGetDeviceId ++ CHAR_NEWLINE)])) with
      | error e3 =>
        rw [h3] at h
        simp only [Prod.mk.injEq, Except.error.injEq] at h
        exact h.1 ▸ liftSerial_error _ _ h3
      | ok message =>
        rw [h3] at h
        simp only at h
        split at h <;> simp at h

theorem retrieveDeviceId_instance (env : Transport) (g : Gateway) (serialDevice : SerialDevice)
    (tr tr2 : List Event) (b : Bool) (dev : SerialDevice)
    (h : retrieveDeviceId env g serialDevice tr = (.ok (b, dev), tr2)) :
    dev.serialInstance = serialDevice.serialInstance ∧ dev.port = serialDevice.port := by
  unfold retrieveDeviceId at h
  simp only at h
  split at h
  · simp at h
  · split at h
    · simp at h
    · split at h
      · simp at h
      · split at h
        · simp only [Prod.mk.injEq, Except.ok.injEq] at h
          rw [← h.1.2]
          exact ⟨rfl, rfl⟩
        · simp only [Prod.mk.injEq, Except.ok.injEq] at h
          rw [← h.1.2]
          exact ⟨rfl, rfl⟩

theorem retrieveDeviceId_true_inv (env : Transport) (g : Gateway) (serialDevice : SerialDevice)
    (s : Serial) (tr tr2 : List Event) (dev : SerialDevice) (reply : Str)
    (hinst : serialDevice.serialInstance = some s)
    (hR : ∀ h, env.readline s.port h = .ok reply)
    (h : retrieveDeviceId env g serialDevice tr = (.ok (true, dev), tr2)) :
    ((parseMessage reply g.messageDelimiter).1 = g.messageTypeForIds ∧
        (parseMessage reply g.messageDelimiter).2 ≠ []) ∧
      dev = serialDevice.setId (parseMessage reply g.messageDelimiter).2 := by
  unfold retrieveDeviceId at h
  simp only [hinst, Serial.flush, Serial.write, Serial.readline, hR, liftSerial] at h
  split at h
  · simp at h
  · split at h
    · simp at h
    · split at h
      · simp only [Prod.mk.injEq, Except.ok.injEq, true_and] at h
        rename_i hc
        exact ⟨hc, h.1.symm⟩
      · simp at h

theorem admissionTry_error_serial (env : Transport) (g : Gateway) (serialDevice : SerialDevice)
    (tr tr2 : List Event) (e : Thrown)
    (hnone : serialDevice.serialInstance = none)
    (h : admissionTry env g serialDevice tr = (.error e, tr2)) : ∃ se, e = .serial se := by
  unfold admissionTry at h
  simp only [SerialDevice.init, hnone] at h
  cases hO : env.open serialDevice.port tr with
  | error se =>
    rw [hO] at h
    simp only [Prod.mk.injEq, Except.error.injEq] at h
    exact ⟨se, h.1.symm⟩
  | ok u =>
    rw [hO] at h
    simp only at h
    split at h
    · rename_i e1 tr1 h1
      simp only [Prod.mk.injEq, Except.error.injEq] at h
      exact h.1 ▸ retrieveDeviceId_error_serial env g _ _ _ _ _ rfl h1
    · rename_i idRetrieved dev2 tr1 h1
      have hi := (retrieveDeviceId_instance env g _ _ _ _ _ h1).1
      simp only [hi, Serial.flush] at h
      cases hF : liftSerial (env.flush serialDevice.port tr1) with
      | error e3 =>
        rw [hF] at h
        simp only [Prod.mk.injEq, Except.error.injEq] at h
        exact h.1 ▸ liftSerial_error _ _ hF
      | ok u3 =>
        rw [hF] at h
        simp at h

theorem admissionTry_true_inv (env : Transport) (g : Gateway) (serialDevice : SerialDevice)
    (tr tr2 : List Event) (dev : SerialDevice) (reply : Str)
    (hnone : serialDevice.serialInstance = none)
    (hR : ∀ h, env.readline serialDevice.port h = .ok reply)
    (h : admissionTry env g serialDevice tr = (.ok (true, dev), tr2)) :
    ((parseMessage reply g.messageDelimiter).1 = g.messageTypeForIds ∧
        (parseMessage reply g.messageDelimiter).2 ≠ []) ∧
      dev = { serialDevice with
        id := (parseMessage reply g.messageDelimiter).2
        serialInstance :=
          some ⟨serialDevice.port, serialDevice.baudRate, serialDevice.timeout⟩ } := by
  unfold admissionTry at h
  simp only [SerialDevice.init, hnone] at h
  cases hO : env.open serialDevice.port tr with
  | error se =>
    rw [hO] at h
    simp at h
  | ok u =>
    rw [hO] at h
    simp only at h
    split at h
    · simp at h
    · rename_i idRetrieved dev2 tr1 h1
      split at h
      · simp at h
      · simp only [Prod.mk.injEq, Except.ok.injEq] at h
        obtain ⟨⟨rfl, rfl⟩, -⟩ := h
        have := retrieveDeviceId_true_inv env g _
          ⟨serialDevice.port, serialDevice.baudRate, serialDevice.timeout⟩ _ _ _ reply rfl hR h1
        exact ⟨this.1, this.2⟩

theorem fileOpens_ne_nil (env : Transport) (serialPort : Str)
    (h : fileOpens env serialPort = true) : serialPort ≠ [] := by
  rintro rfl
  simp [fileOpens] at h

theorem addSerialDevice_after_handshake (env : Transport) (g : Gateway) (serialPort : Str)
    (suppressLogs : Bool) (reply id : Str)
    (hopen : fileOpens env serialPort = true)
    (hdeny : serialPort ∉ g.serialPortBlacklist)
    (hport : ∀ entry ∈ g.serialDevices, entry.2.port ≠ serialPort)
    (hallow : g.hardwareWhitelist = [] ∨
      ∃ h, extractedHardwareId env serialPort = some h ∧ h ∈ g.hardwareWhitelist)
    (hO : ∀ h, env.open serialPort h = .ok ())
    (hF : ∀ h, env.flush serialPort h = .ok ())
    (hW : ∀ data h, ∃ n, env.write serialPort data h = .ok n)
    (hR : ∀ h, env.readline serialPort h = .ok reply)
    (hparse : parseMessage reply g.messageDelimiter = (g.messageTypeForIds, id))
    (hid : id ≠ []) :
    (mapFind g.serialDevices id = none →
      (addSerialDevice env g serialPort suppressLogs).outcome = .ok true ∧
      (addSerialDevice env g serialPort suppressLogs).state =
        setReadLoopStarted
          { g with serialDevices := (mapInsert id
              ⟨serialPort, g.baudRate, 250, id, some ⟨serialPort, g.baudRate, 250⟩⟩
              g.serialDevices) } id true) ∧
    (∀ existing, mapFind g.serialDevices id = some existing →
      (addSerialDevice env g serialPort suppressLogs).outcome = .ok false ∧
      (addSerialDevice env g serialPort suppressLogs).state = g) := by
  have hne := fileOpens_ne_nil env serialPort hopen
  have hbl : hasSerialPortBlacklistEntry g serialPort = false := by
    simp [hasSerialPortBlacklistEntry, hdeny]
  have hbp := (getSerialDeviceByPort_eq_none_iff g serialPort).2 hport
  obtain ⟨tr1, hw⟩ := whitelistCheck_pass env g serialPort [Event.ifstream serialPort] hallow
  have hcond : (parseMessage reply g.messageDelimiter).1 = g.messageTypeForIds ∧
      (parseMessage reply g.messageDelimiter).2 ≠ [] := by
    rw [hparse]; exact ⟨rfl, hid⟩
  obtain ⟨tr3, hadm⟩ := admissionTry_ok env g ⟨serialPort, g.baudRate, 250, [], none⟩ tr1 reply
    rfl hO hF hW hR
  rw [if_pos hcond, hparse] at hadm
  constructor
  · intro hnew
    unfold addSerialDevice
    simp only [hopen, hbl, hbp, hw, SerialDevice.new, hne, Bool.not_true, Bool.false_eq_true,
      if_false]
    rw [hadm]
    simp only [hnew, startReadLoop, Bool.not_true, Bool.false_eq_true, if_false]
    exact ⟨trivial, trivial⟩
  · intro existing hex
    unfold addSerialDevice
    simp only [hopen, hbl, hbp, hw, SerialDevice.new, hne, Bool.not_true, Bool.false_eq_true,
      if_false]
    rw [hadm]
    simp only [hex, Bool.not_true, Bool.false_eq_true, if_false]
    exact ⟨trivial, trivial⟩

theorem addSerialDevice_returns (env : Transport) (g : Gateway) (serialPort : Str)
    (suppressLogs : Bool) :
    ∃ b, (addSerialDevice env g serialPort suppressLogs).outcome = .ok b := by
  unfold addSerialDevice
  simp only
  split
  · exact ⟨false, rfl⟩
  · rename_i hopen
    split
    · exact ⟨false, rfl⟩
    · split
      · exact ⟨false, rfl⟩
      · split
        · exact ⟨false, rfl⟩
        · split
          · rename_i e hnew
            exfalso
            have hne : serialPort ≠ [] := fileOpens_ne_nil env serialPort (by simpa using hopen)
            simp [SerialDevice.new, hne] at hnew
          · rename_i dev0 hnew
            have hdev0 : dev0.serialInstance = none := by
              unfold SerialDevice.new at hnew
              split at hnew
              · simp at hnew
              · simp only [Except.ok.injEq] at hnew
                rw [← hnew]
            split
            · exact ⟨false, rfl⟩
            · rename_i e tr2 hns hadm
              exfalso
              obtain ⟨se, hse⟩ := admissionTry_error_serial env g dev0 _ _ e hdev0 hadm
              exact hns se hse
            · split
              · exact ⟨false, rfl⟩
              · split
                · exact ⟨true, rfl⟩
                · exact ⟨false, rfl⟩

theorem addSerialDevice_true_inv (env : Transport) (g : Gateway) (serialPort : Str)
    (suppressLogs : Bool)
    (h : (addSerialDevice env g serialPort suppressLogs).outcome = .ok true) :
    fileOpens env serialPort = true ∧ serialPort ∉ g.serialPortBlacklist ∧
      (∀ entry ∈ g.serialDevices, entry.2.port ≠ serialPort) ∧
      ∃ tr1, whitelistCheck env g serialPort [Event.ifstream serialPort] = (true, tr1) ∧
        ∃ dev tr2,
          admissionTry env g ⟨serialPort, g.baudRate, 250, [], none⟩ tr1 = (.ok (true, dev), tr2) ∧
          mapFind g.serialDevices dev.id = none ∧
          (addSerialDevice env g serialPort suppressLogs).state =
            setReadLoopStarted
              { g with serialDevices := (mapInsert dev.id dev g.serialDevices) } dev.id true := by
  unfold addSerialDevice at h ⊢
  simp only at h ⊢
  split at h
  · simp at h
  · rename_i hopen
    split at h
    · simp at h
    · rename_i hbl
      split at h
      · simp at h
      · rename_i hbp
        split at h
        · simp at h
        · rename_i tr1 hw
          split at h
          · simp at h
          · rename_i dev0 hnew
            split at h
            · simp at h
            · simp at h
            · rename_i idRetrieved dev tr2 hadm
              split at h
              · simp at h
              · rename_i hid
                split at h
                · rename_i hfind
                  have hopen' : fileOpens env serialPort = true := by simpa using hopen
                  have hne := fileOpens_ne_nil env serialPort hopen'
                  have hdev0 : dev0 = ⟨serialPort, g.baudRate, 250, [], none⟩ := by
                    simp only [SerialDevice.new, hne, if_false, Except.ok.injEq] at hnew
                    exact hnew.symm
                  have hid' : idRetrieved = true := by simpa using hid
                  subst hdev0 hid'
                  refine ⟨hopen', ?_, (getSerialDeviceByPort_eq_none_iff g serialPort).1 hbp,
                    tr1, hw, dev, tr2, hadm, hfind, ?_⟩
                  · intro hmem
                    exact hbl (by simp [hasSerialPortBlacklistEntry, hmem])
                  · simp only [hopen', hbl, hbp, hw, hnew, hadm, hfind, startReadLoop,
                      Bool.not_true, Bool.false_eq_true, if_false]
                · simp at h

theorem addSerialDevice_rejects_reply (env : Transport) (g : Gateway) (serialPort : Str)
    (suppressLogs : Bool) (reply : Str)
    (hR : ∀ h, env.readline serialPort h = .ok reply)
    (hc : ¬ ((parseMessage reply g.messageDelimiter).1 = g.messageTypeForIds ∧
      (parseMessage reply g.messageDelimiter).2 ≠ [])) :
    (addSerialDevice env g serialPort suppressLogs).outcome = .ok false ∧
      (addSerialDevice env g serialPort suppressLogs).state = g := by
  have hnot : (addSerialDevice env g serialPort suppressLogs).outcome ≠ .ok true := by
    intro h
    obtain ⟨-, -, -, tr1, -, dev, tr2, hadm, -, -⟩ :=
      addSerialDevice_true_inv env g serialPort suppressLogs h
    exact hc (admissionTry_true_inv env g _ tr1 tr2 dev reply rfl hR hadm).1
  refine ⟨?_, addSerialDevice_state_of_not_added env g serialPort suppressLogs hnot⟩
  obtain ⟨b, hb⟩ := addSerialDevice_returns env g serialPort suppressLogs
  cases b with
  | false => exact hb
  | true => exact absurd hb hnot

theorem isReadLoopStarted_setReadLoopStarted (g : Gateway) (deviceId : Str) :
    isReadLoopStarted (setReadLoopStarted g deviceId true) deviceId = true := by
  simp [isReadLoopStarted, setReadLoopStarted, mapFind_mapInsert]

theorem filter_key_eq_nil {β : Type} (m : List (Str × β)) (k : Str)
    (h : k ∉ m.map Prod.fst) : m.filter (fun entry => decide (entry.1 = k)) = [] := by
  rw [List.filter_eq_nil_iff]
  intro entry hmem hk
  exact h (List.mem_map.2 ⟨entry, hmem, of_decide_eq_true hk⟩)

theorem filter_key_of_mapFind {β : Type} (m : List (Str × β)) (k : Str) (v : β)
    (hkeys : (m.map Prod.fst).Nodup) (h : mapFind m k = some v) :
    m.filter (fun entry => decide (entry.1 = k)) = [(k, v)] := by
  induction m with
  | nil => simp [mapFind] at h
  | cons e rest ih =>
    obtain ⟨k1, v1⟩ := e
    rw [List.map_cons, List.nodup_cons] at hkeys
    by_cases h1 : k1 = k
    · subst h1
      simp only [mapFind, if_true, Option.some.injEq] at h
      subst h
      rw [List.filter_cons_of_pos (by simp), filter_key_eq_nil rest k1 hkeys.1]
    · simp only [mapFind, h1, if_false] at h
      rw [List.filter_cons_of_neg (by simpa using h1)]
      exact ih hkeys.2 h

theorem addSerialDevice_whitelist_miss (env : Transport) (g : Gateway) (serialPort : Str)
    (suppressLogs : Bool)
    (hne : g.hardwareWhitelist ≠ [])
    (hmiss : ¬ ∃ h, extractedHardwareId env serialPort = some h ∧ h ∈ g.hardwareWhitelist) :
    (addSerialDevice env g serialPort suppressLogs).outcome = .ok false ∧
      ∀ port, ∀ e ∈ (addSerialDevice env g serialPort suppressLogs).trace,
        e.isTransportOn port = false := by
  obtain ⟨text, hw⟩ := whitelistCheck_fail env g serialPort [Event.ifstream serialPort] hne hmiss
  unfold addSerialDevice
  simp only
  split
  · refine ⟨rfl, ?_⟩
    intro port e he
    simp only [List.cons_append, List.nil_append, List.mem_cons, List.mem_singleton,
      List.not_mem_nil, or_false] at he
    rcases he with rfl | rfl <;> rfl
  · split
    · refine ⟨rfl, ?_⟩
      intro port e he
      simp only [List.cons_append, List.nil_append, List.mem_cons] at he
      rcases he with rfl | he
      · rfl
      · split at he
        · rw [List.mem_singleton] at he
          subst he
          rfl
        · exact absurd he (List.not_mem_nil _)
    · split
      · refine ⟨rfl, ?_⟩
        intro port e he
        simp only [List.cons_append, List.nil_append, List.mem_cons] at he
        rcases he with rfl | he
        · rfl
        · split at he
          · rw [List.mem_singleton] at he
            subst he
            rfl
          · exact absurd he (List.not_mem_nil _)
      · rw [hw]
        refine ⟨rfl, ?_⟩
        intro port e he
        simp only [List.cons_append, List.nil_append, List.mem_cons, List.mem_singleton,
          List.not_mem_nil, or_false] at he
        rcases he with rfl | rfl | rfl <;> rfl

theorem findFrom_contains (key s : Str) (i j : Nat) (h : findFrom key s i = some j) :
    key <:+: s := by
  induction s generalizing i with
  | nil =>
    by_cases hk : key = []
    · subst hk; exact List.nil_infix
    · simp [findFrom, hk] at h
  | cons c cs ih =>
    by_cases hp : key.isPrefixOf (c :: cs) = true
    · exact (List.isPrefixOf_iff_prefix.1 hp).isInfix
    · simp only [findFrom, hp, if_false] at h
      exact (ih (i + 1) h).trans (List.suffix_cons c cs).isInfix

theorem find_eq_none (key s : Str) (h : ¬ key <:+: s) : find s key = none := by
  cases hf : find s key with
  | none => rfl
  | some j => exact absurd (findFrom_contains key s 0 j hf) h

theorem vidpid_not_prefix (pre rest : Str) (hne : pre ≠ [])
    (hpre : ¬ ['V', 'I', 'D', ':', 'P', 'I', 'D', '='] <:+: pre) :
    List.isPrefixOf ['V', 'I', 'D', ':', 'P', 'I', 'D', '=']
      (pre ++ (['V', 'I', 'D', ':', 'P', 'I', 'D', '='] ++ rest)) = false := by
  rcases pre with _ | ⟨a1, _ | ⟨a2, _ | ⟨a3, _ | ⟨a4, _ | ⟨a5, _ | ⟨a6, _ | ⟨a7, _ | ⟨a8, t⟩⟩⟩⟩⟩⟩⟩⟩
  · exact absurd rfl hne
  all_goals first
    | (simp [List.isPrefixOf]; done)
    | (by_contra hcon
       simp only [List.cons_append, List.isPrefixOf, Bool.and_eq_true, beq_iff_eq,
         Bool.not_eq_false, Bool.and_true] at hcon
       obtain ⟨h1, h2, h3, h4, h5, h6, h7, h8⟩ := hcon
       subst h1 h2 h3 h4 h5 h6 h7 h8
       exact hpre (List.prefix_append _ t).isInfix)

theorem findFrom_vidpid (pre rest : Str) (i : Nat)
    (hpre : ¬ ['V', 'I', 'D', ':', 'P', 'I', 'D', '='] <:+: pre) :
    findFrom ['V', 'I', 'D', ':', 'P', 'I', 'D', '=']
      (pre ++ (['V', 'I', 'D', ':', 'P', 'I', 'D', '='] ++ rest)) i = some (i + pre.length) := by
  induction pre generalizing i with
  | nil => simp [findFrom, List.isPrefixOf]
  | cons c cs ih =>
    have hnp := vidpid_not_prefix (c :: cs) rest (List.cons_ne_nil c cs) hpre
    have hcs : ¬ ['V', 'I', 'D', ':', 'P', 'I', 'D', '='] <:+: cs :=
      fun h => hpre (h.trans (List.suffix_cons c cs).isInfix)
    rw [List.cons_append] at hnp ⊢
    rw [findFrom, hnp, ih (i + 1) hcs, List.length_cons]
    simp only [Bool.false_eq_true, if_false, Option.some.injEq]
    omega

theorem find_first_of_space (a v post : Str) (hv : ' ' ∉ v) :
    find_first_of (a ++ (v ++ ' ' :: post)) [' '] a.length = some (a.length + v.length) := by
  unfold find_first_of
  rw [List.drop_left, findFirstOfFrom_append [' '] v (' ' :: post) a.length
    (fun c hc => by
      rw [List.mem_singleton]
      rintro rfl
      exact hv hc)]
  simp [findFirstOfFrom]

theorem extractHardwareId_value (pre v post : Str)
    (hbound : (pre ++ "VID:PID=".toList ++ v ++ [' '] ++ post).length < npos)
    (hpre : ¬ "VID:PID=".toList <:+: pre)
    (hv : ' ' ∉ v) :
    extractHardwareId (pre ++ "VID:PID=".toList ++ v ++ [' '] ++ post) = some v := by
  have hK : "VID:PID=".toList = ['V', 'I', 'D', ':', 'P', 'I', 'D', '='] := by decide
  rw [hK] at hbound hpre ⊢
  have hD : pre ++ ['V', 'I', 'D', ':', 'P', 'I', 'D', '='] ++ v ++ [' '] ++ post =
      pre ++ (['V', 'I', 'D', ':', 'P', 'I', 'D', '='] ++ (v ++ ' ' :: post)) := by
    simp
  have hD2 : pre ++ (['V', 'I', 'D', ':', 'P', 'I', 'D', '='] ++ (v ++ ' ' :: post)) =
      (pre ++ ['V', 'I', 'D', ':', 'P', 'I', 'D', '=']) ++ (v ++ ' ' :: post) := by
    simp
  rw [hD] at hbound ⊢
  have hlen : pre.length + 8 + v.length + 1 + post.length < 2 ^ 64 - 1 := by
    have := hbound
    simp only [List.length_append, List.length_cons, List.length_nil, npos] at this
    omega
  have hfind : find (pre ++ (['V', 'I', 'D', ':', 'P', 'I', 'D', '='] ++ (v ++ ' ' :: post)))
      ['V', 'I', 'D', ':', 'P', 'I', 'D', '='] = some pre.length := by
    unfold find
    rw [findFrom_vidpid pre _ 0 hpre]
    simp
  have hvalue : (pre.length % 2 ^ 64 + 8) % 2 ^ 64 = pre.length + 8 := by
    rw [Nat.mod_eq_of_lt (by omega), Nat.mod_eq_of_lt (by omega)]
  have hspace : find_first_of
      (pre ++ (['V', 'I', 'D', ':', 'P', 'I', 'D', '='] ++ (v ++ ' ' :: post))) [' ']
      (pre.length + 8) = some (pre.length + 8 + v.length) := by
    rw [hD2]
    have := find_first_of_space (pre ++ ['V', 'I', 'D', ':', 'P', 'I', 'D', '=']) v post hv
    simpa using this
  unfold extractHardwareId
  simp only [hK, hfind, sizeT, List.length_cons, List.length_nil, hvalue, hspace]
  have h1 : (pre.length + 8 + v.length) % 2 ^ 64 = pre.length + 8 + v.length :=
    Nat.mod_eq_of_lt (by omega)
  have h2 : (pre.length + 8 + v.length + 2 ^ 64 - (pre.length + 8)) % 2 ^ 64 = v.length := by
    rw [show pre.length + 8 + v.length + 2 ^ 64 - (pre.length + 8) = v.length + 2 ^ 64 by omega,
      Nat.add_mod_right, Nat.mod_eq_of_lt (by omega)]
  have h3 : pre.length % 2 ^ 64 = pre.length := Nat.mod_eq_of_lt (by omega)
  rw [h1, h2, h3]
  have hc : pre.length ≠ npos ∧ v.length ≠ npos := by
    simp only [npos]
    constructor <;> omega
  rw [if_pos hc, hD2, substr, show pre.length + 8 =
    (pre ++ ['V', 'I', 'D', ':', 'P', 'I', 'D', '=']).length by simp, List.drop_left]
  simp

theorem extractHardwareId_none (descriptor : Str) (h : ¬ "VID:PID=".toList <:+: descriptor) :
    extractHardwareId descriptor = none := by
  unfold extractHardwareId
  simp only [find_eq_none _ _ h, sizeT]
  simp

theorem mapInsert_perm {β : Type} (m : List (Str × β)) (k : Str) (v : β)
    (h : mapFind m k = none) : (mapInsert k v m).Perm ((k, v) :: m) := by
  induction m with
  | nil => exact List.Perm.refl _
  | cons e rest ih =>
    obtain ⟨k1, v1⟩ := e
    by_cases h1 : k1 = k
    · simp [mapFind, h1] at h
    · have h1' : ¬ k = k1 := fun e => h1 e.symm
      simp only [mapFind, h1, if_false] at h
      by_cases hlt : k < k1
      · simp only [mapInsert, hlt, if_true]
        exact List.Perm.refl _
      · simp only [mapInsert, hlt, h1', if_false]
        exact ((ih h).cons (k1, v1)).trans (List.Perm.swap _ _ _)

theorem retrieveDeviceId_true_id (env : Transport) (g : Gateway) (serialDevice : SerialDevice)
    (tr tr2 : List Event) (dev : SerialDevice)
    (h : retrieveDeviceId env g serialDevice tr = (.ok (true, dev), tr2)) : dev.id ≠ [] := by
  unfold retrieveDeviceId at h
  simp only at h
  split at h
  · simp at h
  · split at h
    · simp at h
    · split at h
      · simp at h
      · split at h
        · rename_i hc
          simp only [Prod.mk.injEq, Except.ok.injEq, true_and] at h
          rw [← h.1]
          exact hc.2
        · simp at h

theorem admissionTry_true_shape (env : Transport) (g : Gateway) (serialDevice : SerialDevice)
    (tr tr2 : List Event) (dev : SerialDevice)
    (hnone : serialDevice.serialInstance = none)
    (h : admissionTry env g serialDevice tr = (.ok (true, dev), tr2)) :
    dev.id ≠ [] ∧ dev.port = serialDevice.port ∧ dev.serialInstance ≠ none := by
  unfold admissionTry at h
  simp only [SerialDevice.init, hnone] at h
  cases hO : env.open serialDevice.port tr with
  | error se =>
    rw [hO] at h
    simp at h
  | ok u =>
    rw [hO] at h
    simp only at h
    split at h
    · simp at h
    · rename_i idRetrieved dev2 tr1 h1
      split at h
      · simp at h
      · simp only [Prod.mk.injEq, Except.ok.injEq] at h
        obtain ⟨⟨rfl, rfl⟩, -⟩ := h
        have hi := retrieveDeviceId_instance env g _ _ _ _ _ h1
        refine ⟨retrieveDeviceId_true_id env g _ _ _ _ h1, hi.2, ?_⟩
        rw [hi.1]
        exact Option.some_ne_none _

theorem addSerialDevice_registry (env : Transport) (g : Gateway) (serialPort : Str)
    (suppressLogs : Bool) :
    (addSerialDevice env g serialPort suppressLogs).state = g ∨
      ∃ dev : SerialDevice, dev.id ≠ [] ∧ dev.port = serialPort ∧ serialPort ≠ [] ∧
        dev.serialInstance ≠ none ∧ mapFind g.serialDevices dev.id = none ∧
        (∀ entry ∈ g.serialDevices, entry.2.port ≠ serialPort) ∧
        (addSerialDevice env g serialPort suppressLogs).state =
          setReadLoopStarted
            { g with serialDevices := (mapInsert dev.id dev g.serialDevices) } dev.id true := by
  by_cases h : (addSerialDevice env g serialPort suppressLogs).outcome = .ok true
  · right
    obtain ⟨hopen, -, hport, tr1, -, dev, tr2, hadm, hfind, hstate⟩ :=
      addSerialDevice_true_inv env g serialPort suppressLogs h
    obtain ⟨hid, hp, hinst⟩ := admissionTry_true_shape env g _ tr1 tr2 dev rfl hadm
    exact ⟨dev, hid, hp, fileOpens_ne_nil env serialPort hopen, hinst, hfind, hport, hstate⟩
  · left
    exact addSerialDevice_state_of_not_added env g serialPort suppressLogs h

theorem RegistryInv_nil : RegistryInv [] := by
  refine ⟨List.nodup_nil, List.nodup_nil, ?_⟩
  intro entry h
  exact absurd h (List.not_mem_nil _)

theorem RegistryInv_sublist (m1 m : SerialDeviceMap) (hsub : m1.Sublist m)
    (h : RegistryInv m) : RegistryInv m1 :=
  ⟨(hsub.map _).nodup h.1, (hsub.map _).nodup h.2.1, fun entry he => h.2.2 entry (hsub.subset he)⟩

theorem mapFind_none_not_mem {β : Type} (m : List (Str × β)) (k : Str)
    (h : mapFind m k = none) : k ∉ m.map (fun entry => entry.1) := by
  induction m with
  | nil => exact List.not_mem_nil _
  | cons e rest ih =>
    obtain ⟨k1, v1⟩ := e
    by_cases h1 : k1 = k
    · simp [mapFind, h1] at h
    · simp only [mapFind, h1, if_false] at h
      intro hmem
      rcases List.mem_cons.1 hmem with hk | hk
      · exact h1 hk.symm
      · exact ih h hk

theorem RegistryInv_insert (m : SerialDeviceMap) (dev : SerialDevice)
    (h : RegistryInv m) (hid : dev.id ≠ []) (hport : dev.port ≠ [])
    (hinst : dev.serialInstance ≠ none) (hfind : mapFind m dev.id = none)
    (hnew : ∀ entry ∈ m, entry.2.port ≠ dev.port) :
    RegistryInv (mapInsert dev.id dev m) := by
  have hperm := mapInsert_perm m dev.id dev hfind
  refine ⟨?_, ?_, ?_⟩
  · rw [(hperm.map _).nodup_iff, List.map_cons, List.nodup_cons]
    exact ⟨mapFind_none_not_mem m dev.id hfind, h.1⟩
  · rw [(hperm.map _).nodup_iff, List.map_cons, List.nodup_cons]
    refine ⟨?_, h.2.1⟩
    intro hmem
    obtain ⟨entry, he, hp⟩ := List.mem_map.1 hmem
    exact hnew entry he hp
  · intro entry he
    rcases List.mem_cons.1 (hperm.subset he) with rfl | he
    · exact ⟨rfl, hid, hport, hinst⟩
    · exact h.2.2 entry he

theorem addSerialDevice_inv (env : Transport) (g : Gateway) (serialPort : Str)
    (suppressLogs : Bool) (h : RegistryInv g.serialDevices) :
    RegistryInv (addSerialDevice env g serialPort suppressLogs).state.serialDevices := by
  rcases addSerialDevice_registry env g serialPort suppressLogs with hs | ⟨dev, hid, hp, hne, hinst,
    hfind, hport, hs⟩
  · rw [hs]; exact h
  · rw [hs]
    show RegistryInv (mapInsert dev.id dev g.serialDevices)
    refine RegistryInv_insert _ dev h hid (by rw [hp]; exact hne) hinst hfind ?_
    intro entry he
    rw [hp]
    exact hport entry he

theorem deleteSerialDevice_sublist (env : Transport) (g : Gateway) (deviceId : Str) :
    (deleteSerialDevice env g deviceId).state.serialDevices.Sublist g.serialDevices := by
  unfold deleteSerialDevice
  simp only
  split
  · exact List.Sublist.refl _
  · split
    · exact List.filter_sublist _
    · split
      · exact List.Sublist.refl _
      · split
        · exact List.filter_sublist _
        · exact List.filter_sublist _

theorem deleteAllLoop_sublist (env : Transport) (entries : List (Str × SerialDevice))
    (g : Gateway) (n : Nat) (tr : List Event) :
    (deleteAllLoop env entries g n tr).state.serialDevices.Sublist g.serialDevices := by
  induction entries generalizing g n tr with
  | nil => exact List.Sublist.refl _
  | cons entry rest ih =>
    unfold deleteAllLoop
    simp only
    split
    · exact deleteSerialDevice_sublist env g entry.1
    · split
      · exact deleteSerialDevice_sublist env g entry.1
      · exact (ih _ _ _).trans (deleteSerialDevice_sublist env g entry.1)

theorem deleteAllSerialDevices_sublist (env : Transport) (g : Gateway) (suppressLogs : Bool) :
    (deleteAllSerialDevices env g suppressLogs).state.serialDevices.Sublist g.serialDevices := by
  unfold deleteAllSerialDevices
  simp only
  split
  · exact deleteAllLoop_sublist env _ g _ _
  · exact deleteAllLoop_sublist env _ g _ _

theorem sendMessageToSerialDeviceAsync_sublist (env : Transport) (g : Gateway)
    (deviceId message : Str) :
    (sendMessageToSerialDeviceAsync env g deviceId message).state.serialDevices.Sublist
      g.serialDevices := by
  unfold sendMessageToSerialDeviceAsync
  split
  · split
    · split
      · exact List.Sublist.refl _
      · exact List.Sublist.refl _
    · exact deleteSerialDevice_sublist env g deviceId
    · exact List.Sublist.refl _
  · exact List.Sublist.refl _

theorem readLoopIteration_sublist (env : Transport) (g : Gateway) (deviceId : Str)
    (tr : List Event) :
    (readLoopIteration env g deviceId tr).state.serialDevices.Sublist g.serialDevices := by
  unfold readLoopIteration
  split
  · exact List.Sublist.refl _
  · split
    · split
      · exact List.Sublist.refl _
      · exact List.Sublist.refl _
    · exact deleteSerialDevice_sublist env g deviceId
    · exact List.Sublist.refl _

theorem stop_sublist (env : Transport) (g : Gateway) :
    (stop env g).state.serialDevices.Sublist g.serialDevices := by
  unfold stop
  split
  · exact List.Sublist.refl _
  · exact deleteAllSerialDevices_sublist env { g with started := false } false

theorem addNewSerialPortsFrom_inv (env : Transport) (ports : List PortInfo) (g : Gateway)
    (n : Nat) (tr : List Event) (h : RegistryInv g.serialDevices) :
    RegistryInv (addNewSerialPortsFrom env ports g n tr).state.serialDevices := by
  induction ports generalizing g n tr with
  | nil => exact h
  | cons info rest ih =>
    unfold addNewSerialPortsFrom
    simp only
    split
    · exact addSerialDevice_inv env g info.port true h
    · exact ih _ _ _ (addSerialDevice_inv env g info.port true h)

theorem addNewSerialPorts_inv (env : Transport) (g : Gateway) (suppressLogs : Bool)
    (h : RegistryInv g.serialDevices) :
    RegistryInv (addNewSerialPorts env g suppressLogs).state.serialDevices := by
  unfold addNewSerialPorts
  simp only
  split
  · exact addNewSerialPortsFrom_inv env _ g _ _ h
  · exact addNewSerialPortsFrom_inv env _ g _ _ h

theorem reachable_registryInv (g : Gateway) (h : Reachable g) : RegistryInv g.serialDevices := by
  induction h with
  | initial g hdevices _ => rw [hdevices]; exact RegistryInv_nil
  | addSerialDevice env g serialPort suppressLogs _ ih =>
    exact addSerialDevice_inv env g serialPort suppressLogs ih
  | addNewSerialPorts env g suppressLogs _ ih => exact addNewSerialPorts_inv env g suppressLogs ih
  | deleteSerialDevice env g deviceId _ ih =>
    exact RegistryInv_sublist _ _ (deleteSerialDevice_sublist env g deviceId) ih
  | deleteAllSerialDevices env g suppressLogs _ ih =>
    exact RegistryInv_sublist _ _ (deleteAllSerialDevices_sublist env g suppressLogs) ih
  | sendMessageToSerialDeviceAsync env g deviceId message _ ih =>
    exact RegistryInv_sublist _ _ (sendMessageToSerialDeviceAsync_sublist env g deviceId message) ih
  | readLoopIteration env g deviceId tr _ ih =>
    exact RegistryInv_sublist _ _ (readLoopIteration_sublist env g deviceId tr) ih
  | readLoopEnter g deviceId _ _ ih => exact ih
  | readLoopExit g deviceId _ _ ih => exact ih
  | start g _ ih =>
    unfold start
    split
    · exact ih
    · exact ih
  | stop env g _ ih => exact RegistryInv_sublist _ _ (stop_sublist env g) ih

theorem nodup_ports_filter (m : SerialDeviceMap) (p : Str)
    (h : (m.map (fun entry => entry.2.port)).Nodup) :
    (m.filter (fun entry => decide (entry.2.port = p))).length ≤ 1 := by
  induction m with
  | nil => simp
  | cons e rest ih =>
    rw [List.map_cons, List.nodup_cons] at h
    by_cases hp : e.2.port = p
    · rw [List.filter_cons_of_pos (by simpa using hp)]
      have hnil : rest.filter (fun entry => decide (entry.2.port = p)) = [] := by
        rw [List.filter_eq_nil_iff]
        intro entry he hd
        have : entry.2.port = p := of_decide_eq_true hd
        exact h.1 (List.mem_map.2 ⟨entry, he, by rw [this, hp]⟩)
      rw [hnil]
      exact Nat.le_refl 1
    · rw [List.filter_cons_of_neg (by simpa using hp)]
      exact ih h.2

theorem mapFind_mapErase {β : Type} (m : List (Str × β)) (k : Str) :
    mapFind (mapErase k m) k = none := by
  induction m with
  | nil => rfl
  | cons e rest ih =>
    obtain ⟨k1, v1⟩ := e
    by_cases h1 : k1 = k
    · subst h1
      unfold mapErase at ih ⊢
      rw [List.filter_cons_of_neg (by simp)]
      exact ih
    · unfold mapErase at ih ⊢
      rw [List.filter_cons_of_pos (by simpa using h1)]
      simp only [mapFind, h1, if_false]
      exact ih

theorem filter_key_pos {β : Type} (m : List (Str × β)) (k : Str) (v : β)
    (h : mapFind m k = some v) :
    (m.filter (fun entry => decide (entry.1 = k))).length > 0 := by
  induction m with
  | nil => simp [mapFind] at h
  | cons e rest ih =>
    obtain ⟨k1, v1⟩ := e
    by_cases h1 : k1 = k
    · rw [List.filter_cons_of_pos (by simpa using h1)]
      exact Nat.succ_pos _
    · simp only [mapFind, h1, if_false] at h
      rw [List.filter_cons_of_neg (by simpa using h1)]
      exact ih h

theorem deleteSerialDevice_absent (env : Transport) (g : Gateway) (deviceId : Str)
    (h : mapFind g.serialDevices deviceId = none) :
    (deleteSerialDevice env g deviceId).outcome = .ok false ∧
      (deleteSerialDevice env g deviceId).state = g ∧
      ∃ text, (deleteSerialDevice env g deviceId).trace = [Event.writeWarn text] := by
  unfold deleteSerialDevice
  simp only [h]
  exact ⟨trivial, trivial, _, rfl⟩

theorem deleteTry_ok_iff (env : Transport) (s : Serial) :
    (deleteTry env s).1 = .ok () ↔
      env.flush s.port [] = .ok () ∧ env.close s.port [Event.flush s.port] = .ok () := by
  unfold deleteTry
  simp only [Serial.flush, Serial.close]
  cases hF : env.flush s.port [] with
  | error e => simp [liftSerial]
  | ok u =>
    cases hC : env.close s.port ([] ++ [Event.flush s.port]) with
    | error e =>
      simp only [liftSerial, List.nil_append] at hC ⊢
      simp [hC]
    | ok u2 =>
      simp only [liftSerial, List.nil_append] at hC ⊢
      simp [hC]

theorem deleteTry_trace (env : Transport) (s : Serial) :
    ∀ e ∈ (deleteTry env s).2, e = Event.flush s.port ∨ e = Event.close s.port := by
  unfold deleteTry
  simp only [Serial.flush, Serial.close]
  cases hF : liftSerial (env.flush s.port []) with
  | error e =>
    intro ev hev
    simp only [List.nil_append, List.mem_singleton] at hev
    exact Or.inl hev
  | ok u =>
    intro ev hev
    simp only [List.nil_append, List.cons_append, List.mem_cons, List.not_mem_nil,
      or_false] at hev
    exact hev

theorem deleteTry_ok_trace (env : Transport) (s : Serial) (h : (deleteTry env s).1 = .ok ()) :
    deleteTry env s = (.ok (), [Event.flush s.port, Event.close s.port]) := by
  unfold deleteTry at h ⊢
  simp only [Serial.flush, Serial.close] at h ⊢
  cases hF : liftSerial (env.flush s.port []) with
  | error e => rw [hF] at h; simp at h
  | ok u =>
    rw [hF] at h
    simp only at h ⊢
    exact Prod.ext h rfl

theorem deleteSerialDevice_found_cases (env : Transport) (g : Gateway) (deviceId : Str)
    (dev : SerialDevice) (s : Serial)
    (hfind : mapFind g.serialDevices deviceId = some dev)
    (hinst : dev.serialInstance = some s) :
    ((deleteSerialDevice env g deviceId).outcome = .ok true ∧
        (deleteTry env s).1 = .ok () ∧
        (deleteSerialDevice env g deviceId).state =
          { stopReadLoop g deviceId with serialDevices := (mapErase deviceId g.serialDevices) } ∧
        ∃ text, (deleteSerialDevice env g deviceId).trace = (deleteTry env s).2 ++
          [Event.writeInfo text, Event.serialDeviceDeletedCallback deviceId dev.port]) ∨
      ((deleteSerialDevice env g deviceId).outcome = .ok false ∧
        (∃ what, (deleteTry env s).1 = .error (.serial (.IOException what)) ∨
          (deleteTry env s).1 = .error (.serial (.PortNotOpenedException what))) ∧
        (deleteSerialDevice env g deviceId).state =
          { stopReadLoop g deviceId with serialDevices := (mapErase deviceId g.serialDevices) } ∧
        ∃ text1 text2, (deleteSerialDevice env g deviceId).trace = (deleteTry env s).2 ++
          [Event.writeError text1] ++ [Event.writeError text2]) ∨
      (∃ what, (deleteSerialDevice env g deviceId).outcome =
          .error (.serial (.SerialException what)) ∧
        (deleteTry env s).1 = .error (.serial (.SerialException what)) ∧
        (deleteSerialDevice env g deviceId).state = stopReadLoop g deviceId ∧
        (deleteSerialDevice env g deviceId).trace = (deleteTry env s).2) := by
  have hpos : ((stopReadLoop g deviceId).serialDevices.filter
      (fun entry => decide (entry.1 = deviceId))).length > 0 :=
    filter_key_pos g.serialDevices deviceId dev hfind
  have hshape : ∀ x tr, deleteTry env s = (x, tr) →
      x = .ok () ∨ ∃ se, x = .error (.serial se) := by
    intro x tr hx
    unfold deleteTry at hx
    simp only [Serial.flush, Serial.close] at hx
    cases hF : env.flush s.port [] with
    | error e =>
      rw [hF] at hx
      simp only [liftSerial, Prod.mk.injEq] at hx
      exact Or.inr ⟨e, hx.1.symm⟩
    | ok u =>
      rw [hF] at hx
      simp only [liftSerial, Prod.mk.injEq] at hx
      cases hC : env.close s.port ([] ++ [Event.flush s.port]) with
      | error e =>
        rw [hC] at hx
        exact Or.inr ⟨e, hx.1.symm⟩
      | ok u2 =>
        rw [hC] at hx
        exact Or.inl hx.1.symm
  unfold deleteSerialDevice
  simp only [hfind, hinst]
  rcases hdt : deleteTry env s with ⟨x, tr⟩
  rcases hshape x tr hdt with rfl | ⟨se, rfl⟩
  · left
    simp only [deleteCatch, hpos, and_self, decide_True, if_true]
    refine ⟨?_, ?_, ?_, ?_⟩
    · trivial
    · trivial
    · trivial
    · exact ⟨_, rfl⟩
  · cases se with
    | IOException what =>
      right; left
      simp only [deleteCatch, Bool.false_eq_true, false_and, if_false]
      refine ⟨?_, ⟨what, Or.inl rfl⟩, ?_, ?_⟩
      · trivial
      · trivial
      · exact ⟨_, _, rfl⟩
    | SerialException what =>
      right; right
      simp only [deleteCatch]
      refine ⟨what, ?_, ?_, ?_, ?_⟩
      · trivial
      · trivial
      · trivial
      · trivial
    | PortNotOpenedException what =>
      right; left
      simp only [deleteCatch, Bool.false_eq_true, false_and, if_false]
      refine ⟨?_, ⟨what, Or.inr rfl⟩, ?_, ?_⟩
      · trivial
      · trivial
      · exact ⟨_, _, rfl⟩

theorem deleteSerialDevice_no_session (env : Transport) (g : Gateway) (deviceId : Str)
    (dev : SerialDevice)
    (hfind : mapFind g.serialDevices deviceId = some dev)
    (hinst : dev.serialInstance = none) :
    (deleteSerialDevice env g deviceId).outcome = .error .uninitializedRead ∧
      (deleteSerialDevice env g deviceId).trace = [] := by
  unfold deleteSerialDevice
  simp only [hfind, hinst]
  exact ⟨trivial, trivial⟩

theorem deleteTry_no_callback (env : Transport) (s : Serial) (deviceId serialPort : Str) :
    Event.serialDeviceDeletedCallback deviceId serialPort ∉ (deleteTry env s).2 := by
  intro hmem
  rcases deleteTry_trace env s _ hmem with h | h <;> exact Event.noConfusion h

theorem deleteSerialDevice_callback_one (env : Transport) (g : Gateway) (deviceId : Str)
    (dev : SerialDevice) (s : Serial)
    (hfind : mapFind g.serialDevices deviceId = some dev)
    (hinst : dev.serialInstance = some s)
    (htrue : (deleteSerialDevice env g deviceId).outcome = .ok true) :
    (deleteSerialDevice env g deviceId).trace.count
      (Event.serialDeviceDeletedCallback deviceId dev.port) = 1 := by
  rcases deleteSerialDevice_found_cases env g deviceId dev s hfind hinst with
    ⟨-, -, -, text, htrace⟩ | ⟨hfalse, -, -, -⟩ | ⟨what, herr, -, -, -⟩
  · rw [htrace, List.count_append,
      List.count_eq_zero.2 (deleteTry_no_callback env s deviceId dev.port),
      List.count_cons_of_ne (by intro h; exact Event.noConfusion h), List.count_singleton_self]
  · rw [hfalse] at htrue
    exact Bool.noConfusion (Except.ok.inj htrue)
  · rw [herr] at htrue
    exact Except.noConfusion htrue

theorem deleteSerialDevice_callback_none (env : Transport) (g : Gateway) (deviceId : Str)
    (hnot : (deleteSerialDevice env g deviceId).outcome ≠ .ok true) (id1 p1 : Str) :
    Event.serialDeviceDeletedCallback id1 p1 ∉ (deleteSerialDevice env g deviceId).trace := by
  cases hfind : mapFind g.serialDevices deviceId with
  | none =>
    obtain ⟨text, htrace⟩ := (deleteSerialDevice_absent env g deviceId hfind).2.2
    rw [htrace, List.mem_singleton]
    intro h
    exact Event.noConfusion h
  | some dev =>
    cases hinst : dev.serialInstance with
    | none =>
      rw [(deleteSerialDevice_no_session env g deviceId dev hfind hinst).2]
      exact List.not_mem_nil _
    | some s =>
      rcases deleteSerialDevice_found_cases env g deviceId dev s hfind hinst with
        ⟨htrue, -, -, -⟩ | ⟨-, -, -, text1, text2, htrace⟩ | ⟨what, -, -, -, htrace⟩
      · exact absurd htrue hnot
      · rw [htrace]
        intro hmem
        rcases List.mem_append.1 hmem with hmem | hmem
        · rcases List.mem_append.1 hmem with hmem | hmem
          · exact deleteTry_no_callback env s id1 p1 hmem
          · exact Event.noConfusion (List.mem_singleton.1 hmem)
        · exact Event.noConfusion (List.mem_singleton.1 hmem)
      · rw [htrace]
        exact deleteTry_no_callback env s id1 p1

theorem readLoopIteration_serialException (env : Transport) (g : Gateway) (deviceId : Str)
    (dev : SerialDevice) (s : Serial) (tr : List Event) (what : Str)
    (hfind : mapFind g.serialDevices deviceId = some dev)
    (hinst : dev.serialInstance = some s)
    (hread : env.readline s.port tr = .error (.SerialException what)) :
    (readLoopIteration env g deviceId tr).state = (deleteSerialDevice env g deviceId).state ∧
      (readLoopIteration env g deviceId tr).outcome =
        (deleteSerialDevice env g deviceId).outcome.map (fun _ => ()) ∧
      ∃ text1 text2, (readLoopIteration env g deviceId tr).trace =
        tr ++ [Event.readline s.port] ++ [Event.writeError text1, Event.writeInfo text2] ++
          (deleteSerialDevice env g deviceId).trace := by
  unfold readLoopIteration
  simp only [getSerialDeviceById, hfind, Serial.readline, hinst, hread, liftSerial]
  exact ⟨trivial, trivial, _, _, rfl⟩

theorem deleteSerialDevice_no_write (env : Transport) (g : Gateway) (deviceId : Str) :
    (deleteSerialDevice env g deviceId).trace.filter Event.isWrite = [] := by
  rw [List.filter_eq_nil_iff]
  intro e he
  have htry : ∀ s, ∀ e ∈ (deleteTry env s).2, ¬ Event.isWrite e = true := by
    intro s e he
    rcases deleteTry_trace env s e he with rfl | rfl <;> simp [Event.isWrite]
  cases hfind : mapFind g.serialDevices deviceId with
  | none =>
    obtain ⟨text, htrace⟩ := (deleteSerialDevice_absent env g deviceId hfind).2.2
    rw [htrace, List.mem_singleton] at he
    subst he
    simp [Event.isWrite]
  | some dev =>
    cases hinst : dev.serialInstance with
    | none =>
      rw [(deleteSerialDevice_no_session env g deviceId dev hfind hinst).2] at he
      exact absurd he (List.not_mem_nil _)
    | some s =>
      rcases deleteSerialDevice_found_cases env g deviceId dev s hfind hinst with
        ⟨-, -, -, text, htrace⟩ | ⟨-, -, -, text1, text2, htrace⟩ | ⟨what, -, -, -, htrace⟩
      · rw [htrace] at he
        rcases List.mem_append.1 he with he | he
        · exact htry s e he
        · simp only [List.mem_cons, List.mem_singleton, List.not_mem_nil, or_false] at he
          rcases he with rfl | rfl <;> simp [Event.isWrite]
      · rw [htrace] at he
        rcases List.mem_append.1 he with he | he
        · rcases List.mem_append.1 he with he | he
          · exact htry s e he
          · rw [List.mem_singleton] at he
            subst he
            simp [Event.isWrite]
        · rw [List.mem_singleton] at he
          subst he
          simp [Event.isWrite]
      · rw [htrace] at he
        exact htry s e he

theorem deleteSerialDevice_started (env : Transport) (g : Gateway) (deviceId : Str) :
    (deleteSerialDevice env g deviceId).state.started = g.started := by
  unfold deleteSerialDevice
  simp only
  split
  · rfl
  · split
    · rfl
    · split
      · rfl
      · split
        · rfl
        · rfl

theorem deleteAllLoop_started (env : Transport) (entries : List (Str × SerialDevice))
    (g : Gateway) (n : Nat) (tr : List Event) :
    (deleteAllLoop env entries g n tr).state.started = g.started := by
  induction entries generalizing g n tr with
  | nil => rfl
  | cons entry rest ih =>
    unfold deleteAllLoop
    simp only
    split
    · exact deleteSerialDevice_started env g entry.1
    · split
      · exact deleteSerialDevice_started env g entry.1
      · rw [ih]
        exact deleteSerialDevice_started env g entry.1

theorem deleteAllSerialDevices_started (env : Transport) (g : Gateway) (suppressLogs : Bool) :
    (deleteAllSerialDevices env g suppressLogs).state.started = g.started := by
  unfold deleteAllSerialDevices
  simp only
  split
  · exact deleteAllLoop_started env _ g _ _
  · exact deleteAllLoop_started env _ g _ _

theorem deleteAllSerialDevices_empty (env : Transport) (g : Gateway) (suppressLogs : Bool)
    (h : g.serialDevices = []) :
    (deleteAllSerialDevices env g suppressLogs).outcome = .ok 0 ∧
      (deleteAllSerialDevices env g suppressLogs).state = g := by
  unfold deleteAllSerialDevices
  simp only [h, deleteAllLoop]
  exact ⟨trivial, trivial⟩

theorem stop_started (env : Transport) (g : Gateway) : (stop env g).state.started = false := by
  unfold stop
  split
  · rename_i h
    simpa using h
  · exact deleteAllSerialDevices_started env { g with started := false } false

theorem stop_of_not_started (env : Transport) (g : Gateway) (h : g.started = false) :
    (stop env g).outcome = .ok () ∧ (stop env g).state = g := by
  unfold stop
  simp only [h, Bool.not_false, if_true]
  exact ⟨trivial, trivial⟩

theorem stop_of_started (env : Transport) (g : Gateway) (h : g.started = true) :
    (stop env g).state =
        (deleteAllSerialDevices env { g with started := false } false).state ∧
      (stop env g).outcome =
        (deleteAllSerialDevices env { g with started := false } false).outcome.map
          (fun _ => ()) := by
  unfold stop
  simp only [h, Bool.not_true, Bool.false_eq_true, if_false]
  exact ⟨trivial, trivial⟩

theorem deleteSerialDevice_removed (env : Transport) (g : Gateway) (deviceId : Str) (b : Bool)
    (hb : (deleteSerialDevice env g deviceId).outcome = .ok b) :
    mapFind (deleteSerialDevice env g deviceId).state.serialDevices deviceId = none := by
  cases hfind : mapFind g.serialDevices deviceId with
  | none =>
    rw [(deleteSerialDevice_absent env g deviceId hfind).2.1]
    exact hfind
  | some dev =>
    cases hinst : dev.serialInstance with
    | none =>
      rw [(deleteSerialDevice_no_session env g deviceId dev hfind hinst).1] at hb
      exact Except.noConfusion hb
    | some s =>
      rcases deleteSerialDevice_found_cases env g deviceId dev s hfind hinst with
        ⟨-, -, hstate, -⟩ | ⟨-, -, hstate, -⟩ | ⟨what, herr, -, -, -⟩
      · rw [hstate]; exact mapFind_mapErase _ _
      · rw [hstate]; exact mapFind_mapErase _ _
      · rw [herr] at hb
        exact Except.noConfusion hb

theorem deleteAllLoop_cons_not_ok (env : Transport) (entry : Str × SerialDevice)
    (rest : List (Str × SerialDevice)) (g : Gateway) (n : Nat) (tr : List Event) (m : Nat) :
    (deleteAllLoop env (entry :: rest) g n tr).outcome ≠ .ok m := by
  unfold deleteAllLoop
  simp only
  split
  · intro h
    exact Except.noConfusion h
  · rename_i deleted hdel
    rw [deleteSerialDevice_removed env g entry.1 deleted hdel]
    intro h
    exact Except.noConfusion h

theorem deleteAllSerialDevices_returns_only_empty (env : Transport) (g : Gateway)
    (suppressLogs : Bool) (m : Nat)
    (h : (deleteAllSerialDevices env g suppressLogs).outcome = .ok m) :
    g.serialDevices = [] := by
  cases hreg : g.serialDevices with
  | nil => rfl
  | cons entry rest =>
    exfalso
    unfold deleteAllSerialDevices at h
    simp only [hreg] at h
    split at h
    · exact Except.noConfusion h
    · rename_i numDevicesDeleted hloop
      exact deleteAllLoop_cons_not_ok env entry rest g 0 _ numDevicesDeleted hloop

theorem findFirstOfFrom_split (chars : Str) (s : Str) (i j : Nat)
    (h : findFirstOfFrom chars s i = some j) :
    ∃ pre c rest, s = pre ++ c :: rest ∧ (∀ x ∈ pre, x ∉ chars) ∧ c ∈ chars ∧
      j = i + pre.length := by
  induction s generalizing i with
  | nil => simp [findFirstOfFrom] at h
  | cons a s ih =>
      unfold findFirstOfFrom at h
      by_cases ha : a ∈ chars
      · rw [if_pos ha] at h
        refine ⟨[], a, s, rfl, ?_, ha, ?_⟩
        · intro x hx
          cases hx
        · simpa using (Option.some.inj h).symm
      · rw [if_neg ha] at h
        obtain ⟨pre, c, rest, hs, hpre, hc, hj⟩ := ih (i + 1) h
        refine ⟨a :: pre, c, rest, by rw [hs]; rfl, ?_, hc, ?_⟩
        · intro x hx
          rcases List.mem_cons.1 hx with rfl | hx
          · exact ha
          · exact hpre x hx
        · rw [hj, List.length_cons]
          omega

theorem mem_take_of_split (pre rest : Str) (c : Char) (n : Nat) (hn : n ≤ pre.length) (x : Char)
    (hx : x ∈ (pre ++ c :: rest).take n) : x ∈ pre := by
  rw [List.take_append_of_le_length hn] at hx
  exact List.mem_of_mem_take hx

theorem mem_substr_of_split (pre rest : Str) (c : Char) (pos len : Nat)
    (hn : pos + len ≤ pre.length) (x : Char)
    (hx : x ∈ substr (pre ++ c :: rest) pos len) : x ∈ pre := by
  unfold substr at hx
  have hx1 : x ∈ (pre ++ c :: rest).drop pos := List.mem_of_mem_take hx
  rw [List.take_drop] at hx
  exact mem_take_of_split pre rest c (pos + len) hn x (List.mem_of_mem_drop hx)

theorem parseMessage_some (line delimiter : Str) (p m : Nat)
    (hp : find_first_of line delimiter 0 = some p)
    (hm : find_first_of line (CHAR_NEWLINE ++ CHAR_CARRIAGE_RETURN) 0 = some m) :
    parseMessage line delimiter =
      (substr line 0 p, if p < m then substr line (p + 1) ((m - 1) - p) else []) := by
  unfold parseMessage
  rw [hp, hm]
  simp only
  split <;> rfl

theorem parseMessage_none (line delimiter : Str)
    (h : find_first_of line delimiter 0 = none ∨
      find_first_of line (CHAR_NEWLINE ++ CHAR_CARRIAGE_RETURN) 0 = none) :
    parseMessage line delimiter = ([], []) := by
  unfold parseMessage
  rcases h with h | h
  · rw [h]
  · rw [h]
    split
    · rename_i h1 h2
      cases h2
    · rfl

theorem find_first_of_no_space (a rest : Str) (hrest : ' ' ∉ rest) :
    find_first_of (a ++ rest) [' '] a.length = none := by
  unfold find_first_of
  rw [List.drop_left, findFirstOfFrom_eq_none_iff]
  intro c hc
  rw [List.mem_singleton]
  rintro rfl
  exact hrest hc

theorem mem_setInsert (x y : Str) (s : StringSet) : y ∈ setInsert x s ↔ y = x ∨ y ∈ s := by
  induction s with
  | nil => simp [setInsert]
  | cons z rest ih =>
      unfold setInsert
      by_cases h1 : x < z
      · rw [if_pos h1]
        simp
      · rw [if_neg h1]
        by_cases h2 : x = z
        · rw [if_pos h2]
          subst h2
          simp
        · rw [if_neg h2, List.mem_cons, ih, List.mem_cons]
          tauto

theorem loadWhitelistLines_mem (lines : List Str) (g : Gateway) (tr : List Event) (x : Str) :
    x ∈ (loadWhitelistLines lines g tr).1.hardwareWhitelist ↔
      x ∈ g.hardwareWhitelist ∨ x ∈ lines := by
  induction lines generalizing g tr with
  | nil => simp [loadWhitelistLines]
  | cons line rest ih =>
      unfold loadWhitelistLines
      rw [ih]
      simp only [mem_setInsert, List.mem_cons]
      tauto

theorem loadBlacklistLines_mem (lines : List Str) (g : Gateway) (tr : List Event) (x : Str) :
    x ∈ (loadBlacklistLines lines g tr).1.serialPortBlacklist ↔
      x ∈ g.serialPortBlacklist ∨ x ∈ lines := by
  induction lines generalizing g tr with
  | nil => simp [loadBlacklistLines]
  | cons line rest ih =>
      unfold loadBlacklistLines
      rw [ih]
      simp only [mem_setInsert, List.mem_cons]
      tauto

theorem getlinesFrom_line (l cs line : Str) (hl : '\n' ∉ l) :
    getlinesFrom (l ++ '\n' :: cs) line = (line ++ l) :: getlinesFrom cs [] := by
  induction l generalizing line with
  | nil => simp [getlinesFrom]
  | cons c l ih =>
      have hc : c ≠ '\n' := fun h => hl (by rw [h]; exact List.mem_cons_self _ _)
      have hl2 : '\n' ∉ l := fun h => hl (List.mem_cons_of_mem _ h)
      rw [List.cons_append, getlinesFrom, if_neg hc, ih _ hl2]
      simp

theorem getlines_terminated (lines : List Str) (hlines : ∀ l ∈ lines, '\n' ∉ l) :
    getlines (lines.flatMap (fun l => l ++ ['\n'])) = lines := by
  unfold getlines
  induction lines with
  | nil => rfl
  | cons l rest ih =>
      rw [List.flatMap_cons, List.append_assoc, List.singleton_append,
        getlinesFrom_line l _ [] (hlines l (List.mem_cons_self _ _)), List.nil_append,
        ih (fun l2 h2 => hlines l2 (List.mem_cons_of_mem _ h2))]

theorem loadHardwareWhitelist_content (g : Gateway) (fileName content : Str)
    (hname : fileName ≠ []) :
    (loadHardwareWhitelist g fileName (some content)).outcome = .ok () ∧
      (loadHardwareWhitelist g fileName (some content)).state =
        (loadWhitelistLines (getlines content) g []).1 := by
  unfold loadHardwareWhitelist
  rw [if_neg hname]
  simp only
  split <;> exact ⟨rfl, rfl⟩

theorem loadSerialPortBlacklist_content (g : Gateway) (fileName content : Str)
    (hname : fileName ≠ []) :
    (loadSerialPortBlacklist g fileName (some content)).outcome = .ok () ∧
      (loadSerialPortBlacklist g fileName (some content)).state =
        (loadBlacklistLines (getlines content) g []).1 := by
  unfold loadSerialPortBlacklist
  rw [if_neg hname]
  exact ⟨rfl, rfl⟩

theorem addNewSerialPortsFrom_count (env : Transport) (ports : List PortInfo) :
    ∀ (g : Gateway) (n : Nat) (tr : List Event), n + ports.length < 2 ^ 32 →
      (addNewSerialPortsFrom env ports g n tr).outcome =
          .ok (n + (admissionResults env ports g).count true) ∧
        (addNewSerialPortsFrom env ports g n tr).state.serialDevices.length =
          g.serialDevices.length + (admissionResults env ports g).count true := by
  induction ports with
  | nil =>
      intro g n tr _
      exact ⟨rfl, rfl⟩
  | cons p rest ih =>
      intro g n tr hn
      rw [List.length_cons] at hn
      obtain ⟨b, hb⟩ := addSerialDevice_returns env g p.port true
      unfold addNewSerialPortsFrom admissionResults
      simp only [hb]
      cases b with
      | true =>
          obtain ⟨-, -, -, tr1, -, dev, tr2, -, hfind, hstate⟩ :=
            addSerialDevice_true_inv env g p.port true hb
          have hlen : (addSerialDevice env g p.port true).state.serialDevices.length =
              g.serialDevices.length + 1 := by
            rw [hstate]
            exact length_mapInsert g.serialDevices dev.id dev hfind
          have hmod : (n + 1) % 2 ^ 32 = n + 1 := Nat.mod_eq_of_lt (by omega)
          obtain ⟨h1, h2⟩ := ih (addSerialDevice env g p.port true).state (n + 1)
            (tr ++ (addSerialDevice env g p.port true).trace) (by omega)
          simp only [if_true, hmod, List.count_cons_self]
          rw [h1, h2, hlen]
          constructor
          · congr 1
            omega
          · omega
      | false =>
          have hstate : (addSerialDevice env g p.port true).state = g :=
            addSerialDevice_state_of_not_added env g p.port true (by
              rw [hb]
              intro h
              exact Bool.noConfusion (Except.ok.inj h))
          obtain ⟨h1, h2⟩ := ih (addSerialDevice env g p.port true).state n
            (tr ++ (addSerialDevice env g p.port true).trace) (by omega)
          simp only [Bool.false_eq_true, if_false]
          rw [h1, h2, hstate]
          simp

theorem addNewSerialPortsFrom_returns (env : Transport) (ports : List PortInfo) :
    ∀ (g : Gateway) (n : Nat) (tr : List Event),
      ∃ k, (addNewSerialPortsFrom env ports g n tr).outcome = .ok k := by
  induction ports with
  | nil =>
      intro g n tr
      exact ⟨n, rfl⟩
  | cons p rest ih =>
      intro g n tr
      obtain ⟨b, hb⟩ := addSerialDevice_returns env g p.port true
      unfold addNewSerialPortsFrom
      simp only [hb]
      exact ih _ _ _

theorem addNewSerialPorts_returns (env : Transport) (g : Gateway) (suppressLogs : Bool) :
    ∃ k, (addNewSerialPorts env g suppressLogs).outcome = .ok k := by
  obtain ⟨k, hk⟩ := addNewSerialPortsFrom_returns env env.list_ports g 0
    ((if !suppressLogs then
      [Event.writeInfo "Searching for new serial ports...".toList] else []) ++ [Event.list_ports])
  unfold addNewSerialPorts
  simp only [hk]
  exact ⟨k, rfl⟩

theorem addNewSerialPorts_of_from (env : Transport) (g : Gateway) (suppressLogs : Bool) :
    (addNewSerialPorts env g suppressLogs).outcome =
        (addNewSerialPortsFrom env env.list_ports g 0
          ((if !suppressLogs then [Event.writeInfo "Searching for new serial ports...".toList]
            else []) ++ [Event.list_ports])).outcome ∧
      (addNewSerialPorts env g suppressLogs).state =
        (addNewSerialPortsFrom env env.list_ports g 0
          ((if !suppressLogs then [Event.writeInfo "Searching for new serial ports...".toList]
            else []) ++ [Event.list_ports])).state := by
  obtain ⟨k, hk⟩ := addNewSerialPortsFrom_returns env env.list_ports g 0
    ((if !suppressLogs then
      [Event.writeInfo "Searching for new serial ports...".toList] else []) ++ [Event.list_ports])
  unfold addNewSerialPorts
  simp only
  split
  · rename_i e he
    rw [hk] at he
    cases he
  · rename_i n hn
    exact ⟨hn.symm, rfl⟩

theorem isReadLoopStarted_setReadLoopStarted_eq (g : Gateway) (deviceId id : Str) (b : Bool) :
    isReadLoopStarted (setReadLoopStarted g deviceId b) id =
      if id = deviceId then b else isReadLoopStarted g id := by
  unfold isReadLoopStarted setReadLoopStarted
  simp only [mapFind_mapInsert]
  by_cases h : id = deviceId
  · rw [if_pos h, if_pos h]
  · rw [if_neg h, if_neg h]

theorem isReadLoopStarted_setReadLoopQuitted (g : Gateway) (deviceId id : Str) (q : Bool) :
    isReadLoopStarted (setReadLoopQuitted g deviceId q) id = isReadLoopStarted g id := by
  unfold isReadLoopStarted setReadLoopQuitted
  simp only [mapFind_mapInsert]
  by_cases h : id = deviceId
  · subst h
    rw [if_pos rfl]
    cases mapFind g.readLoopStates id <;> rfl
  · rw [if_neg h]

theorem isReadLoopStarted_stopReadLoop (g : Gateway) (deviceId : Str) :
    isReadLoopStarted (stopReadLoop g deviceId) deviceId = false := by
  unfold stopReadLoop
  rw [isReadLoopStarted_setReadLoopStarted_eq, if_pos rfl]

theorem addSerialDevice_steps (env : Transport) (g : Gateway) (serialPort : Str)
    (suppressLogs : Bool) :
    Relation.ReflTransGen AtomicStep g (addSerialDevice env g serialPort suppressLogs).state := by
  rcases addSerialDevice_registry env g serialPort suppressLogs with h | h
  · rw [h]
  · obtain ⟨dev, -, -, -, -, hfind, -, hstate⟩ := h
    rw [hstate]
    exact Relation.ReflTransGen.single (AtomicStep.register g dev hfind)

theorem addNewSerialPortsFrom_steps (env : Transport) (ports : List PortInfo) :
    ∀ (g : Gateway) (n : Nat) (tr : List Event),
      Relation.ReflTransGen AtomicStep g (addNewSerialPortsFrom env ports g n tr).state := by
  induction ports with
  | nil =>
      intro g n tr
      exact Relation.ReflTransGen.refl
  | cons p rest ih =>
      intro g n tr
      obtain ⟨b, hb⟩ := addSerialDevice_returns env g p.port true
      unfold addNewSerialPortsFrom
      simp only [hb]
      exact (addSerialDevice_steps env g p.port true).trans (ih _ _ _)

theorem addNewSerialPorts_steps (env : Transport) (g : Gateway) (suppressLogs : Bool) :
    Relation.ReflTransGen AtomicStep g (addNewSerialPorts env g suppressLogs).state := by
  rw [(addNewSerialPorts_of_from env g suppressLogs).2]
  exact addNewSerialPortsFrom_steps env env.list_ports g 0 _

theorem deleteSerialDevice_state_cases (env : Transport) (g : Gateway) (deviceId : Str) :
    (deleteSerialDevice env g deviceId).state = g ∨
      (deleteSerialDevice env g deviceId).state = stopReadLoop g deviceId ∨
      (deleteSerialDevice env g deviceId).state =
        { stopReadLoop g deviceId with
          serialDevices := (mapErase deviceId (stopReadLoop g deviceId).serialDevices) } := by
  unfold deleteSerialDevice
  split
  · exact Or.inl rfl
  · simp only
    split
    · exact Or.inr (Or.inr rfl)
    · split
      · exact Or.inr (Or.inl rfl)
      · split
        · exact Or.inr (Or.inr rfl)
        · exact Or.inr (Or.inr rfl)

theorem deleteSerialDevice_steps (env : Transport) (g : Gateway) (deviceId : Str) :
    Relation.ReflTransGen AtomicStep g (deleteSerialDevice env g deviceId).state := by
  have h1 : Relation.ReflTransGen AtomicStep g (stopReadLoop g deviceId) :=
    Relation.ReflTransGen.single (AtomicStep.stopReadLoop g deviceId)
  rcases deleteSerialDevice_state_cases env g deviceId with h | h | h
  · rw [h]
  · rw [h]
    exact h1
  · rw [h]
    exact h1.tail (AtomicStep.erase (stopReadLoop g deviceId) deviceId
      (isReadLoopStarted_stopReadLoop g deviceId))

theorem deleteAllLoop_steps (env : Transport) (entries : List (Str × SerialDevice)) :
    ∀ (g : Gateway) (n : Nat) (tr : List Event),
      Relation.ReflTransGen AtomicStep g (deleteAllLoop env entries g n tr).state := by
  induction entries with
  | nil =>
      intro g n tr
      exact Relation.ReflTransGen.refl
  | cons entry rest ih =>
      intro g n tr
      unfold deleteAllLoop
      simp only
      split
      · exact deleteSerialDevice_steps env g entry.1
      · split
        · exact deleteSerialDevice_steps env g entry.1
        · exact (deleteSerialDevice_steps env g entry.1).trans (ih _ _ _)

theorem deleteAllSerialDevices_steps (env : Transport) (g : Gateway) (suppressLogs : Bool) :
    Relation.ReflTransGen AtomicStep g (deleteAllSerialDevices env g suppressLogs).state := by
  unfold deleteAllSerialDevices
  simp only
  split <;> exact deleteAllLoop_steps env g.serialDevices g 0 _

theorem sendMessageToSerialDeviceAsync_steps (env : Transport) (g : Gateway)
    (deviceId message : Str) :
    Relation.ReflTransGen AtomicStep g
      (sendMessageToSerialDeviceAsync env g deviceId message).state := by
  unfold sendMessageToSerialDeviceAsync
  split
  · split
    · split <;> exact Relation.ReflTransGen.refl
    · exact deleteSerialDevice_steps env g deviceId
    · exact Relation.ReflTransGen.refl
  · exact Relation.ReflTransGen.refl

theorem readLoopIteration_steps (env : Transport) (g : Gateway) (deviceId : Str)
    (tr : List Event) :
    Relation.ReflTransGen AtomicStep g (readLoopIteration env g deviceId tr).state := by
  unfold readLoopIteration
  split
  · exact Relation.ReflTransGen.refl
  · split
    · split <;> exact Relation.ReflTransGen.refl
    · exact deleteSerialDevice_steps env g deviceId
    · exact Relation.ReflTransGen.refl

theorem start_steps (g : Gateway) : Relation.ReflTransGen AtomicStep g (start g).state := by
  unfold start
  split
  · exact Relation.ReflTransGen.refl
  · exact Relation.ReflTransGen.single (AtomicStep.setStarted g true)

theorem stop_steps (env : Transport) (g : Gateway) :
    Relation.ReflTransGen AtomicStep g (stop env g).state := by
  unfold stop
  split
  · exact Relation.ReflTransGen.refl
  · exact (Relation.ReflTransGen.single (AtomicStep.setStarted g false)).trans
      (deleteAllSerialDevices_steps env _ false)

theorem reachable_of_atomic (P : Gateway → Prop)
    (hinit : ∀ g : Gateway, g.serialDevices = [] → g.readLoopStates = [] → P g)
    (hstep : ∀ g g2 : Gateway, AtomicStep g g2 → P g → P g2) :
    ∀ g : Gateway, Reachable g → P g := by
  have hsteps : ∀ g g2 : Gateway, Relation.ReflTransGen AtomicStep g g2 → P g → P g2 := by
    intro g g2 h
    induction h with
    | refl => exact id
    | tail _ hlast ih => exact fun hP => hstep _ _ hlast (ih hP)
  intro g h
  induction h with
  | initial g hdevices hstates => exact hinit g hdevices hstates
  | addSerialDevice env g serialPort suppressLogs _ ih =>
      exact hsteps _ _ (addSerialDevice_steps env g serialPort suppressLogs) ih
  | addNewSerialPorts env g suppressLogs _ ih =>
      exact hsteps _ _ (addNewSerialPorts_steps env g suppressLogs) ih
  | deleteSerialDevice env g deviceId _ ih =>
      exact hsteps _ _ (deleteSerialDevice_steps env g deviceId) ih
  | deleteAllSerialDevices env g suppressLogs _ ih =>
      exact hsteps _ _ (deleteAllSerialDevices_steps env g suppressLogs) ih
  | sendMessageToSerialDeviceAsync env g deviceId message _ ih =>
      exact hsteps _ _ (sendMessageToSerialDeviceAsync_steps env g deviceId message) ih
  | readLoopIteration env g deviceId tr _ ih =>
      exact hsteps _ _ (readLoopIteration_steps env g deviceId tr) ih
  | readLoopEnter g deviceId _ _ ih =>
      exact hstep _ _ (AtomicStep.setReadLoopQuitted g deviceId false) ih
  | readLoopExit g deviceId _ _ ih =>
      exact hstep _ _ (AtomicStep.setReadLoopQuitted g deviceId true) ih
  | start g _ ih => exact hsteps _ _ (start_steps g) ih
  | stop env g _ ih => exact hsteps _ _ (stop_steps env g) ih

theorem mapFind_mapErase_ne {β : Type} (m : List (Str × β)) (k k2 : Str) (h : k2 ≠ k) :
    mapFind (mapErase k m) k2 = mapFind m k2 := by
  induction m with
  | nil => rfl
  | cons e rest ih =>
    obtain ⟨k1, v1⟩ := e
    unfold mapErase at ih ⊢
    by_cases h1 : k1 = k
    · subst h1
      rw [List.filter_cons_of_neg (by simp), ih]
      simp only [mapFind, if_neg (Ne.symm h)]
    · rw [List.filter_cons_of_pos (by simpa using h1)]
      simp only [mapFind, ih]

theorem mapFind_ne_none_of_mem {β : Type} (m : List (Str × β)) (k : Str)
    (h : k ∈ m.map (fun entry => entry.1)) : mapFind m k ≠ none :=
  fun hnone => mapFind_none_not_mem m k hnone h

theorem started_registered_step (g g2 : Gateway) (hstep : AtomicStep g g2)
    (h : ∀ id, isReadLoopStarted g id = true → mapFind g.serialDevices id ≠ none) :
    ∀ id, isReadLoopStarted g2 id = true → mapFind g2.serialDevices id ≠ none := by
  cases hstep with
  | register dev hfind =>
      intro id hid
      rw [isReadLoopStarted_setReadLoopStarted_eq] at hid
      show mapFind (mapInsert dev.id dev g.serialDevices) id ≠ none
      rw [mapFind_mapInsert]
      by_cases hk : id = dev.id
      · rw [if_pos hk]
        exact Option.some_ne_none _
      · rw [if_neg hk] at hid ⊢
        exact h id hid
  | stopReadLoop deviceId =>
      intro id hid
      unfold stopReadLoop at hid
      rw [isReadLoopStarted_setReadLoopStarted_eq] at hid
      by_cases hk : id = deviceId
      · rw [if_pos hk] at hid
        exact Bool.noConfusion hid
      · rw [if_neg hk] at hid
        exact h id hid
  | erase deviceId hstopped =>
      intro id hid
      show mapFind (mapErase deviceId g.serialDevices) id ≠ none
      have hid2 : isReadLoopStarted g id = true := hid
      by_cases hk : id = deviceId
      · rw [hk, hstopped] at hid2
        exact Bool.noConfusion hid2
      · rw [mapFind_mapErase_ne _ _ _ hk]
        exact h id hid2
  | setReadLoopQuitted deviceId quitted =>
      intro id hid
      rw [isReadLoopStarted_setReadLoopQuitted] at hid
      exact h id hid
  | setStarted started =>
      intro id hid
      exact h id hid

theorem reachable_started_mapFind (g : Gateway) (hreach : Reachable g) :
    ∀ id, isReadLoopStarted g id = true → mapFind g.serialDevices id ≠ none := by
  refine reachable_of_atomic
    (fun g => ∀ id, isReadLoopStarted g id = true → mapFind g.serialDevices id ≠ none)
    ?_ started_registered_step g hreach
  intro g0 _ hstates id hid
  unfold isReadLoopStarted at hid
  rw [hstates] at hid
  exact Bool.noConfusion hid

theorem mem_of_mapFind {β : Type} (m : List (Str × β)) (k : Str) (v : β)
    (h : mapFind m k = some v) : (k, v) ∈ m := by
  induction m with
  | nil => cases h
  | cons e rest ih =>
    obtain ⟨k1, v1⟩ := e
    unfold mapFind at h
    by_cases h1 : k1 = k
    · rw [if_pos h1] at h
      cases h
      rw [h1]
      exact List.mem_cons_self _ _
    · rw [if_neg h1] at h
      exact List.mem_cons_of_mem _ (ih h)

theorem readLoopIteration_with_session (env : Transport) (g : Gateway) (deviceId : Str)
    (tr : List Event) (dev : SerialDevice) (s : Serial)
    (hfind : mapFind g.serialDevices deviceId = some dev)
    (hinst : dev.serialInstance = some s) :
    (readLoopIteration env g deviceId tr).outcome ≠ .error .nullDereference ∧
      (readLoopIteration env g deviceId tr).outcome ≠ .error .uninitializedRead := by
  unfold readLoopIteration getSerialDeviceById
  rw [hfind]
  simp only [hinst, Serial.readline]
  cases hread : env.readline s.port tr with
  | ok line =>
      simp only [liftSerial]
      split <;> exact ⟨fun h => Except.noConfusion h, fun h => Except.noConfusion h⟩
  | error e =>
      cases e with
      | IOException what =>
          simp only [liftSerial]
          exact ⟨fun h => Thrown.noConfusion (Except.error.inj h),
            fun h => Thrown.noConfusion (Except.error.inj h)⟩
      | PortNotOpenedException what =>
          simp only [liftSerial]
          exact ⟨fun h => Thrown.noConfusion (Except.error.inj h),
            fun h => Thrown.noConfusion (Except.error.inj h)⟩
      | SerialException what =>
          simp only [liftSerial]
          rcases deleteSerialDevice_found_cases env g deviceId dev s hfind hinst with
            h | h | h
          · rw [h.1]
            exact ⟨fun h => Except.noConfusion h, fun h => Except.noConfusion h⟩
          · rw [h.1]
            exact ⟨fun h => Except.noConfusion h, fun h => Except.noConfusion h⟩
          · obtain ⟨w, hw, -⟩ := h
            rw [hw]
            exact ⟨fun h => Thrown.noConfusion (Except.error.inj h),
              fun h => Thrown.noConfusion (Except.error.inj h)⟩

theorem mem_keys_mapInsert {β : Type} (m : List (Str × β)) (k k2 : Str) (v : β)
    (h : k2 ∈ (mapInsert k v m).map (fun entry => entry.1)) :
    k2 = k ∨ k2 ∈ m.map (fun entry => entry.1) := by
  induction m with
  | nil =>
      simp only [mapInsert, List.map_cons, List.map_nil, List.mem_singleton] at h
      exact Or.inl h
  | cons e rest ih =>
    obtain ⟨k1, v1⟩ := e
    unfold mapInsert at h
    by_cases h1 : k < k1
    · rw [if_pos h1] at h
      rcases List.mem_cons.1 h with h | h
      · exact Or.inl h
      · exact Or.inr h
    · rw [if_neg h1] at h
      by_cases h2 : k = k1
      · rw [if_pos h2] at h
        rcases List.mem_cons.1 h with h | h
        · exact Or.inl h
        · exact Or.inr (List.mem_cons_of_mem _ h)
      · rw [if_neg h2] at h
        rcases List.mem_cons.1 h with h | h
        · exact Or.inr (by rw [h]; exact List.mem_cons_self _ _)
        · rcases ih h with h | h
          · exact Or.inl h
          · exact Or.inr (List.mem_cons_of_mem _ h)

theorem mapInsert_sorted {β : Type} (m : List (Str × β)) (k : Str) (v : β)
    (h : (m.map (fun entry => entry.1)).Pairwise (fun a b => a < b)) :
    ((mapInsert k v m).map (fun entry => entry.1)).Pairwise (fun a b => a < b) := by
  induction m with
  | nil => simp [mapInsert]
  | cons e rest ih =>
    obtain ⟨k1, v1⟩ := e
    rw [List.map_cons, List.pairwise_cons] at h
    obtain ⟨hhead, hrest⟩ := h
    unfold mapInsert
    by_cases h1 : k < k1
    · rw [if_pos h1, List.map_cons, List.pairwise_cons]
      constructor
      · intro a ha
        rcases List.mem_cons.1 ha with ha | ha
        · rw [ha]
          exact h1
        · exact lt_trans h1 (hhead a ha)
      · rw [List.map_cons, List.pairwise_cons]
        exact ⟨hhead, hrest⟩
    · rw [if_neg h1]
      by_cases h2 : k = k1
      · rw [if_pos h2, List.map_cons, List.pairwise_cons]
        subst h2
        exact ⟨hhead, hrest⟩
      · rw [if_neg h2, List.map_cons, List.pairwise_cons]
        refine ⟨?_, ih hrest⟩
        intro a ha
        rcases mem_keys_mapInsert rest k a v ha with ha | ha
        · rw [ha]
          exact lt_of_le_of_ne (not_lt.1 h1) (Ne.symm h2)
        · exact hhead a ha

theorem sorted_keys_nodup {β : Type} (m : List (Str × β))
    (h : (m.map (fun entry => entry.1)).Pairwise (fun a b => a < b)) :
    (m.map Prod.fst).Nodup :=
  List.Pairwise.imp (fun hab => ne_of_lt hab) h

/-- The invariant of the reader-state map: its keys are in strictly ascending order, and
it has an entry for every key of the registry. -/
theorem readLoopStates_cover_step (g g2 : Gateway) (hstep : AtomicStep g g2)
    (h : (g.readLoopStates.map (fun entry => entry.1)).Pairwise (fun a b => a < b) ∧
      ∀ id, mapFind g.serialDevices id ≠ none → mapFind g.readLoopStates id ≠ none) :
    (g2.readLoopStates.map (fun entry => entry.1)).Pairwise (fun a b => a < b) ∧
      ∀ id, mapFind g2.serialDevices id ≠ none → mapFind g2.readLoopStates id ≠ none := by
  obtain ⟨hsorted, hcover⟩ := h
  have hinsert : ∀ (k : Str) (v : Bool × Bool) (id : Str),
      mapFind g.readLoopStates id ≠ none →
        mapFind (mapInsert k v g.readLoopStates) id ≠ none := by
    intro k v id hid
    rw [mapFind_mapInsert]
    by_cases hk : id = k
    · rw [if_pos hk]
      exact Option.some_ne_none _
    · rw [if_neg hk]
      exact hid
  cases hstep with
  | register dev hfind =>
      refine ⟨mapInsert_sorted _ _ _ hsorted, ?_⟩
      intro id hid
      show mapFind (mapInsert dev.id _ g.readLoopStates) id ≠ none
      have hid2 : mapFind (mapInsert dev.id dev g.serialDevices) id ≠ none := hid
      rw [mapFind_mapInsert] at hid2 ⊢
      by_cases hk : id = dev.id
      · rw [if_pos hk]
        exact Option.some_ne_none _
      · rw [if_neg hk] at hid2 ⊢
        exact hcover id hid2
  | stopReadLoop deviceId =>
      exact ⟨mapInsert_sorted _ _ _ hsorted, fun id hid => hinsert _ _ id (hcover id hid)⟩
  | erase deviceId hstopped =>
      refine ⟨hsorted, ?_⟩
      intro id hid
      have hid2 : mapFind (mapErase deviceId g.serialDevices) id ≠ none := hid
      by_cases hk : id = deviceId
      · rw [hk, mapFind_mapErase] at hid2
        exact absurd rfl hid2
      · rw [mapFind_mapErase_ne _ _ _ hk] at hid2
        exact hcover id hid2
  | setReadLoopQuitted deviceId quitted =>
      exact ⟨mapInsert_sorted _ _ _ hsorted, fun id hid => hinsert _ _ id (hcover id hid)⟩
  | setStarted started =>
      exact ⟨hsorted, hcover⟩

theorem reachable_readLoopStates_inv (g : Gateway) (hreach : Reachable g) :
    (g.readLoopStates.map (fun entry => entry.1)).Pairwise (fun a b => a < b) ∧
      ∀ id, mapFind g.serialDevices id ≠ none → mapFind g.readLoopStates id ≠ none := by
  refine reachable_of_atomic
    (fun g => (g.readLoopStates.map (fun entry => entry.1)).Pairwise (fun a b => a < b) ∧
      ∀ id, mapFind g.serialDevices id ≠ none → mapFind g.readLoopStates id ≠ none)
    ?_ readLoopStates_cover_step g hreach
  intro g0 hdevices hstates
  rw [hdevices, hstates]
  exact ⟨List.Pairwise.nil, fun id hid => absurd rfl hid⟩

theorem getlinesFrom_last (last line : Str) (hlast : '\n' ∉ last) :
    getlinesFrom last line = if line ++ last = [] then [] else [line ++ last] := by
  induction last generalizing line with
  | nil => simp [getlinesFrom]
  | cons c l ih =>
      have hc : c ≠ '\n' := fun h => hlast (by rw [h]; exact List.mem_cons_self _ _)
      have hl2 : '\n' ∉ l := fun h => hlast (List.mem_cons_of_mem _ h)
      rw [getlinesFrom, if_neg hc, ih _ hl2]
      simp

theorem getlines_decompose (lines : List Str) (last : Str) (hlines : ∀ l ∈ lines, '\n' ∉ l)
    (hlast : '\n' ∉ last) :
    getlines (lines.flatMap (fun l => l ++ ['\n']) ++ last) =
      lines ++ (if last = [] then [] else [last]) := by
  unfold getlines
  induction lines with
  | nil =>
      rw [List.flatMap_nil, List.nil_append, List.nil_append, getlinesFrom_last last [] hlast,
        List.nil_append]
  | cons l rest ih =>
      rw [List.flatMap_cons, List.append_assoc, List.append_assoc, List.singleton_append,
        getlinesFrom_line l _ [] (hlines l (List.mem_cons_self _ _)), List.nil_append,
        ih (fun l2 h2 => hlines l2 (List.mem_cons_of_mem _ h2)), List.cons_append]

theorem getlinesFrom_eq_nil (content line : Str) :
    getlinesFrom content line = [] ↔ content = [] ∧ line = [] := by
  induction content generalizing line with
  | nil => simp [getlinesFrom]
  | cons c cs ih =>
      rw [getlinesFrom]
      by_cases hc : c = '\n'
      · rw [if_pos hc]
        simp
      · rw [if_neg hc, ih]
        simp

theorem getlines_eq_nil (content : Str) : getlines content = [] ↔ content = [] := by
  unfold getlines
  rw [getlinesFrom_eq_nil]
  simp

theorem lookupHardwareId_first (before after : List PortInfo) (serialPort descriptor : Str)
    (hbefore : ∀ info ∈ before, info.port ≠ serialPort) :
    lookupHardwareId (before ++ ⟨serialPort, descriptor⟩ :: after) serialPort = descriptor := by
  induction before with
  | nil =>
      unfold lookupHardwareId
      simp
  | cons info rest ih =>
      have hne : info.port ≠ serialPort := hbefore info (List.mem_cons_self _ _)
      have hrest := ih (fun i hi => hbefore i (List.mem_cons_of_mem _ hi))
      unfold lookupHardwareId at hrest ⊢
      rw [List.cons_append, List.find?_cons_of_neg _ (by simpa using hne)]
      exact hrest

theorem lookupHardwareId_absent (ports : List PortInfo) (serialPort : Str)
    (h : ∀ info ∈ ports, info.port ≠ serialPort) :
    lookupHardwareId ports serialPort = [] := by
  induction ports with
  | nil => rfl
  | cons info rest ih =>
      have hne : info.port ≠ serialPort := h info (List.mem_cons_self _ _)
      have hrest := ih (fun i hi => h i (List.mem_cons_of_mem _ hi))
      unfold lookupHardwareId at hrest ⊢
      rw [List.find?_cons_of_neg _ (by simpa using hne)]
      exact hrest

theorem whitelistCheck_value (env : Transport) (g : Gateway) (serialPort v : Str)
    (tr : List Event) (hne : g.hardwareWhitelist ≠ [])
    (hex : extractedHardwareId env serialPort = some v) :
    whitelistCheck env g serialPort tr =
      if v ∈ g.hardwareWhitelist then (true, tr ++ [Event.list_ports])
      else (false, tr ++ [Event.list_ports, Event.writeWarn
        ("Didn't add device on port \"".toList ++ serialPort ++
          "\", because Hardware ID \"".toList ++ v ++ "\" is not whitelisted.".toList)]) := by
  have hempty : isHardwareWhitelistEmpty g = false := by
    cases hw : g.hardwareWhitelist with
    | nil => exact absurd hw hne
    | cons a l => simp [isHardwareWhitelistEmpty, hw]
  unfold whitelistCheck
  simp only [hempty, Bool.not_false, if_true, hex, hasHardwareWhitelistEntry]
  by_cases hmem : v ∈ g.hardwareWhitelist
  · simp only [hmem, if_true, Bool.not_true, Bool.false_eq_true, if_false]
  · simp only [hmem, if_false, Bool.not_false, if_true]

/-! ## The claims -/

/-- Claim C1. Wire-format round trip: for a single-character delimiter `d` that is not a
line terminator, a type containing neither `d` nor a line terminator, a content without
line terminator, a terminator `t` and any trailing text, parsing
`type ++ d ++ content ++ t ++ rest` gives back `(type, content)`. -/
theorem parseMessage_roundtrip (d t : Char) (type content rest : Str)
    (hd : d ≠ '\n' ∧ d ≠ '\r')
    (htype_d : d ∉ type)
    (htype_t : '\n' ∉ type ∧ '\r' ∉ type)
    (hcontent : '\n' ∉ content ∧ '\r' ∉ content)
    (ht : t = '\n' ∨ t = '\r') :
    parseMessage (type ++ [d] ++ content ++ [t] ++ rest) [d] = (type, content) := by
  have hmsg : type ++ [d] ++ content ++ [t] ++ rest = type ++ d :: (content ++ t :: rest) := by
    simp
  have hmsg2 : type ++ [d] ++ content ++ [t] ++ rest = (type ++ d :: content) ++ t :: rest := by
    simp
  have h1 : find_first_of (type ++ [d] ++ content ++ [t] ++ rest) [d] 0 = some type.length := by
    rw [hmsg]
    apply find_first_of_hit
    · intro x hx; simp; rintro rfl; exact htype_d hx
    · simp
  have h2 : find_first_of (type ++ [d] ++ content ++ [t] ++ rest)
      (CHAR_NEWLINE ++ CHAR_CARRIAGE_RETURN) 0 = some (type.length + 1 + content.length) := by
    rw [hmsg2]
    have := find_first_of_hit (CHAR_NEWLINE ++ CHAR_CARRIAGE_RETURN) (type ++ d :: content) rest t
      (by
        intro x hx
        simp only [CHAR_NEWLINE, CHAR_CARRIAGE_RETURN, List.singleton_append, List.mem_cons,
          List.mem_singleton, List.not_mem_nil, or_false]
        simp only [List.mem_append, List.mem_cons] at hx
        rintro (rfl | rfl)
        · rcases hx with hx | hx | hx
          · exact htype_t.1 hx
          · exact hd.1 hx.symm
          · exact hcontent.1 hx
        · rcases hx with hx | hx | hx
          · exact htype_t.2 hx
          · exact hd.2 hx.symm
          · exact hcontent.2 hx)
      (by rcases ht with rfl | rfl <;> simp [CHAR_NEWLINE, CHAR_CARRIAGE_RETURN])
    rw [this]
    simp
    omega
  unfold parseMessage
  rw [h1, h2]
  have hlt : type.length < type.length + 1 + content.length := by omega
  simp only [hlt, if_true]
  have hlen : type.length + 1 + content.length - 1 - type.length = content.length := by omega
  rw [hlen, hmsg, substr_prefix, substr_middle]

/-- Witness of `parseMessage_roundtrip`: the line `ID,abc\r\n` with delimiter `,`. -/
theorem parseMessage_roundtrip_witness :
    parseMessage ("ID".toList ++ [','] ++ "abc".toList ++ ['\r'] ++ "\n".toList) [','] =
      ("ID".toList, "abc".toList) :=
  parseMessage_roundtrip ',' '\r' "ID".toList "abc".toList "\n".toList
    (by decide) (by decide) (by decide) (by decide) (by decide)

/-- Claim C2 as stated fails: the line `,\n` contains the delimiter `,` and a line
terminator, and still parses to the pair of empty strings. -/
theorem parseMessage_empty_iff_counterexample :
    ¬ (parseMessage ",\n".toList ",".toList = ([], []) ↔
        (¬ ",".toList <:+: ",\n".toList ∨ ¬ ('\n' ∈ ",\n".toList ∨ '\r' ∈ ",\n".toList))) := by
  decide

/-- Claim C2, amended. For a single-character delimiter `d`, `parseMessage` returns the
pair of empty strings exactly when the line has no `d`, or has no line terminator, or
starts with `d` and has a line terminator at index 0 or 1 (empty type and empty
content). -/
theorem parseMessage_empty_iff (line : Str) (d : Char) :
    parseMessage line [d] = ([], []) ↔
      (d ∉ line ∨ ¬ ('\n' ∈ line ∨ '\r' ∈ line) ∨
        ∃ rest, line = d :: rest ∧
          (d = '\n' ∨ d = '\r' ∨ ∃ t rest', rest = t :: rest' ∧ (t = '\n' ∨ t = '\r'))) := by
  unfold parseMessage
  rw [find_first_of_zero, find_first_of_zero]
  cases hD : findFirstOfFrom [d] line 0 with
  | none =>
    have hd : d ∉ line := by
      intro hmem
      exact (findFirstOfFrom_eq_none_iff [d] line 0).1 hD d hmem (by simp)
    simp [hd]
  | some p =>
    obtain ⟨x, hx, hxd⟩ := find_first_of_mem [d] line 0 p hD
    have hdmem : d ∈ line := by
      simp only [List.mem_singleton] at hxd
      exact hxd ▸ hx
    cases hT : findFirstOfFrom (CHAR_NEWLINE ++ CHAR_CARRIAGE_RETURN) line 0 with
    | none =>
      have hnt := (terminator_iff line).1 hT
      simp [hnt]
    | some m =>
      have hterm : '\n' ∈ line ∨ '\r' ∈ line := by
        by_contra hne
        rw [(terminator_iff line).2 hne] at hT
        exact Option.noConfusion hT
      cases line with
      | nil => simp at hdmem
      | cons c cs =>
        by_cases hcd : c = d
        · subst hcd
          have hp : p = 0 := by
            simp [findFirstOfFrom] at hD
            omega
          subst hp
          by_cases hct : c ∈ CHAR_NEWLINE ++ CHAR_CARRIAGE_RETURN
          · have hm : m = 0 := by
              simp only [findFirstOfFrom, hct, if_true, Option.some.injEq] at hT
              omega
            subst hm
            have hct' := (isTerminator_iff c).1 hct
            refine ⟨fun _ => Or.inr (Or.inr ⟨cs, rfl, ?_⟩), fun _ => by simp [substr]⟩
            rcases hct' with h | h
            · exact Or.inl h
            · exact Or.inr (Or.inl h)
          · have hct' : ¬ (c = '\n' ∨ c = '\r') := fun h => hct ((isTerminator_iff c).2 h)
            simp only [findFirstOfFrom, hct, if_false] at hT
            cases cs with
            | nil => simp [findFirstOfFrom] at hT
            | cons t r =>
              by_cases htt : t ∈ CHAR_NEWLINE ++ CHAR_CARRIAGE_RETURN
              · have hm : m = 1 := by
                  simp only [findFirstOfFrom, htt, if_true, Option.some.injEq] at hT
                  omega
                subst hm
                have htt' := (isTerminator_iff t).1 htt
                exact ⟨fun _ => Or.inr (Or.inr ⟨t :: r, rfl, Or.inr (Or.inr ⟨t, r, rfl, htt'⟩)⟩),
                  fun _ => by simp [substr]⟩
              · have htt' : ¬ (t = '\n' ∨ t = '\r') := fun h => htt ((isTerminator_iff t).2 h)
                simp only [findFirstOfFrom, htt, if_false] at hT
                have hm := findFirstOfFrom_le _ _ _ _ hT
                have hlt : 0 < m := by omega
                simp only [hlt, if_true]
                have hne : substr (c :: t :: r) (0 + 1) (m - 1 - 0) ≠ [] := by
                  obtain ⟨k, hk⟩ : ∃ k, m - 1 - 0 = k + 1 := ⟨m - 2, by omega⟩
                  rw [hk]
                  simp [substr]
                constructor
                · intro h
                  exact absurd (Prod.mk.inj h).2 hne
                · rintro (h | h | ⟨rest, hrest, h⟩)
                  · exact absurd hdmem h
                  · exact absurd hterm h
                  · obtain ⟨-, rfl⟩ := List.cons.inj hrest
                    rcases h with h | h | ⟨t', r', h1, h2⟩
                    · exact absurd (Or.inl h) hct'
                    · exact absurd (Or.inr h) hct'
                    · obtain ⟨rfl, -⟩ := List.cons.inj h1
                      exact absurd h2 htt'
        · have hcd' : c ∉ [d] := by simpa using hcd
          simp only [findFirstOfFrom, hcd', if_false] at hD
          have hp := findFirstOfFrom_le _ _ _ _ hD
          have hne : substr (c :: cs) 0 p ≠ [] := by
            obtain ⟨k, hk⟩ : ∃ k, p = k + 1 := ⟨p - 1, by omega⟩
            rw [hk]
            simp [substr]
          constructor
          · intro h
            by_cases hlt : p < m
            · simp only [hlt, if_true] at h
              exact absurd (Prod.mk.inj h).1 hne
            · simp only [hlt, if_false] at h
              exact absurd (Prod.mk.inj h).1 hne
          · rintro (h | h | ⟨rest, hrest, -⟩)
            · exact absurd hdmem h
            · exact absurd hterm h
            · exact absurd (List.cons.inj hrest).1 hcd

/-- Claim C3 fails on the code: with the two-character delimiter `::` the line `a::b\n`
parses to the content `:b`, because the delimiter is searched with `find_first_of` and
skipped as one character. -/
theorem parseMessage_multichar_delimiter_failing :
    parseMessage ("a".toList ++ "::".toList ++ "b".toList ++ "\n".toList) "::".toList =
        ("a".toList, ":b".toList) ∧
      parseMessage ("a".toList ++ "::".toList ++ "b".toList ++ "\n".toList) "::".toList ≠
        ("a".toList, "b".toList) := by
  decide

/-- Claim C4. Admission success: if the port is openable, not blacklisted, not yet
registered, passes the whitelist, every transport operation succeeds and the reply
parses to the ID message type with a non-empty ID that is not yet a registry key, then
`addSerialDevice` returns true, the registry is the old one plus the single entry
`id -> record on the port`, and the read loop of `id` is started. -/
theorem addSerialDevice_success (env : Transport) (g : Gateway) (serialPort : Str)
    (suppressLogs : Bool) (reply id : Str)
    (hopen : fileOpens env serialPort = true)
    (hdeny : serialPort ∉ g.serialPortBlacklist)
    (hport : ∀ entry ∈ g.serialDevices, entry.2.port ≠ serialPort)
    (hallow : g.hardwareWhitelist = [] ∨
      ∃ h, extractedHardwareId env serialPort = some h ∧ h ∈ g.hardwareWhitelist)
    (hO : ∀ h, env.open serialPort h = .ok ())
    (hF : ∀ h, env.flush serialPort h = .ok ())
    (hW : ∀ data h, ∃ n, env.write serialPort data h = .ok n)
    (hR : ∀ h, env.readline serialPort h = .ok reply)
    (hparse : parseMessage reply g.messageDelimiter = (g.messageTypeForIds, id))
    (hid : id ≠ [])
    (hnew : mapFind g.serialDevices id = none) :
    (addSerialDevice env g serialPort suppressLogs).outcome = .ok true ∧
      (addSerialDevice env g serialPort suppressLogs).state.serialDevices =
        mapInsert id ⟨serialPort, g.baudRate, 250, id, some ⟨serialPort, g.baudRate, 250⟩⟩
          g.serialDevices ∧
      (∀ k, mapFind (addSerialDevice env g serialPort suppressLogs).state.serialDevices k =
        if k = id then
          some ⟨serialPort, g.baudRate, 250, id, some ⟨serialPort, g.baudRate, 250⟩⟩
        else mapFind g.serialDevices k) ∧
      (addSerialDevice env g serialPort suppressLogs).state.serialDevices.length =
        g.serialDevices.length + 1 ∧
      isReadLoopStarted (addSerialDevice env g serialPort suppressLogs).state id = true := by
  obtain ⟨hout, hstate⟩ := (addSerialDevice_after_handshake env g serialPort suppressLogs reply id
    hopen hdeny hport hallow hO hF hW hR hparse hid).1 hnew
  refine ⟨hout, ?_, ?_, ?_, ?_⟩
  · rw [hstate]; rfl
  · intro k
    rw [hstate]
    exact mapFind_mapInsert _ _ _ _
  · rw [hstate]
    exact length_mapInsert _ _ _ hnew
  · rw [hstate]
    exact isReadLoopStarted_setReadLoopStarted _ _

/-- Witness of `addSerialDevice_success`: the device on `/dev/ttyS0` answers
`ID,abc123\n`; the registry then binds `abc123` to `/dev/ttyS0`. -/
theorem addSerialDevice_success_witness :
    (addSerialDevice (replyingTransport [] "ID,abc123\n".toList) scenarioGateway
        "/dev/ttyS0".toList false).outcome = .ok true ∧
      mapFind (addSerialDevice (replyingTransport [] "ID,abc123\n".toList) scenarioGateway
        "/dev/ttyS0".toList false).state.serialDevices "abc123".toList =
        some ⟨"/dev/ttyS0".toList, 9600, 250, "abc123".toList,
          some ⟨"/dev/ttyS0".toList, 9600, 250⟩⟩ ∧
      isReadLoopStarted (addSerialDevice (replyingTransport [] "ID,abc123\n".toList)
        scenarioGateway "/dev/ttyS0".toList false).state "abc123".toList = true := by
  have h := addSerialDevice_success (replyingTransport [] "ID,abc123\n".toList) scenarioGateway
    "/dev/ttyS0".toList false "ID,abc123\n".toList "abc123".toList
    (by decide) (by decide) (by decide) (Or.inl rfl) (fun _ => rfl) (fun _ => rfl)
    (fun data _ => ⟨data.length, rfl⟩) (fun _ => rfl) (by decide) (by decide) rfl
  refine ⟨h.1, ?_, h.2.2.2.2⟩
  rw [h.2.2.1]
  rfl

/-- Claim C5. Admission is atomic on failure: when `addSerialDevice` does not return
true (it returns false), the registry and the reader-state map are what they were before
the call; so the registry changes only when the call returns true. -/
theorem addSerialDevice_failure_atomic (env : Transport) (g : Gateway) (serialPort : Str)
    (suppressLogs : Bool)
    (h : (addSerialDevice env g serialPort suppressLogs).outcome ≠ .ok true) :
    (addSerialDevice env g serialPort suppressLogs).state.serialDevices = g.serialDevices ∧
      (addSerialDevice env g serialPort suppressLogs).state.readLoopStates = g.readLoopStates := by
  rw [addSerialDevice_state_of_not_added env g serialPort suppressLogs h]
  exact ⟨rfl, rfl⟩

/-- Witness of `addSerialDevice_failure_atomic`: the reply `DATA,abc123\n` is rejected
and leaves both maps empty. -/
theorem addSerialDevice_failure_atomic_witness :
    (addSerialDevice (replyingTransport [] "DATA,abc123\n".toList) scenarioGateway
        "/dev/ttyS0".toList true).state.serialDevices = [] ∧
      (addSerialDevice (replyingTransport [] "DATA,abc123\n".toList) scenarioGateway
        "/dev/ttyS0".toList true).state.readLoopStates = [] :=
  addSerialDevice_failure_atomic (replyingTransport [] "DATA,abc123\n".toList) scenarioGateway
    "/dev/ttyS0".toList true (by
      intro h
      have h2 : (addSerialDevice (replyingTransport [] "DATA,abc123\n".toList) scenarioGateway
        "/dev/ttyS0".toList true).outcome = .ok false := rfl
      rw [h2] at h
      exact Bool.noConfusion (Except.ok.inj h))

/-- Claim C6. ID collision: when `id` is registered on port `p1` and another port `p2`
passes the existence, blacklist, duplicate-port and whitelist checks and answers with
the same `id`, `addSerialDevice` returns false and the registry still holds exactly one
entry for `id`, the record on `p1`. The registry is a `std::map`, so its keys are
distinct. -/
theorem addSerialDevice_id_collision (env : Transport) (g : Gateway) (p1 p2 : Str)
    (suppressLogs : Bool) (reply id : Str) (d1 : SerialDevice)
    (hkeys : (g.serialDevices.map Prod.fst).Nodup)
    (hreg : mapFind g.serialDevices id = some d1)
    (hp1 : d1.port = p1)
    (hopen : fileOpens env p2 = true)
    (hdeny : p2 ∉ g.serialPortBlacklist)
    (hport : ∀ entry ∈ g.serialDevices, entry.2.port ≠ p2)
    (hallow : g.hardwareWhitelist = [] ∨
      ∃ h, extractedHardwareId env p2 = some h ∧ h ∈ g.hardwareWhitelist)
    (hO : ∀ h, env.open p2 h = .ok ())
    (hF : ∀ h, env.flush p2 h = .ok ())
    (hW : ∀ data h, ∃ n, env.write p2 data h = .ok n)
    (hR : ∀ h, env.readline p2 h = .ok reply)
    (hparse : parseMessage reply g.messageDelimiter = (g.messageTypeForIds, id))
    (hid : id ≠ []) :
    (addSerialDevice env g p2 suppressLogs).outcome = .ok false ∧
      (addSerialDevice env g p2 suppressLogs).state.serialDevices = g.serialDevices ∧
      ∃ d, (addSerialDevice env g p2 suppressLogs).state.serialDevices.filter
          (fun entry => decide (entry.1 = id)) = [(id, d)] ∧ d.port = p1 ∧ p1 ≠ p2 := by
  obtain ⟨hout, hstate⟩ := (addSerialDevice_after_handshake env g p2 suppressLogs reply id
    hopen hdeny hport hallow hO hF hW hR hparse hid).2 d1 hreg
  refine ⟨hout, by rw [hstate], d1, ?_, hp1, ?_⟩
  · rw [hstate]
    exact filter_key_of_mapFind _ _ _ hkeys hreg
  · have hmem : (id, d1) ∈ g.serialDevices := by
      have := filter_key_of_mapFind _ _ _ hkeys hreg
      have h2 : (id, d1) ∈ g.serialDevices.filter (fun entry => decide (entry.1 = id)) := by
        rw [this]; exact List.mem_singleton.2 rfl
      exact (List.mem_filter.1 h2).1
    rw [← hp1]
    exact hport _ hmem

/-- Witness of `addSerialDevice_id_collision`: `/dev/ttyS0` and `/dev/ttyS1` both answer
`ID,same\n`; the second admission fails and `same` stays bound to `/dev/ttyS0`. -/
theorem addSerialDevice_id_collision_witness :
    (addSerialDevice (replyingTransport [] "ID,same\n".toList) scenarioCollisionGateway
        "/dev/ttyS1".toList false).outcome = .ok false ∧
      (addSerialDevice (replyingTransport [] "ID,same\n".toList) scenarioCollisionGateway
        "/dev/ttyS1".toList false).state.serialDevices = scenarioCollisionGateway.serialDevices ∧
      ∃ d, (addSerialDevice (replyingTransport [] "ID,same\n".toList) scenarioCollisionGateway
          "/dev/ttyS1".toList false).state.serialDevices.filter
          (fun entry => decide (entry.1 = "same".toList)) = [("same".toList, d)] ∧
        d.port = "/dev/ttyS0".toList ∧ "/dev/ttyS0".toList ≠ "/dev/ttyS1".toList :=
  addSerialDevice_id_collision (replyingTransport [] "ID,same\n".toList) scenarioCollisionGateway
    "/dev/ttyS0".toList "/dev/ttyS1".toList false "ID,same\n".toList "same".toList
    ⟨"/dev/ttyS0".toList, 9600, 250, "same".toList, some ⟨"/dev/ttyS0".toList, 9600, 250⟩⟩
    (by decide) rfl rfl (by decide) (by decide) (by decide) (Or.inl rfl) (fun _ => rfl)
    (fun _ => rfl) (fun data _ => ⟨data.length, rfl⟩) (fun _ => rfl) (by decide) (by decide)

/-- Claim C7. Handshake acceptance: when flush, write and read succeed and the reply is
`reply`, `retrieveDeviceId` returns true exactly when the reply parses to the ID message
type with non-empty content; on true the content becomes the ID of the device, on false
the device is unchanged, and `addSerialDevice` on that port returns false and leaves the
gateway unchanged. -/
theorem retrieveDeviceId_criterion (env : Transport) (g : Gateway) (serialDevice : SerialDevice)
    (s : Serial) (tr : List Event) (reply : Str) (suppressLogs : Bool)
    (hinst : serialDevice.serialInstance = some s)
    (hF : ∀ h, env.flush s.port h = .ok ())
    (hW : ∀ data h, ∃ n, env.write s.port data h = .ok n)
    (hR : ∀ h, env.readline s.port h = .ok reply) :
    (∃ b dev tr1, retrieveDeviceId env g serialDevice tr = (.ok (b, dev), tr1) ∧
        (b = true ↔ ((parseMessage reply g.messageDelimiter).1 = g.messageTypeForIds ∧
          (parseMessage reply g.messageDelimiter).2 ≠ [])) ∧
        (b = true → dev = serialDevice.setId (parseMessage reply g.messageDelimiter).2 ∧
          dev.id = (parseMessage reply g.messageDelimiter).2) ∧
        (b = false → dev = serialDevice)) ∧
      (¬ ((parseMessage reply g.messageDelimiter).1 = g.messageTypeForIds ∧
          (parseMessage reply g.messageDelimiter).2 ≠ []) →
        (addSerialDevice env g s.port suppressLogs).outcome = .ok false ∧
        (addSerialDevice env g s.port suppressLogs).state = g) := by
  constructor
  · obtain ⟨tr1, h⟩ := retrieveDeviceId_ok env g serialDevice s tr reply hinst hF hW hR
    by_cases hc : (parseMessage reply g.messageDelimiter).1 = g.messageTypeForIds ∧
        (parseMessage reply g.messageDelimiter).2 ≠ []
    · rw [if_pos hc] at h
      exact ⟨true, _, tr1, h, ⟨fun _ => hc, fun _ => rfl⟩, fun _ => ⟨rfl, rfl⟩,
        fun hb => Bool.noConfusion hb⟩
    · rw [if_neg hc] at h
      exact ⟨false, _, tr1, h, ⟨fun hb => Bool.noConfusion hb, fun h' => absurd h' hc⟩,
        fun hb => Bool.noConfusion hb, fun _ => rfl⟩
  · intro hc
    exact addSerialDevice_rejects_reply env g s.port suppressLogs reply hR hc

/-- Witness of `retrieveDeviceId_criterion`: with delimiter `,` and type `ID` the reply
`DATA,abc123\n` is rejected and the gateway stays as it was. -/
theorem retrieveDeviceId_criterion_witness :
    (addSerialDevice (replyingTransport [] "DATA,abc123\n".toList) scenarioGateway
        "/dev/ttyS0".toList false).outcome = .ok false ∧
      (addSerialDevice (replyingTransport [] "DATA,abc123\n".toList) scenarioGateway
        "/dev/ttyS0".toList false).state = scenarioGateway :=
  (retrieveDeviceId_criterion (replyingTransport [] "DATA,abc123\n".toList) scenarioGateway
    ⟨"/dev/ttyS0".toList, 9600, 250, [], some ⟨"/dev/ttyS0".toList, 9600, 250⟩⟩
    ⟨"/dev/ttyS0".toList, 9600, 250⟩ [] "DATA,abc123\n".toList false rfl (fun _ => rfl)
    (fun data _ => ⟨data.length, rfl⟩) (fun _ => rfl)).2 (by decide)

/-- Claim C8. Blacklist hit: for a blacklisted port `addSerialDevice` returns false,
leaves the gateway unchanged, and records no transport operation (open, flush, write,
read, close) on any port. -/
theorem addSerialDevice_blacklisted (env : Transport) (g : Gateway) (serialPort : Str)
    (suppressLogs : Bool) (h : serialPort ∈ g.serialPortBlacklist) :
    (addSerialDevice env g serialPort suppressLogs).outcome = .ok false ∧
      (addSerialDevice env g serialPort suppressLogs).state = g ∧
      ∀ port, ∀ e ∈ (addSerialDevice env g serialPort suppressLogs).trace,
        e.isTransportOn port = false := by
  have hbl : hasSerialPortBlacklistEntry g serialPort = true := by
    simp [hasSerialPortBlacklistEntry, h]
  unfold addSerialDevice
  by_cases hopen : fileOpens env serialPort = true
  · simp only [hopen, hbl, Bool.not_true, Bool.false_eq_true, if_false, if_true]
    refine ⟨trivial, trivial, ?_⟩
    intro port e he
    cases suppressLogs with
    | false =>
      simp only [Bool.not_false, if_true, List.cons_append, List.nil_append, List.mem_cons,
        List.mem_singleton, List.not_mem_nil, or_false] at he
      rcases he with rfl | rfl <;> rfl
    | true =>
      simp only [Bool.not_true, Bool.false_eq_true, if_false, List.append_nil,
        List.mem_singleton] at he
      subst he
      rfl
  · have hopen' : fileOpens env serialPort = false := by simpa using hopen
    simp only [hopen', Bool.not_false, if_true]
    refine ⟨trivial, trivial, ?_⟩
    intro port e he
    simp only [List.cons_append, List.nil_append, List.mem_cons, List.mem_singleton,
      List.not_mem_nil, or_false] at he
    rcases he with rfl | rfl <;> rfl

/-- Witness of `addSerialDevice_blacklisted`: the blacklist holds `/dev/ttyUSB9`. -/
theorem addSerialDevice_blacklisted_witness :
    (addSerialDevice (replyingTransport [] "ID,abc123\n".toList)
        { scenarioGateway with serialPortBlacklist := ["/dev/ttyUSB9".toList] }
        "/dev/ttyUSB9".toList false).outcome = .ok false ∧
      (addSerialDevice (replyingTransport [] "ID,abc123\n".toList)
        { scenarioGateway with serialPortBlacklist := ["/dev/ttyUSB9".toList] }
        "/dev/ttyUSB9".toList false).state =
        { scenarioGateway with serialPortBlacklist := ["/dev/ttyUSB9".toList] } ∧
      ∀ port, ∀ e ∈ (addSerialDevice (replyingTransport [] "ID,abc123\n".toList)
        { scenarioGateway with serialPortBlacklist := ["/dev/ttyUSB9".toList] }
        "/dev/ttyUSB9".toList false).trace, e.isTransportOn port = false :=
  addSerialDevice_blacklisted (replyingTransport [] "ID,abc123\n".toList)
    { scenarioGateway with serialPortBlacklist := ["/dev/ttyUSB9".toList] }
    "/dev/ttyUSB9".toList false (by decide)

/-- Claim C9. With a non-empty whitelist, `addSerialDevice` returns true only if the
hardware ID extracted from the descriptor of the port is whitelisted; when no
whitelisted hardware ID is extracted the call returns false and records no transport
operation on any port, so no session is opened. -/
theorem addSerialDevice_whitelist_only (env : Transport) (g : Gateway) (serialPort : Str)
    (suppressLogs : Bool) (hne : g.hardwareWhitelist ≠ []) :
    ((addSerialDevice env g serialPort suppressLogs).outcome = .ok true →
        ∃ h, extractedHardwareId env serialPort = some h ∧ h ∈ g.hardwareWhitelist) ∧
      ((¬ ∃ h, extractedHardwareId env serialPort = some h ∧ h ∈ g.hardwareWhitelist) →
        (addSerialDevice env g serialPort suppressLogs).outcome = .ok false ∧
        ∀ port, ∀ e ∈ (addSerialDevice env g serialPort suppressLogs).trace,
          e.isTransportOn port = false) := by
  constructor
  · intro htrue
    by_contra hmiss
    have := (addSerialDevice_whitelist_miss env g serialPort suppressLogs hne hmiss).1
    rw [htrue] at this
    exact Bool.noConfusion (Except.ok.inj this)
  · exact addSerialDevice_whitelist_miss env g serialPort suppressLogs hne

/-- Witness of `addSerialDevice_whitelist_only`: the whitelist is `1a86:7523` and the
descriptor of the port contains `VID:PID=0403:6001 `. -/
theorem addSerialDevice_whitelist_only_witness :
    (addSerialDevice
        (replyingTransport [⟨"/dev/ttyUSB0".toList, "USB VID:PID=0403:6001 SNR=A1".toList⟩]
          "ID,abc123\n".toList)
        { scenarioGateway with hardwareWhitelist := ["1a86:7523".toList] }
        "/dev/ttyUSB0".toList false).outcome = .ok false ∧
      ∀ port, ∀ e ∈ (addSerialDevice
        (replyingTransport [⟨"/dev/ttyUSB0".toList, "USB VID:PID=0403:6001 SNR=A1".toList⟩]
          "ID,abc123\n".toList)
        { scenarioGateway with hardwareWhitelist := ["1a86:7523".toList] }
        "/dev/ttyUSB0".toList false).trace, e.isTransportOn port = false :=
  (addSerialDevice_whitelist_only
    (replyingTransport [⟨"/dev/ttyUSB0".toList, "USB VID:PID=0403:6001 SNR=A1".toList⟩]
      "ID,abc123\n".toList)
    { scenarioGateway with hardwareWhitelist := ["1a86:7523".toList] }
    "/dev/ttyUSB0".toList false (by decide)).2 (by decide)

/-- Claim C10 as stated fails: with an empty whitelist, the port `/dev/ttyS1` exists, is
not blacklisted, is not in the registry and its handshake succeeds with the reply
`ID,same\n`, yet `addSerialDevice` returns false because `same` is already registered. -/
theorem addSerialDevice_empty_whitelist_counterexample :
    ¬ ∀ (env : Transport) (g : Gateway) (serialPort : Str) (suppressLogs : Bool)
        (reply id : Str),
        g.hardwareWhitelist = [] →
        fileOpens env serialPort = true →
        serialPort ∉ g.serialPortBlacklist →
        (∀ entry ∈ g.serialDevices, entry.2.port ≠ serialPort) →
        (∀ h, env.open serialPort h = .ok ()) →
        (∀ h, env.flush serialPort h = .ok ()) →
        (∀ data h, ∃ n, env.write serialPort data h = .ok n) →
        (∀ h, env.readline serialPort h = .ok reply) →
        parseMessage reply g.messageDelimiter = (g.messageTypeForIds, id) →
        id ≠ [] →
        (addSerialDevice env g serialPort suppressLogs).outcome = .ok true := by
  intro h
  have h1 := h (replyingTransport [] "ID,same\n".toList) scenarioCollisionGateway
    "/dev/ttyS1".toList false "ID,same\n".toList "same".toList rfl (by decide) (by decide)
    (by decide) (fun _ => rfl) (fun _ => rfl) (fun data _ => ⟨data.length, rfl⟩) (fun _ => rfl)
    (by decide) (by decide)
  have h2 : (addSerialDevice (replyingTransport [] "ID,same\n".toList) scenarioCollisionGateway
    "/dev/ttyS1".toList false).outcome = .ok false := rfl
  rw [h2] at h1
  exact Bool.noConfusion (Except.ok.inj h1)

/-- Claim C10, amended. With an empty whitelist `addSerialDevice` returns true for
every port that exists, is not blacklisted, is not yet in the registry, whose handshake
succeeds (the transport operations succeed and the reply parses to the ID message type
with non-empty content) and whose ID is not yet a registry key. -/
theorem addSerialDevice_empty_whitelist_admits (env : Transport) (g : Gateway)
    (serialPort : Str) (suppressLogs : Bool) (reply id : Str)
    (hempty : g.hardwareWhitelist = [])
    (hopen : fileOpens env serialPort = true)
    (hdeny : serialPort ∉ g.serialPortBlacklist)
    (hport : ∀ entry ∈ g.serialDevices, entry.2.port ≠ serialPort)
    (hO : ∀ h, env.open serialPort h = .ok ())
    (hF : ∀ h, env.flush serialPort h = .ok ())
    (hW : ∀ data h, ∃ n, env.write serialPort data h = .ok n)
    (hR : ∀ h, env.readline serialPort h = .ok reply)
    (hparse : parseMessage reply g.messageDelimiter = (g.messageTypeForIds, id))
    (hid : id ≠ [])
    (hnew : mapFind g.serialDevices id = none) :
    (addSerialDevice env g serialPort suppressLogs).outcome = .ok true :=
  ((addSerialDevice_after_handshake env g serialPort suppressLogs reply id hopen hdeny hport
    (Or.inl hempty) hO hF hW hR hparse hid).1 hnew).1

/-- Witness of `addSerialDevice_empty_whitelist_admits`: after `same` has been admitted
on `/dev/ttyS0`, the port `/dev/ttyS1` answering `ID,other\n` is admitted as well. -/
theorem addSerialDevice_empty_whitelist_admits_witness :
    (addSerialDevice (replyingTransport [] "ID,other\n".toList) scenarioCollisionGateway
      "/dev/ttyS1".toList true).outcome = .ok true :=
  addSerialDevice_empty_whitelist_admits (replyingTransport [] "ID,other\n".toList)
    scenarioCollisionGateway "/dev/ttyS1".toList true "ID,other\n".toList "other".toList
    rfl (by decide) (by decide) (by decide) (fun _ => rfl) (fun _ => rfl)
    (fun data _ => ⟨data.length, rfl⟩) (fun _ => rfl) (by decide) (by decide) rfl

/-- Claim C11. Hardware-ID extraction. If the first entry that `serial::list_ports()`
enumerates for the port has the descriptor `pre ++ "VID:PID=" ++ v ++ " " ++ post`, where
`pre` does not contain the key and `v` has no space (the descriptor is a `std::string`,
shorter than `npos`), the hardware ID that admission extracts for the port is `v`: with a
non-empty whitelist the whitelist block lets admission go on exactly when `v` is in the
whitelist and otherwise logs that `v` is not whitelisted, and `addSerialDevice` returns
false when `v` is not in the whitelist. If the port is not enumerated, or the descriptor
of its first entry does not contain the key, admission with a non-empty whitelist returns
false. -/
theorem extractHardwareId_spec (env : Transport) (g : Gateway) (serialPort : Str)
    (suppressLogs : Bool) :
    (∀ (pre v post : Str) (before after : List PortInfo),
        env.list_ports =
            before ++ ⟨serialPort, pre ++ "VID:PID=".toList ++ v ++ [' '] ++ post⟩ :: after →
          (∀ info ∈ before, info.port ≠ serialPort) →
          (pre ++ "VID:PID=".toList ++ v ++ [' '] ++ post).length < npos →
          ¬ "VID:PID=".toList <:+: pre →
          ' ' ∉ v →
            lookupHardwareId env.list_ports serialPort =
                pre ++ "VID:PID=".toList ++ v ++ [' '] ++ post ∧
              extractedHardwareId env serialPort = some v ∧
              (g.hardwareWhitelist ≠ [] →
                (∀ tr, whitelistCheck env g serialPort tr =
                  if v ∈ g.hardwareWhitelist then (true, tr ++ [Event.list_ports])
                  else (false, tr ++ [Event.list_ports, Event.writeWarn
                    ("Didn't add device on port \"".toList ++ serialPort ++
                      "\", because Hardware ID \"".toList ++ v ++
                      "\" is not whitelisted.".toList)])) ∧
                (v ∉ g.hardwareWhitelist →
                  (addSerialDevice env g serialPort suppressLogs).outcome = .ok false))) ∧
      (g.hardwareWhitelist ≠ [] → (∀ info ∈ env.list_ports, info.port ≠ serialPort) →
        lookupHardwareId env.list_ports serialPort = [] ∧
          extractedHardwareId env serialPort = none ∧
          (addSerialDevice env g serialPort suppressLogs).outcome = .ok false) ∧
      (∀ (descriptor : Str) (before after : List PortInfo),
        g.hardwareWhitelist ≠ [] →
          env.list_ports = before ++ ⟨serialPort, descriptor⟩ :: after →
          (∀ info ∈ before, info.port ≠ serialPort) →
          ¬ "VID:PID=".toList <:+: descriptor →
            extractedHardwareId env serialPort = none ∧
              (addSerialDevice env g serialPort suppressLogs).outcome = .ok false) := by
  have hfalse : extractedHardwareId env serialPort = none → g.hardwareWhitelist ≠ [] →
      (addSerialDevice env g serialPort suppressLogs).outcome = .ok false := by
    intro hnone hne
    refine (addSerialDevice_whitelist_miss env g serialPort suppressLogs hne ?_).1
    rintro ⟨h, hsome, -⟩
    rw [hnone] at hsome
    exact Option.noConfusion hsome
  refine ⟨?_, ?_, ?_⟩
  · intro pre v post before after hports hbefore hbound hpre hv
    have hlook : lookupHardwareId env.list_ports serialPort =
        pre ++ "VID:PID=".toList ++ v ++ [' '] ++ post := by
      rw [hports]
      exact lookupHardwareId_first before after serialPort _ hbefore
    have hex : extractedHardwareId env serialPort = some v := by
      unfold extractedHardwareId
      rw [hlook]
      exact extractHardwareId_value pre v post hbound hpre hv
    refine ⟨hlook, hex, fun hne => ⟨?_, ?_⟩⟩
    · intro tr
      exact whitelistCheck_value env g serialPort v tr hne hex
    · intro hmiss
      refine (addSerialDevice_whitelist_miss env g serialPort suppressLogs hne ?_).1
      rintro ⟨h, hsome, hmem⟩
      rw [hex] at hsome
      cases hsome
      exact hmiss hmem
  · intro hne habsent
    have hlook := lookupHardwareId_absent env.list_ports serialPort habsent
    have hnone : extractedHardwareId env serialPort = none := by
      unfold extractedHardwareId
      rw [hlook]
      exact extractHardwareId_none [] (by
        intro h
        exact absurd (List.infix_nil.1 h) (by decide))
    exact ⟨hlook, hnone, hfalse hnone hne⟩
  · intro descriptor before after hne hports hbefore hkey
    have hnone : extractedHardwareId env serialPort = none := by
      unfold extractedHardwareId
      rw [hports, lookupHardwareId_first before after serialPort descriptor hbefore]
      exact extractHardwareId_none descriptor hkey
    exact ⟨hnone, hfalse hnone hne⟩

/-- Witness of `extractHardwareId_spec`: the port `/dev/ttyACM0` is enumerated with the
descriptor `USB VID:PID=2341:0042 SNR=85438333935351F01180`. Admission extracts
`2341:0042`: with the whitelist `2341:0042` the device is added, with the whitelist
`1a86:7523` the call returns false; the port `/dev/ttyACM1`, which is not enumerated, is
rejected. -/
theorem extractHardwareId_spec_witness :
    extractedHardwareId
        (replyingTransport [⟨"/dev/ttyACM0".toList,
          "USB VID:PID=2341:0042 SNR=85438333935351F01180".toList⟩] "ID,abc123\n".toList)
        "/dev/ttyACM0".toList = some "2341:0042".toList ∧
      (addSerialDevice
        (replyingTransport [⟨"/dev/ttyACM0".toList,
          "USB VID:PID=2341:0042 SNR=85438333935351F01180".toList⟩] "ID,abc123\n".toList)
        { scenarioGateway with hardwareWhitelist := ["2341:0042".toList] }
        "/dev/ttyACM0".toList false).outcome = .ok true ∧
      (addSerialDevice
        (replyingTransport [⟨"/dev/ttyACM0".toList,
          "USB VID:PID=2341:0042 SNR=85438333935351F01180".toList⟩] "ID,abc123\n".toList)
        { scenarioGateway with hardwareWhitelist := ["1a86:7523".toList] }
        "/dev/ttyACM0".toList false).outcome = .ok false ∧
      (addSerialDevice
        (replyingTransport [⟨"/dev/ttyACM0".toList,
          "USB VID:PID=2341:0042 SNR=85438333935351F01180".toList⟩] "ID,abc123\n".toList)
        { scenarioGateway with hardwareWhitelist := ["2341:0042".toList] }
        "/dev/ttyACM1".toList false).outcome = .ok false :=
  ⟨((extractHardwareId_spec
      (replyingTransport [⟨"/dev/ttyACM0".toList,
        "USB VID:PID=2341:0042 SNR=85438333935351F01180".toList⟩] "ID,abc123\n".toList)
      { scenarioGateway with hardwareWhitelist := ["1a86:7523".toList] }
      "/dev/ttyACM0".toList false).1 "USB ".toList "2341:0042".toList
      "SNR=85438333935351F01180".toList [] [] rfl (fun _ h => nomatch h)
      (by decide) (by decide) (by decide)).2.1,
    rfl,
    (((extractHardwareId_spec
      (replyingTransport [⟨"/dev/ttyACM0".toList,
        "USB VID:PID=2341:0042 SNR=85438333935351F01180".toList⟩] "ID,abc123\n".toList)
      { scenarioGateway with hardwareWhitelist := ["1a86:7523".toList] }
      "/dev/ttyACM0".toList false).1 "USB ".toList "2341:0042".toList
      "SNR=85438333935351F01180".toList [] [] rfl (fun _ h => nomatch h)
      (by decide) (by decide) (by decide)).2.2 (by decide)).2 (by decide),
    ((extractHardwareId_spec
      (replyingTransport [⟨"/dev/ttyACM0".toList,
        "USB VID:PID=2341:0042 SNR=85438333935351F01180".toList⟩] "ID,abc123\n".toList)
      { scenarioGateway with hardwareWhitelist := ["2341:0042".toList] }
      "/dev/ttyACM1".toList false).2.1 (by decide) (by decide)).2.2⟩

/-- Claim C12. Port uniqueness: in every state reachable from the empty registry by the
operations of the gateway run one at a time, at most one registry entry has a record on
a given port. -/
theorem reachable_port_unique (g : Gateway) (h : Reachable g) (p : Str) :
    (g.serialDevices.filter (fun entry => decide (entry.2.port = p))).length ≤ 1 :=
  nodup_ports_filter g.serialDevices p (reachable_registryInv g h).2.1

/-- Witness of `reachable_port_unique`: the state after admitting `/dev/ttyS0`. -/
theorem reachable_port_unique_witness :
    (scenarioCollisionGateway.serialDevices.filter
      (fun entry => decide (entry.2.port = "/dev/ttyS0".toList))).length ≤ 1 :=
  reachable_port_unique scenarioCollisionGateway
    (Reachable.addSerialDevice (replyingTransport [] "ID,same\n".toList) scenarioGateway
      "/dev/ttyS0".toList false (Reachable.initial scenarioGateway rfl rfl))
    "/dev/ttyS0".toList

/-- Claim C13. Registry well-formedness: in every state reachable from the empty
registry by the operations of the gateway, every entry `k -> r` has `r.id = k`, a
non-empty `k`, a non-empty port and a session. -/
theorem reachable_registry_wellformed (g : Gateway) (h : Reachable g) (k : Str)
    (r : SerialDevice) (hmem : (k, r) ∈ g.serialDevices) :
    r.id = k ∧ k ≠ [] ∧ r.port ≠ [] ∧ r.serialInstance ≠ none :=
  (reachable_registryInv g h).2.2 (k, r) hmem

/-- Witness of `reachable_registry_wellformed`: the entry `same` after admitting
`/dev/ttyS0`. -/
theorem reachable_registry_wellformed_witness :
    (⟨"/dev/ttyS0".toList, 9600, 250, "same".toList,
        some ⟨"/dev/ttyS0".toList, 9600, 250⟩⟩ : SerialDevice).id = "same".toList ∧
      "same".toList ≠ [] ∧
      (⟨"/dev/ttyS0".toList, 9600, 250, "same".toList,
        some ⟨"/dev/ttyS0".toList, 9600, 250⟩⟩ : SerialDevice).port ≠ [] ∧
      (⟨"/dev/ttyS0".toList, 9600, 250, "same".toList,
        some ⟨"/dev/ttyS0".toList, 9600, 250⟩⟩ : SerialDevice).serialInstance ≠ none :=
  reachable_registry_wellformed scenarioCollisionGateway
    (Reachable.addSerialDevice (replyingTransport [] "ID,same\n".toList) scenarioGateway
      "/dev/ttyS0".toList false (Reachable.initial scenarioGateway rfl rfl))
    "same".toList
    ⟨"/dev/ttyS0".toList, 9600, 250, "same".toList, some ⟨"/dev/ttyS0".toList, 9600, 250⟩⟩
    (by decide)

/-- Claim C14 as stated fails: when closing the session fails with an `IOException`,
`deleteSerialDevice` removes the record of `same` from the registry and returns false. -/
theorem deleteSerialDevice_true_iff_removed_counterexample :
    ¬ ∀ (env : Transport) (g : Gateway) (deviceId : Str),
        ((deleteSerialDevice env g deviceId).outcome = .ok true ↔
          (mapFind g.serialDevices deviceId ≠ none ∧
            mapFind (deleteSerialDevice env g deviceId).state.serialDevices deviceId = none)) := by
  intro h
  have h1 := (h closeFailingTransport scenarioCollisionGateway "same".toList).2
    ⟨by decide, by decide⟩
  have h2 : (deleteSerialDevice closeFailingTransport scenarioCollisionGateway
    "same".toList).outcome = .ok false := rfl
  rw [h2] at h1
  exact Bool.noConfusion (Except.ok.inj h1)

/-- Claim C14, amended. `deleteSerialDevice(id)` returns true exactly when a record for
`id` is registered and its session is flushed and closed without error. Whenever the call
returns for a registered `id`, with true or with false, the record has been removed; for
an `id` that is not registered it returns false and leaves the gateway as it was. -/
theorem deleteSerialDevice_true_iff_closed (env : Transport) (g : Gateway) (deviceId : Str) :
    ((deleteSerialDevice env g deviceId).outcome = .ok true ↔
        ∃ dev s, mapFind g.serialDevices deviceId = some dev ∧ dev.serialInstance = some s ∧
          env.flush s.port [] = .ok () ∧ env.close s.port [Event.flush s.port] = .ok ()) ∧
      (∀ b, (deleteSerialDevice env g deviceId).outcome = .ok b →
        mapFind (deleteSerialDevice env g deviceId).state.serialDevices deviceId = none) ∧
      (mapFind g.serialDevices deviceId = none →
        (deleteSerialDevice env g deviceId).outcome = .ok false ∧
        (deleteSerialDevice env g deviceId).state = g) := by
  refine ⟨?_, ?_, ?_⟩
  · constructor
    · intro htrue
      cases hfind : mapFind g.serialDevices deviceId with
      | none =>
        rw [(deleteSerialDevice_absent env g deviceId hfind).1] at htrue
        exact Bool.noConfusion (Except.ok.inj htrue)
      | some dev =>
        cases hinst : dev.serialInstance with
        | none =>
          rw [(deleteSerialDevice_no_session env g deviceId dev hfind hinst).1] at htrue
          exact Except.noConfusion htrue
        | some s =>
          refine ⟨dev, s, rfl, hinst, ?_⟩
          rcases deleteSerialDevice_found_cases env g deviceId dev s hfind hinst with
            ⟨-, hok, -, -⟩ | ⟨hfalse, -, -, -⟩ | ⟨what, herr, -, -, -⟩
          · exact (deleteTry_ok_iff env s).1 hok
          · rw [hfalse] at htrue
            exact Bool.noConfusion (Except.ok.inj htrue)
          · rw [herr] at htrue
            exact Except.noConfusion htrue
    · rintro ⟨dev, s, hfind, hinst, hF, hC⟩
      have hok := (deleteTry_ok_iff env s).2 ⟨hF, hC⟩
      rcases deleteSerialDevice_found_cases env g deviceId dev s hfind hinst with
        ⟨htrue, -, -, -⟩ | ⟨-, ⟨what, hw | hw⟩, -, -⟩ | ⟨what, -, hw, -, -⟩
      · exact htrue
      · rw [hok] at hw; exact Except.noConfusion hw
      · rw [hok] at hw; exact Except.noConfusion hw
      · rw [hok] at hw; exact Except.noConfusion hw
  · intro b hb
    cases hfind : mapFind g.serialDevices deviceId with
    | none =>
      rw [(deleteSerialDevice_absent env g deviceId hfind).2.1]
      exact hfind
    | some dev =>
      cases hinst : dev.serialInstance with
      | none =>
        rw [(deleteSerialDevice_no_session env g deviceId dev hfind hinst).1] at hb
        exact Except.noConfusion hb
      | some s =>
        rcases deleteSerialDevice_found_cases env g deviceId dev s hfind hinst with
          ⟨-, -, hstate, -⟩ | ⟨-, -, hstate, -⟩ | ⟨what, herr, -, -, -⟩
        · rw [hstate]; exact mapFind_mapErase _ _
        · rw [hstate]; exact mapFind_mapErase _ _
        · rw [herr] at hb
          exact Except.noConfusion hb
  · intro hfind
    exact ⟨(deleteSerialDevice_absent env g deviceId hfind).1,
      (deleteSerialDevice_absent env g deviceId hfind).2.1⟩

/-- Witness of `deleteSerialDevice_true_iff_closed`: with a working transport the record
of `same` is deleted and the call returns true. -/
theorem deleteSerialDevice_true_iff_closed_witness :
    (deleteSerialDevice (replyingTransport [] []) scenarioCollisionGateway
      "same".toList).outcome = .ok true :=
  (deleteSerialDevice_true_iff_closed (replyingTransport [] []) scenarioCollisionGateway
    "same".toList).1.2
    ⟨⟨"/dev/ttyS0".toList, 9600, 250, "same".toList, some ⟨"/dev/ttyS0".toList, 9600, 250⟩⟩,
      ⟨"/dev/ttyS0".toList, 9600, 250⟩, rfl, rfl, rfl, rfl⟩

/-- Claim C15 as stated fails: when closing the session fails with an `IOException`,
`deleteSerialDevice` removes the record of `same` from the registry and schedules no
`serialDeviceDeletedCallback`. -/
theorem deleteSerialDevice_callback_counterexample :
    ¬ ∀ (env : Transport) (g : Gateway) (deviceId : Str) (dev : SerialDevice),
        mapFind g.serialDevices deviceId = some dev →
        mapFind (deleteSerialDevice env g deviceId).state.serialDevices deviceId = none →
        (deleteSerialDevice env g deviceId).trace.count
          (Event.serialDeviceDeletedCallback deviceId dev.port) = 1 := by
  intro h
  have h1 := h closeFailingTransport scenarioCollisionGateway "same".toList
    ⟨"/dev/ttyS0".toList, 9600, 250, "same".toList, some ⟨"/dev/ttyS0".toList, 9600, 250⟩⟩
    rfl rfl
  have h2 := deleteSerialDevice_callback_none closeFailingTransport scenarioCollisionGateway
    "same".toList (by
      intro h3
      have h4 : (deleteSerialDevice closeFailingTransport scenarioCollisionGateway
        "same".toList).outcome = .ok false := rfl
      rw [h4] at h3
      exact Bool.noConfusion (Except.ok.inj h3)) "same".toList "/dev/ttyS0".toList
  rw [List.count_eq_zero.2 h2] at h1
  exact Nat.zero_ne_one h1

/-- Claim C15, amended. When `deleteSerialDevice` removes the record of `id` on port `p`
and returns true (the session was flushed and closed without error),
`serialDeviceDeletedCallback(id, p)` is scheduled exactly once; this includes the
deletion that a read loop pass starts after a `SerialException` of `readline`. When the
call returns false because flush or close failed, the record is removed as well and no
callback is scheduled. -/
theorem deleteSerialDevice_callback_once (env : Transport) (g : Gateway) (deviceId : Str)
    (dev : SerialDevice) (s : Serial)
    (hfind : mapFind g.serialDevices deviceId = some dev)
    (hinst : dev.serialInstance = some s) :
    ((deleteSerialDevice env g deviceId).outcome = .ok true →
        mapFind (deleteSerialDevice env g deviceId).state.serialDevices deviceId = none ∧
        (deleteSerialDevice env g deviceId).trace.count
          (Event.serialDeviceDeletedCallback deviceId dev.port) = 1) ∧
      ((deleteSerialDevice env g deviceId).outcome = .ok false →
        mapFind (deleteSerialDevice env g deviceId).state.serialDevices deviceId = none ∧
        ∀ id1 p1, Event.serialDeviceDeletedCallback id1 p1 ∉
          (deleteSerialDevice env g deviceId).trace) ∧
      (∀ what tr, env.readline s.port tr = .error (.SerialException what) →
        tr.count (Event.serialDeviceDeletedCallback deviceId dev.port) = 0 →
        (deleteSerialDevice env g deviceId).outcome = .ok true →
        mapFind (readLoopIteration env g deviceId tr).state.serialDevices deviceId = none ∧
        (readLoopIteration env g deviceId tr).trace.count
          (Event.serialDeviceDeletedCallback deviceId dev.port) = 1) := by
  have hremoved : ∀ b, (deleteSerialDevice env g deviceId).outcome = .ok b →
      mapFind (deleteSerialDevice env g deviceId).state.serialDevices deviceId = none := by
    intro b hb
    rcases deleteSerialDevice_found_cases env g deviceId dev s hfind hinst with
      ⟨-, -, hstate, -⟩ | ⟨-, -, hstate, -⟩ | ⟨what, herr, -, -, -⟩
    · rw [hstate]; exact mapFind_mapErase _ _
    · rw [hstate]; exact mapFind_mapErase _ _
    · rw [herr] at hb
      exact Except.noConfusion hb
  refine ⟨?_, ?_, ?_⟩
  · intro htrue
    exact ⟨hremoved true htrue, deleteSerialDevice_callback_one env g deviceId dev s hfind hinst
      htrue⟩
  · intro hfalse
    refine ⟨hremoved false hfalse, deleteSerialDevice_callback_none env g deviceId ?_⟩
    rw [hfalse]
    intro h
    exact Bool.noConfusion (Except.ok.inj h)
  · intro what tr hread htr htrue
    obtain ⟨hstate, -, text1, text2, htrace⟩ :=
      readLoopIteration_serialException env g deviceId dev s tr what hfind hinst hread
    rw [hstate, htrace]
    refine ⟨hremoved true htrue, ?_⟩
    rw [List.count_append, List.count_append, List.count_append, htr,
      deleteSerialDevice_callback_one env g deviceId dev s hfind hinst htrue,
      List.count_singleton', List.count_cons_of_ne (by intro h; exact Event.noConfusion h),
      List.count_singleton']
    simp

/-- Witness of `deleteSerialDevice_callback_once`: with a working transport, deleting
`same` removes the record and schedules the callback for `same` on `/dev/ttyS0` once. -/
theorem deleteSerialDevice_callback_once_witness :
    mapFind (deleteSerialDevice (replyingTransport [] []) scenarioCollisionGateway
        "same".toList).state.serialDevices "same".toList = none ∧
      (deleteSerialDevice (replyingTransport [] []) scenarioCollisionGateway
        "same".toList).trace.count
          (Event.serialDeviceDeletedCallback "same".toList "/dev/ttyS0".toList) = 1 :=
  (deleteSerialDevice_callback_once (replyingTransport [] []) scenarioCollisionGateway
    "same".toList
    ⟨"/dev/ttyS0".toList, 9600, 250, "same".toList, some ⟨"/dev/ttyS0".toList, 9600, 250⟩⟩
    ⟨"/dev/ttyS0".toList, 9600, 250⟩ rfl rfl).1 rfl

/-- Claim C16 fails on the code: when `readline` or `write` fails with an `IOException`,
neither the read loop pass nor the send path catches it. The exception leaves the
function, `deleteSerialDevice` is not called, `same` stays registered and its read loop
stays marked as started. -/
theorem transport_failure_not_caught_failing :
    (readLoopIteration ioFailingTransport scenarioCollisionGateway "same".toList []).outcome =
        .error (.serial (.IOException "EIO".toList)) ∧
      (readLoopIteration ioFailingTransport scenarioCollisionGateway "same".toList []).state =
        scenarioCollisionGateway ∧
      (sendMessageToSerialDeviceAsync ioFailingTransport scenarioCollisionGateway
        "same".toList "hello".toList).outcome = .error (.serial (.IOException "EIO".toList)) ∧
      (sendMessageToSerialDeviceAsync ioFailingTransport scenarioCollisionGateway
        "same".toList "hello".toList).state = scenarioCollisionGateway ∧
      mapFind scenarioCollisionGateway.serialDevices "same".toList ≠ none ∧
      isReadLoopStarted scenarioCollisionGateway "same".toList = true := by
  refine ⟨rfl, rfl, rfl, rfl, by decide, by decide⟩

/-- Claim C17. Send path, for every gateway, every ID and every message. If the ID is
registered with a record that has a session, the only write of the send path is
`message ++ "\n"` on the port of that session; when the write returns a count, success is
logged exactly when the count is the length of the message plus one, the mismatch is
logged otherwise, and the gateway is unchanged. If the ID is not registered, nothing is
written, no transport operation happens on any port, and the gateway, registry and reader
states included, is unchanged. -/
theorem sendMessage_payload (env : Transport) (g : Gateway) (deviceId message : Str) :
    (∀ (dev : SerialDevice) (s : Serial),
        mapFind g.serialDevices deviceId = some dev → dev.serialInstance = some s →
          (sendMessageToSerialDeviceAsync env g deviceId message).trace.filter Event.isWrite =
              [Event.write s.port (message ++ ['\n'])] ∧
            ∀ n, env.write s.port (message ++ ['\n']) [] = .ok n →
              (sendMessageToSerialDeviceAsync env g deviceId message).state = g ∧
              (n = message.length + 1 →
                (sendMessageToSerialDeviceAsync env g deviceId message).trace =
                  [Event.write s.port (message ++ ['\n']),
                    Event.writeInfo (deliveredText deviceId message n)]) ∧
              (n ≠ message.length + 1 →
                (sendMessageToSerialDeviceAsync env g deviceId message).trace =
                  [Event.write s.port (message ++ ['\n']),
                    Event.writeError (notDeliveredText deviceId message n)])) ∧
      (mapFind g.serialDevices deviceId = none →
        (sendMessageToSerialDeviceAsync env g deviceId message).state = g ∧
          (sendMessageToSerialDeviceAsync env g deviceId message).state.serialDevices =
            g.serialDevices ∧
          (sendMessageToSerialDeviceAsync env g deviceId message).state.readLoopStates =
            g.readLoopStates ∧
          (sendMessageToSerialDeviceAsync env g deviceId message).trace.filter Event.isWrite =
            [] ∧
          ∀ port, ∀ e ∈ (sendMessageToSerialDeviceAsync env g deviceId message).trace,
            e.isTransportOn port = false) := by
  constructor
  · intro dev s hfind hinst
    constructor
    · unfold sendMessageToSerialDeviceAsync
      simp only [getSerialDeviceById, hfind, Serial.write, hinst, CHAR_NEWLINE, List.nil_append]
      cases hw : env.write s.port (message ++ ['\n']) [] with
      | ok n =>
        simp only [liftSerial]
        split <;> simp [Event.isWrite]
      | error e =>
        cases e with
        | IOException what => simp [liftSerial, Event.isWrite]
        | PortNotOpenedException what => simp [liftSerial, Event.isWrite]
        | SerialException what =>
          simp only [liftSerial]
          rw [List.filter_append, deleteSerialDevice_no_write]
          simp [Event.isWrite]
    · intro n hw
      unfold sendMessageToSerialDeviceAsync
      simp only [getSerialDeviceById, hfind, Serial.write, hinst, CHAR_NEWLINE, List.nil_append,
        hw, liftSerial]
      refine ⟨?_, ?_, ?_⟩
      · split <;> rfl
      · intro hn
        rw [if_pos hn]
        rfl
      · intro hn
        rw [if_neg hn]
        rfl
  · intro hother
    have hstate : (sendMessageToSerialDeviceAsync env g deviceId message).state = g := by
      unfold sendMessageToSerialDeviceAsync
      simp only [getSerialDeviceById, hother]
    refine ⟨hstate, by rw [hstate], by rw [hstate], ?_, ?_⟩
    · unfold sendMessageToSerialDeviceAsync
      simp only [getSerialDeviceById, hother]
      rfl
    · intro port e he
      unfold sendMessageToSerialDeviceAsync at he
      simp only [getSerialDeviceById, hother, List.mem_singleton] at he
      subst he
      rfl

/-- Witness of `sendMessage_payload`: sending `hello` to the registered `same` writes
`hello\n` and logs the delivery of 6 of 6 bytes; sending `hello` to `same` on the scenario
gateway, whose registry is empty, writes nothing and leaves the gateway as it is. -/
theorem sendMessage_payload_witness :
    (sendMessageToSerialDeviceAsync (replyingTransport [] []) scenarioCollisionGateway
        "same".toList "hello".toList).trace =
        [Event.write "/dev/ttyS0".toList "hello\n".toList,
          Event.writeInfo (deliveredText "same".toList "hello".toList 6)] ∧
      (sendMessageToSerialDeviceAsync (replyingTransport [] []) scenarioGateway
        "same".toList "hello".toList).state = scenarioGateway ∧
      (sendMessageToSerialDeviceAsync (replyingTransport [] []) scenarioGateway
        "same".toList "hello".toList).trace.filter Event.isWrite = [] :=
  ⟨((((sendMessage_payload (replyingTransport [] []) scenarioCollisionGateway "same".toList
      "hello".toList).1
      ⟨"/dev/ttyS0".toList, 9600, 250, "same".toList, some ⟨"/dev/ttyS0".toList, 9600, 250⟩⟩
      ⟨"/dev/ttyS0".toList, 9600, 250⟩ rfl rfl).2 6 rfl).2.1 rfl),
    ((sendMessage_payload (replyingTransport [] []) scenarioGateway "same".toList
      "hello".toList).2 rfl).1,
    ((sendMessage_payload (replyingTransport [] []) scenarioGateway "same".toList
      "hello".toList).2 rfl).2.2.2.1⟩

/-- Claim C18 as stated fails: `stop()` on a gateway that is not started returns at once;
the device `same`, admitted by hand, stays in the registry. -/
theorem stop_empties_registry_counterexample :
    ¬ ∀ (env : Transport) (g : Gateway),
        (stop env g).state.started = false ∧ (stop env g).state.serialDevices = [] := by
  intro h
  have h1 := (h (replyingTransport [] []) scenarioCollisionGateway).2
  rw [(stop_of_not_started (replyingTransport [] []) scenarioCollisionGateway rfl).2] at h1
  exact absurd h1 (by decide)

/-- Claim C18, amended. After `stop()` the started flag is false. On a gateway that is
not started `stop()` returns with the gateway, registry included, as it was. On a
started gateway `stop()` clears the flag and runs `deleteAllSerialDevices`; when the
registry is empty it returns with the registry empty. -/
theorem stop_spec (env : Transport) (g : Gateway) :
    (stop env g).state.started = false ∧
      (g.started = false → (stop env g).outcome = .ok () ∧ (stop env g).state = g) ∧
      (g.started = true →
        (stop env g).state =
          (deleteAllSerialDevices env { g with started := false } false).state) ∧
      (g.started = true → g.serialDevices = [] →
        (stop env g).outcome = .ok () ∧ (stop env g).state.serialDevices = []) := by
  refine ⟨stop_started env g, stop_of_not_started env g, fun h => (stop_of_started env g h).1, ?_⟩
  intro h hempty
  obtain ⟨hstate, hout⟩ := stop_of_started env g h
  obtain ⟨hout2, hstate2⟩ :=
    deleteAllSerialDevices_empty env { g with started := false } false hempty
  rw [hstate, hout, hout2, hstate2]
  exact ⟨rfl, hempty⟩

/-- Witness of `stop_spec`: a started gateway with an empty registry is stopped. -/
theorem stop_spec_witness :
    (stop (replyingTransport [] []) { scenarioGateway with started := true }).outcome = .ok () ∧
      (stop (replyingTransport [] [])
        { scenarioGateway with started := true }).state.serialDevices = [] :=
  (stop_spec (replyingTransport [] []) { scenarioGateway with started := true }).2.2.2 rfl rfl

/-- Claim C19 fails on the code: with the one device `same` registered and a working
transport, the loop of `deleteAllSerialDevices` deletes `same`, which erases the map
element its iterator points to, and then increments that iterator. The call does not
return a count. -/
theorem deleteAllSerialDevices_failing :
    scenarioCollisionGateway.serialDevices.length = 1 ∧
      (deleteSerialDevice (replyingTransport [] []) scenarioCollisionGateway
        "same".toList).outcome = .ok true ∧
      (deleteAllSerialDevices (replyingTransport [] []) scenarioCollisionGateway false).outcome =
        .error .invalidIterator := by
  refine ⟨rfl, rfl, rfl⟩

/-- Claim C20. Idempotence of the lifecycle: a second `start()` leaves the gateway as
the first one left it, started, and the two calls launch the scan loop once (not at all
if the gateway was started before); a second `stop()` leaves the gateway as the first
one left it, not started. -/
theorem lifecycle_idempotent (env1 env2 : Transport) (g : Gateway) :
    (start (start g).state).state = (start g).state ∧
      (start g).state.started = true ∧
      ((start g).trace ++ (start (start g).state).trace).count Event.addNewSerialPortsLoop =
        (if g.started then 0 else 1) ∧
      (stop env2 (stop env1 g).state).state = (stop env1 g).state ∧
      (stop env1 g).state.started = false := by
  refine ⟨?_, ?_, ?_, ?_, stop_started env1 g⟩
  · cases h : g.started <;> simp [start, h]
  · cases h : g.started <;> simp [start, h]
  · cases h : g.started
    · simp only [start, h, Bool.false_eq_true, if_false, if_true]
      decide
    · simp only [start, h, if_true]
      decide
  · exact (stop_of_not_started env2 _ (stop_started env1 g)).2

/-- Claim C21 fails in the code. The state in which `same` has been admitted, its read
loop has been entered, the device has been deleted, the read loop has left and the device
has been admitted again is reachable; its reader-state map holds the one entry
`same -> (started = true, quitted = true)`, and `isEveryReadLoopQuitted` returns true
although the read loop of `same` is marked as started. -/
theorem isEveryReadLoopQuitted_failing :
    Reachable scenarioReadmittedGateway ∧
      scenarioReadmittedGateway.readLoopStates = [("same".toList, (true, true))] ∧
      isEveryReadLoopQuitted scenarioReadmittedGateway = true ∧
      isReadLoopStarted scenarioReadmittedGateway "same".toList = true ∧
      ¬ ∀ entry ∈ scenarioReadmittedGateway.readLoopStates,
        entry.2.1 = false ∧ entry.2.2 = true := by
  refine ⟨?_, by decide, by decide, by decide, by decide⟩
  exact Reachable.addSerialDevice (replyingTransport [] "ID,same\n".toList) _
    "/dev/ttyS0".toList false
    (Reachable.readLoopExit _ "same".toList
      (Reachable.deleteSerialDevice (replyingTransport [] "ID,same\n".toList) _ "same".toList
        (Reachable.readLoopEnter scenarioCollisionGateway "same".toList
          (Reachable.addSerialDevice (replyingTransport [] "ID,same\n".toList) scenarioGateway
            "/dev/ttyS0".toList false (Reachable.initial scenarioGateway rfl rfl))
          (by decide)))
      (by decide))

/-- Claim C22. Reader-state queries, for every gateway and every ID: if the reader-state
map has no entry for the ID, `isReadLoopQuitted` returns true and `isReadLoopStarted`
returns false; if the entry is the pair (started, quitted), they return `quitted` and
`started`. Neither call changes the gateway, so the map has the entries it had before; in
particular an ID without an entry has none after either query. -/
theorem readLoopState_queries (g : Gateway) (deviceId : Str) :
    (mapFind g.readLoopStates deviceId = none →
        (isReadLoopQuittedCall g deviceId).1 = true ∧
          (isReadLoopStartedCall g deviceId).1 = false ∧
          mapFind (isReadLoopQuittedCall g deviceId).2.readLoopStates deviceId = none ∧
          mapFind (isReadLoopStartedCall g deviceId).2.readLoopStates deviceId = none) ∧
      (∀ started quitted : Bool, mapFind g.readLoopStates deviceId = some (started, quitted) →
        (isReadLoopQuittedCall g deviceId).1 = quitted ∧
          (isReadLoopStartedCall g deviceId).1 = started) ∧
      (isReadLoopQuittedCall g deviceId).2 = g ∧
      (isReadLoopStartedCall g deviceId).2 = g ∧
      (isReadLoopQuittedCall g deviceId).1 = isReadLoopQuitted g deviceId ∧
      (isReadLoopStartedCall g deviceId).1 = isReadLoopStarted g deviceId := by
  unfold isReadLoopQuittedCall isReadLoopStartedCall isReadLoopQuitted isReadLoopStarted
  cases hfind : mapFind g.readLoopStates deviceId with
  | none =>
      refine ⟨fun _ => ⟨rfl, rfl, hfind, hfind⟩, ?_, rfl, rfl, rfl, rfl⟩
      intro started quitted h
      cases h
  | some state =>
      refine ⟨?_, ?_, rfl, rfl, rfl, rfl⟩
      · intro h
        cases h
      · intro started quitted h
        cases h
        exact ⟨rfl, rfl⟩

/-- Witness of `readLoopState_queries`: in the scenario gateway, whose reader-state map is
empty, the ID `same` is reported as quitted and not started and the map stays empty; after
`same` has been admitted its entry is (true, false), and the queries return false and
true. -/
theorem readLoopState_queries_witness :
    ((isReadLoopQuittedCall scenarioGateway "same".toList).1 = true ∧
        (isReadLoopStartedCall scenarioGateway "same".toList).1 = false ∧
        mapFind (isReadLoopQuittedCall scenarioGateway "same".toList).2.readLoopStates
          "same".toList = none ∧
        mapFind (isReadLoopStartedCall scenarioGateway "same".toList).2.readLoopStates
          "same".toList = none) ∧
      ((isReadLoopQuittedCall scenarioCollisionGateway "same".toList).1 = false ∧
        (isReadLoopStartedCall scenarioCollisionGateway "same".toList).1 = true) :=
  ⟨(readLoopState_queries scenarioGateway "same".toList).1 (by decide),
    (readLoopState_queries scenarioCollisionGateway "same".toList).2.1 true false (by decide)⟩

/-- Claim C23. Reader-state coverage invariant: in every state reachable from the empty
gateway by the operations run one at a time, every key of the registry is a key of the
reader-state map and has exactly one entry there. -/
theorem reachable_readLoopStates_cover (g : Gateway) (hreach : Reachable g) (k : Str)
    (hk : k ∈ g.serialDevices.map (fun entry => entry.1)) :
    k ∈ g.readLoopStates.map (fun entry => entry.1) ∧
      (g.readLoopStates.filter (fun entry => decide (entry.1 = k))).length = 1 := by
  obtain ⟨hsorted, hcover⟩ := reachable_readLoopStates_inv g hreach
  have hne := hcover k (mapFind_ne_none_of_mem g.serialDevices k hk)
  cases hfind : mapFind g.readLoopStates k with
  | none => exact absurd hfind hne
  | some v =>
      refine ⟨List.mem_map.2 ⟨(k, v), mem_of_mapFind g.readLoopStates k v hfind, rfl⟩, ?_⟩
      rw [filter_key_of_mapFind g.readLoopStates k v (sorted_keys_nodup _ hsorted) hfind]
      rfl

/-- Witness of `reachable_readLoopStates_cover`: the key `same` after admitting
`/dev/ttyS0`. -/
theorem reachable_readLoopStates_cover_witness :
    "same".toList ∈ scenarioCollisionGateway.readLoopStates.map (fun entry => entry.1) ∧
      (scenarioCollisionGateway.readLoopStates.filter
        (fun entry => decide (entry.1 = "same".toList))).length = 1 :=
  reachable_readLoopStates_cover scenarioCollisionGateway
    (Reachable.addSerialDevice (replyingTransport [] "ID,same\n".toList) scenarioGateway
      "/dev/ttyS0".toList false (Reachable.initial scenarioGateway rfl rfl))
    "same".toList (by decide)

/-- Claim C24, as stated, fails: from a file of two blank lines `loadHardwareWhitelist`
builds a whitelist that is not empty (it holds the empty string), so that whitelist checks
are performed, and `loadSerialPortBlacklist` builds a blacklist that is not empty; from the
one line ` a ` with blanks around it the whitelist holds the line with its blanks. -/
theorem loadFilters_blank_lines_counterexample :
    (loadHardwareWhitelist scenarioGateway "whitelist.txt".toList
        (some "\n\n".toList)).state.hardwareWhitelist ≠ [] ∧
      isHardwareWhitelistEmpty (loadHardwareWhitelist scenarioGateway "whitelist.txt".toList
        (some "\n\n".toList)).state = false ∧
      (loadSerialPortBlacklist scenarioGateway "blacklist.txt".toList
        (some "\n\n".toList)).state.serialPortBlacklist ≠ [] ∧
      (loadHardwareWhitelist scenarioGateway "whitelist.txt".toList
        (some " a \n".toList)).state.hardwareWhitelist = [" a ".toList] := by
  decide

/-- Claim C24, amended. Filter loading keeps every line as it is: for every file content,
read under a non-empty file name, the loaders return and the set built by
`loadHardwareWhitelist` (by `loadSerialPortBlacklist`) holds exactly the entries it held
before and the lines that `std::getline` yields for the content, untrimmed and the empty
ones included; the whitelist is empty afterwards exactly when it was empty before and the
file is empty. The lines of a content are its newline-terminated lines in order, followed
by the characters after the last newline if there are any. -/
theorem loadFilters_lines (g : Gateway) (fileName content : Str) (hname : fileName ≠ []) :
    (loadHardwareWhitelist g fileName (some content)).outcome = .ok () ∧
      (∀ x, x ∈ (loadHardwareWhitelist g fileName (some content)).state.hardwareWhitelist ↔
        x ∈ g.hardwareWhitelist ∨ x ∈ getlines content) ∧
      (isHardwareWhitelistEmpty (loadHardwareWhitelist g fileName (some content)).state = true ↔
        g.hardwareWhitelist = [] ∧ content = []) ∧
      (loadSerialPortBlacklist g fileName (some content)).outcome = .ok () ∧
      (∀ x, x ∈ (loadSerialPortBlacklist g fileName (some content)).state.serialPortBlacklist ↔
        x ∈ g.serialPortBlacklist ∨ x ∈ getlines content) ∧
      (∀ (lines : List Str) (last : Str), (∀ l ∈ lines, '\n' ∉ l) → '\n' ∉ last →
        content = lines.flatMap (fun l => l ++ ['\n']) ++ last →
          getlines content = lines ++ (if last = [] then [] else [last])) := by
  obtain ⟨hw1, hw2⟩ := loadHardwareWhitelist_content g fileName content hname
  obtain ⟨hb1, hb2⟩ := loadSerialPortBlacklist_content g fileName content hname
  rw [hw2, hb2]
  refine ⟨hw1, fun x => loadWhitelistLines_mem (getlines content) g [] x, ?_, hb1,
    fun x => loadBlacklistLines_mem (getlines content) g [] x, ?_⟩
  · unfold isHardwareWhitelistEmpty
    rw [List.isEmpty_iff, List.eq_nil_iff_forall_not_mem, ← getlines_eq_nil content]
    constructor
    · intro h
      constructor
      · rw [List.eq_nil_iff_forall_not_mem]
        intro x hx
        exact h x ((loadWhitelistLines_mem (getlines content) g [] x).2 (Or.inl hx))
      · rw [List.eq_nil_iff_forall_not_mem]
        intro x hx
        exact h x ((loadWhitelistLines_mem (getlines content) g [] x).2 (Or.inr hx))
    · rintro ⟨h1, h2⟩ x hx
      rcases (loadWhitelistLines_mem (getlines content) g [] x).1 hx with h | h
      · rw [h1] at h
        cases h
      · rw [h2] at h
        cases h
  · intro lines last hlines hlast hcontent
    rw [hcontent]
    exact getlines_decompose lines last hlines hlast

/-- Witness of `loadFilters_lines`: from the file ` a `, newline, newline, `b` without a
final newline, the whitelist holds the line ` a ` with its blanks, the empty string, and
the unterminated last line `b`. -/
theorem loadFilters_lines_witness :
    " a ".toList ∈ (loadHardwareWhitelist scenarioGateway "whitelist.txt".toList
        (some " a \n\nb".toList)).state.hardwareWhitelist ∧
      ([] : Str) ∈ (loadHardwareWhitelist scenarioGateway "whitelist.txt".toList
        (some " a \n\nb".toList)).state.hardwareWhitelist ∧
      "b".toList ∈ (loadHardwareWhitelist scenarioGateway "whitelist.txt".toList
        (some " a \n\nb".toList)).state.hardwareWhitelist ∧
      getlines " a \n\nb".toList = [" a ".toList, [], "b".toList] :=
  ⟨((loadFilters_lines scenarioGateway "whitelist.txt".toList " a \n\nb".toList
      (by decide)).2.1 " a ".toList).2 (Or.inr (by decide)),
    ((loadFilters_lines scenarioGateway "whitelist.txt".toList " a \n\nb".toList
      (by decide)).2.1 []).2 (Or.inr (by decide)),
    ((loadFilters_lines scenarioGateway "whitelist.txt".toList " a \n\nb".toList
      (by decide)).2.1 "b".toList).2 (Or.inr (by decide)),
    (loadFilters_lines scenarioGateway "whitelist.txt".toList " a \n\nb".toList
      (by decide)).2.2.2.2.2 [" a ".toList, []] "b".toList (by decide) (by decide) (by decide)⟩

/-- Claim C25. For every gateway state and every list of enumerated ports (fewer than
2^32, the range of the `unsigned int` counter), `addNewSerialPorts` returns the number of
enumerated ports for which `addSerialDevice` returned true, and the registry has gained
exactly that many entries when the call returns. -/
theorem addNewSerialPorts_count (env : Transport) (g : Gateway) (suppressLogs : Bool)
    (hbound : env.list_ports.length < 2 ^ 32) :
    (addNewSerialPorts env g suppressLogs).outcome =
        .ok ((admissionResults env env.list_ports g).count true) ∧
      (addNewSerialPorts env g suppressLogs).state.serialDevices.length =
        g.serialDevices.length + (admissionResults env env.list_ports g).count true := by
  obtain ⟨h1, h2⟩ := addNewSerialPorts_of_from env g suppressLogs
  obtain ⟨h3, h4⟩ := addNewSerialPortsFrom_count env env.list_ports g 0
    ((if !suppressLogs then
      [Event.writeInfo "Searching for new serial ports...".toList] else []) ++ [Event.list_ports])
    (by omega)
  rw [h1, h2, h3, h4, Nat.zero_add]
  exact ⟨rfl, rfl⟩

/-- Witness of `addNewSerialPorts_count`: two enumerated ports whose devices both answer
`ID,same`; the first is added, the second is rejected for its ID, and the call returns 1. -/
theorem addNewSerialPorts_count_witness :
    (admissionResults
        (replyingTransport [⟨"/dev/ttyS0".toList, []⟩, ⟨"/dev/ttyS1".toList, []⟩]
          "ID,same\n".toList)
        [⟨"/dev/ttyS0".toList, []⟩, ⟨"/dev/ttyS1".toList, []⟩] scenarioGateway).count true = 1 ∧
      (addNewSerialPorts
        (replyingTransport [⟨"/dev/ttyS0".toList, []⟩, ⟨"/dev/ttyS1".toList, []⟩]
          "ID,same\n".toList) scenarioGateway false).outcome =
        .ok ((admissionResults
          (replyingTransport [⟨"/dev/ttyS0".toList, []⟩, ⟨"/dev/ttyS1".toList, []⟩]
            "ID,same\n".toList)
          [⟨"/dev/ttyS0".toList, []⟩, ⟨"/dev/ttyS1".toList, []⟩] scenarioGateway).count true) :=
  ⟨by decide, (addNewSerialPorts_count
    (replyingTransport [⟨"/dev/ttyS0".toList, []⟩, ⟨"/dev/ttyS1".toList, []⟩]
      "ID,same\n".toList) scenarioGateway false (by decide)).1⟩

/-- Claim C26, as stated, fails: a gateway with scan interval 0 that has been started and
stopped again before the scan thread runs is not started, and the scan loop then leaves
without a pass: the registry stays empty, where one pass of `addNewSerialPorts` would have
added the enumerated device. -/
theorem addNewSerialPortsLoop_once_counterexample :
    (stop (replyingTransport [⟨"/dev/ttyS0".toList, []⟩] "ID,same\n".toList)
        (start scenarioGateway).state).state.scanInterval = 0 ∧
      (addNewSerialPortsLoop (replyingTransport [⟨"/dev/ttyS0".toList, []⟩] "ID,same\n".toList) 1
        (stop (replyingTransport [⟨"/dev/ttyS0".toList, []⟩] "ID,same\n".toList)
          (start scenarioGateway).state).state).map
          (fun r => (r.state.serialDevices.length, r.trace)) = some (0, []) ∧
      (addNewSerialPorts (replyingTransport [⟨"/dev/ttyS0".toList, []⟩] "ID,same\n".toList)
        (stop (replyingTransport [⟨"/dev/ttyS0".toList, []⟩] "ID,same\n".toList)
          (start scenarioGateway).state).state true).state.serialDevices.length = 1 := by
  decide

/-- Claim C26, amended. One-shot scan: if the scan interval is 0 and the gateway is
started when the scan loop checks its condition, the loop makes exactly one pass of
`addNewSerialPorts` and ends: it returns, leaving the state and the events of that one
pass; if the gateway is not started, the loop ends without a pass. -/
theorem addNewSerialPortsLoop_one_shot (env : Transport) (g : Gateway) (fuel : Nat)
    (hzero : g.scanInterval = 0) :
    (g.started = true →
        addNewSerialPortsLoop env (fuel + 1) g =
          some ⟨.ok (), (addNewSerialPorts env g true).state,
            (addNewSerialPorts env g true).trace⟩) ∧
      (g.started = false → addNewSerialPortsLoop env (fuel + 1) g = some ⟨.ok (), g, []⟩) := by
  unfold addNewSerialPortsLoop addNewSerialPortsLoopWhile
  constructor
  · intro hstarted
    obtain ⟨k, hk⟩ := addNewSerialPorts_returns env g true
    rw [if_pos hstarted]
    simp only [hk, hzero, gt_iff_lt, Nat.lt_irrefl, if_false, List.nil_append]
  · intro hstarted
    rw [if_neg (by rw [hstarted]; exact Bool.false_ne_true)]

/-- Witness of `addNewSerialPortsLoop_one_shot`: the started scenario gateway with one
enumerated port; the one pass adds the device. -/
theorem addNewSerialPortsLoop_one_shot_witness :
    addNewSerialPortsLoop (replyingTransport [⟨"/dev/ttyS0".toList, []⟩] "ID,same\n".toList) 1
        (start scenarioGateway).state =
      some ⟨.ok (),
        (addNewSerialPorts (replyingTransport [⟨"/dev/ttyS0".toList, []⟩] "ID,same\n".toList)
          (start scenarioGateway).state true).state,
        (addNewSerialPorts (replyingTransport [⟨"/dev/ttyS0".toList, []⟩] "ID,same\n".toList)
          (start scenarioGateway).state true).trace⟩ :=
  (addNewSerialPortsLoop_one_shot
    (replyingTransport [⟨"/dev/ttyS0".toList, []⟩] "ID,same\n".toList)
    (start scenarioGateway).state 0 (by decide)).1 (by decide)

/-- Claim C28. Reader safety invariant: in every state reachable from the empty gateway
by the operations run one at a time, a device ID whose read loop is marked as started is
a key of the registry; `getSerialDeviceById` then returns a record, the record has a
session, and a pass of the read loop in that state dereferences neither a null record nor
a null session, whatever the transport answers. -/
theorem reachable_started_registered (g : Gateway) (hreach : Reachable g) (deviceId : Str)
    (hstarted : isReadLoopStarted g deviceId = true) :
    deviceId ∈ g.serialDevices.map (fun entry => entry.1) ∧
      (∃ dev s, getSerialDeviceById g deviceId = some dev ∧ dev.serialInstance = some s) ∧
      ∀ (env : Transport) (tr : List Event),
        (readLoopIteration env g deviceId tr).outcome ≠ .error .nullDereference ∧
          (readLoopIteration env g deviceId tr).outcome ≠ .error .uninitializedRead := by
  have hne := reachable_started_mapFind g hreach deviceId hstarted
  cases hfind : mapFind g.serialDevices deviceId with
  | none => exact absurd hfind hne
  | some dev =>
      have hmem := mem_of_mapFind g.serialDevices deviceId dev hfind
      have hwf := (reachable_registryInv g hreach).2.2 (deviceId, dev) hmem
      cases hinst : dev.serialInstance with
      | none => exact absurd hinst hwf.2.2.2
      | some s =>
          refine ⟨List.mem_map.2 ⟨(deviceId, dev), hmem, rfl⟩, ⟨dev, s, hfind, hinst⟩, ?_⟩
          intro env tr
          exact readLoopIteration_with_session env g deviceId tr dev s hfind hinst

/-- Witness of `reachable_started_registered`: after the device `same` has been admitted
its read loop is marked as started and `same` is a key of the registry. -/
theorem reachable_started_registered_witness :
    isReadLoopStarted scenarioCollisionGateway "same".toList = true ∧
      "same".toList ∈ scenarioCollisionGateway.serialDevices.map (fun entry => entry.1) :=
  ⟨by decide, (reachable_started_registered scenarioCollisionGateway
    (Reachable.addSerialDevice (replyingTransport [] "ID,same\n".toList) scenarioGateway
      "/dev/ttyS0".toList false (Reachable.initial scenarioGateway rfl rfl))
    "same".toList (by decide)).1⟩

/-- Claim C29. Hardware-ID extraction when no space follows the value: for a descriptor
`pre ++ "VID:PID=" ++ rest`, where `pre` does not contain the key and `rest` has no space
(the descriptor is a `std::string`, shorter than `npos`), `find_first_of` returns `npos`,
the length computed from it modulo 2^64 differs from `npos`, and the extracted hardware ID
is all of `rest`: the branch "the Hardware ID could not be retrieved" is not taken. -/
theorem extractHardwareId_no_space (pre rest : Str)
    (hbound : (pre ++ "VID:PID=".toList ++ rest).length < npos)
    (hpre : ¬ "VID:PID=".toList <:+: pre)
    (hrest : ' ' ∉ rest) :
    sizeT (find_first_of (pre ++ "VID:PID=".toList ++ rest) [' ']
        (pre.length + "VID:PID=".toList.length)) = npos ∧
      (sizeT (find_first_of (pre ++ "VID:PID=".toList ++ rest) [' ']
          (pre.length + "VID:PID=".toList.length)) + 2 ^ 64 -
        (pre.length + "VID:PID=".toList.length)) % 2 ^ 64 ≠ npos ∧
      extractHardwareId (pre ++ "VID:PID=".toList ++ rest) = some rest := by
  have hK : "VID:PID=".toList = ['V', 'I', 'D', ':', 'P', 'I', 'D', '='] := by decide
  rw [hK] at hbound hpre ⊢
  have hlen : pre.length + 8 + rest.length < 2 ^ 64 - 1 := by
    have := hbound
    simp only [List.length_append, List.length_cons, List.length_nil, npos] at this
    omega
  have hfind : find (pre ++ ['V', 'I', 'D', ':', 'P', 'I', 'D', '='] ++ rest)
      ['V', 'I', 'D', ':', 'P', 'I', 'D', '='] = some pre.length := by
    unfold find
    rw [List.append_assoc, findFrom_vidpid pre _ 0 hpre]
    simp
  have hspace : find_first_of (pre ++ ['V', 'I', 'D', ':', 'P', 'I', 'D', '='] ++ rest) [' ']
      (pre.length + 8) = none := by
    have := find_first_of_no_space (pre ++ ['V', 'I', 'D', ':', 'P', 'I', 'D', '=']) rest hrest
    simpa using this
  have hvalue : (pre.length % 2 ^ 64 + 8) % 2 ^ 64 = pre.length + 8 := by
    rw [Nat.mod_eq_of_lt (by omega), Nat.mod_eq_of_lt (by omega)]
  have hlength : (npos + 2 ^ 64 - (pre.length + 8)) % 2 ^ 64 = 2 ^ 64 - 1 - (pre.length + 8) := by
    simp only [npos]
    rw [show 2 ^ 64 - 1 + 2 ^ 64 - (pre.length + 8) =
        (2 ^ 64 - 1 - (pre.length + 8)) + 2 ^ 64 by omega,
      Nat.add_mod_right, Nat.mod_eq_of_lt (by omega)]
  simp only [List.length_cons, List.length_nil, Nat.zero_add, Nat.reduceAdd]
  rw [hspace]
  refine ⟨rfl, ?_, ?_⟩
  · simp only [sizeT]
    rw [hlength]
    simp only [npos]
    omega
  · unfold extractHardwareId
    simp only [hK, hfind, sizeT, List.length_cons, List.length_nil, hvalue, hspace]
    rw [hlength, Nat.mod_eq_of_lt (by omega : pre.length < 2 ^ 64)]
    have hc : pre.length ≠ npos ∧ 2 ^ 64 - 1 - (pre.length + 8) ≠ npos := by
      simp only [npos]
      constructor <;> omega
    have hdrop : List.drop (pre.length + 8)
        (pre ++ ['V', 'I', 'D', ':', 'P', 'I', 'D', '='] ++ rest) = rest := by
      rw [show pre.length + 8 =
        (pre ++ ['V', 'I', 'D', ':', 'P', 'I', 'D', '=']).length by simp, List.drop_left]
    rw [if_pos hc, substr, hdrop, List.take_of_length_le (by omega)]

/-- Witness of `extractHardwareId_no_space`: the descriptor `USB VID:PID=2341:0042`
yields `2341:0042`. -/
theorem extractHardwareId_no_space_witness :
    extractHardwareId "USB VID:PID=2341:0042".toList = some "2341:0042".toList :=
  (extractHardwareId_no_space "USB ".toList "2341:0042".toList
    (by decide) (by decide) (by decide)).2.2

/-- Claim C30, as stated, fails: on the line `ID\r,abc\n` with the delimiter `,` the
type that `parseMessage` returns contains the carriage return. -/
theorem parseMessage_terminator_free_counterexample :
    ",".toList ≠ [] ∧ '\r' ∈ (parseMessage "ID\r,abc\n".toList ",".toList).1 := by
  decide

/-- Claim C30, amended. For every line and every delimiter, the content returned by
`parseMessage` contains no line terminator, the type contains no character of the
delimiter, the type contains a line terminator exactly when the first line terminator of
the line stands before its first delimiter character, and in that case the content is
empty. -/
theorem parseMessage_output_chars (line delimiter : Str) :
    (∀ c ∈ (parseMessage line delimiter).2, c ≠ '\n' ∧ c ≠ '\r') ∧
      (∀ c ∈ (parseMessage line delimiter).1, c ∉ delimiter) ∧
      ((∃ c ∈ (parseMessage line delimiter).1, c = '\n' ∨ c = '\r') ↔
        ∃ p m, find_first_of line delimiter 0 = some p ∧
          find_first_of line (CHAR_NEWLINE ++ CHAR_CARRIAGE_RETURN) 0 = some m ∧ m < p) ∧
      ((∃ c ∈ (parseMessage line delimiter).1, c = '\n' ∨ c = '\r') →
        (parseMessage line delimiter).2 = []) := by
  cases hp : find_first_of line delimiter 0 with
  | none =>
      rw [parseMessage_none line delimiter (Or.inl hp)]
      refine ⟨fun c hc => (by cases hc), fun c hc => (by cases hc), ⟨?_, ?_⟩, fun _ => rfl⟩
      · rintro ⟨c, hc, -⟩
        cases hc
      · rintro ⟨p, m, h, -⟩
        cases h
  | some p =>
      cases hm : find_first_of line (CHAR_NEWLINE ++ CHAR_CARRIAGE_RETURN) 0 with
      | none =>
          rw [parseMessage_none line delimiter (Or.inr hm)]
          refine ⟨fun c hc => (by cases hc), fun c hc => (by cases hc), ⟨?_, ?_⟩, fun _ => rfl⟩
          · rintro ⟨c, hc, -⟩
            cases hc
          · rintro ⟨p, m, -, h, -⟩
            cases h
      | some m =>
          rw [parseMessage_some line delimiter p m hp hm]
          rw [find_first_of_zero] at hp hm
          obtain ⟨pre, d, rest, hline, hpre, hd, hplen⟩ := findFirstOfFrom_split _ _ _ _ hp
          obtain ⟨pre2, t, rest2, hline2, hpre2, ht, hmlen⟩ := findFirstOfFrom_split _ _ _ _ hm
          rw [Nat.zero_add] at hplen hmlen
          have hterm : ∀ x ∈ pre2, x ≠ '\n' ∧ x ≠ '\r' := by
            intro x hx
            have := hpre2 x hx
            rw [isTerminator_iff] at this
            exact ⟨fun h => this (Or.inl h), fun h => this (Or.inr h)⟩
          have htype : substr line 0 p = pre := by
            rw [hline, hplen]
            exact substr_prefix pre (d :: rest)
          have hle : p ≤ m → ∀ x ∈ substr line 0 p, x ≠ '\n' ∧ x ≠ '\r' := by
            intro hpm x hx
            rw [hline2] at hx
            exact hterm x (mem_substr_of_split pre2 rest2 t 0 p (by omega) x hx)
          have hiff : (∃ c ∈ substr line 0 p, c = '\n' ∨ c = '\r') ↔ m < p := by
            constructor
            · rintro ⟨c, hc, hcterm⟩
              by_contra hnot
              have := hle (by omega) c hc
              rcases hcterm with h | h
              · exact this.1 h
              · exact this.2 h
            · intro hmp
              refine ⟨t, ?_, (isTerminator_iff t).1 ht⟩
              unfold substr
              rw [List.drop_zero, hline2, List.take_append_eq_append_take]
              apply List.mem_append_right
              obtain ⟨k, hk⟩ : ∃ k, p - pre2.length = k + 1 := ⟨p - pre2.length - 1, by omega⟩
              rw [hk, List.take_succ_cons]
              exact List.mem_cons_self _ _
          refine ⟨?_, ?_, ?_, ?_⟩
          · intro c hc
            simp only at hc
            split at hc
            · rename_i hlt
              rw [hline2] at hc
              exact hterm c (mem_substr_of_split pre2 rest2 t (p + 1) (m - 1 - p) (by omega) c hc)
            · cases hc
          · intro c hc
            simp only at hc
            rw [htype] at hc
            exact hpre c hc
          · simp only
            rw [hiff]
            constructor
            · intro hmp
              exact ⟨p, m, rfl, rfl, hmp⟩
            · rintro ⟨p2, m2, h1, h2, hlt⟩
              cases h1
              cases h2
              exact hlt
          · simp only
            intro h
            have := hiff.1 h
            rw [if_neg (by omega)]

end SerialPortGateway
